import Mathlib

/-!
# playbook: the search projection (query builder, ranking, reaction scripts)

A shallow embedding of the query builder of `services/ElasticSearchQueryWrapper.go`,
of the script generator of `services/ElasticSearchScriptWrapper.go` and of
`UpdateUserReaction` of `services/ElasticSearchWrapper.go`, with the properties
of the specification proved about them.

Conventions of the embedding:
* a Go method with a pointer receiver is a function from the receiver's state to
  its new state; a method that dereferences a pointer returns `Option`, `none`
  standing for the nil-pointer panic;
* Go `int` is `Int`, products are wrapped to 64 bits (`mulInt`);
* Go strings typed `Visibility`, `Vote`, `SortingType` stay strings: a request
  can carry any value, not only the declared constants.
-/

set_option autoImplicit false

namespace playbook

/-! ## Basic types -/

namespace uuid

/-- The type `uuid.UUID` (16 bytes), as the 128-bit number the bytes spell. -/
structure UUID where
  val : Nat
deriving DecidableEq

/-- The value `uuid.Nil`: all bytes zero. -/
def Nil : UUID := ⟨0⟩

end uuid

/-- Go `float64` values: not-a-number, the two infinities and the finite values
(as rationals). -/
inductive Float64 where
  | NaN
  | Inf (negative : Bool)
  | finite (q : ℚ)
deriving DecidableEq

/-- The Go comparison `x > 0.0`. -/
def Float64.gtZero : Float64 → Bool
  | .NaN => false
  | .Inf negative => !negative
  | .finite q => decide (0 < q)

/-- A Go `int` result brought back into the 64-bit two-complement range. -/
def wrapInt64 (x : Int) : Int := (x + 2 ^ 63) % 2 ^ 64 - 2 ^ 63

/-- Go `a * b` on `int`. -/
def mulInt (a b : Int) : Int := wrapInt64 (a * b)

namespace constants

/-- Modelled from the spec: package `constants` is not among the sources. The
index-field names it declares are kept symbolic, one constructor per constant
the query builder uses. The constants are pairwise distinct strings:
`CreatePickupLineIndex` uses them as the keys of one map literal. -/
inductive FieldName where
  | ELASTIC_USER_ID_FIELD
  | ELASTIC_VISIBLE_FIELD
  | ELASTIC_STARRED_BY_USER_FIELD
  | ELASTIC_UPVOTED_BY_USER_FIELD
  | ELASTIC_SUCCESS_PERCENTAGE_FIELD
  | ELASTIC_TITLE_FIELD
  | ELASTIC_CONTENT_FIELD
  | ELASTIC_TAG_FIELD
  | ELASTIC_USERNAME_FIELD
  | ELASTIC_DISPLAY_NAME_FIELD
  | ELASTIC_UPDATED_AT_FIELD
  | ELASTIC_NUMBER_OF_SUCCESSES
deriving DecidableEq

end constants

namespace entities

/-- Go `type Visibility string`. -/
abbrev Visibility := String

def All : Visibility := "ALL"
def Visible : Visibility := "VISIBLE"
def NotVisible : Visibility := "NOT_VISIBLE"

/-- Go `type Vote string`. -/
abbrev Vote := String

def None : Vote := "NONE"
def Upvote : Vote := "UPVOTE"
def Downvote : Vote := "DOWNVOTE"

/-- The fields of `entities.Reaction` the search side reads. -/
structure Reaction where
  PickupLineId : uuid.UUID := uuid.Nil
  UserId : uuid.UUID := uuid.Nil
  Starred : Bool := false
  Vote : Vote := ""
deriving DecidableEq

end entities

namespace filters

/-- Go `type SortingType string`. -/
abbrev SortingType := String

def New : SortingType := "NEW"
def BestOfAllTime : SortingType := "BEST_OF_ALL_TIME"
def Trending : SortingType := "TRENDING"
def Random : SortingType := "RANDOM"

/-- The struct `filters.PickupLineQueryFilters`; the defaults are Go zero values. -/
structure PickupLineQueryFilters where
  Page : Int := 0
  UserId : uuid.UUID := uuid.Nil
  Title : String := ""
  Starred : Bool := false
  OnlyUpvoted : Bool := false
  Visible : entities.Visibility := ""
  Tags : List String := []
  Content : String := ""
  SuccessPercentage : Float64 := .finite 0
  SortingType : SortingType := ""
deriving DecidableEq

end filters

/-! ## The query documents (`typedapi/types`) -/

namespace types

/-- The value of a term query (Go `FieldValue`, an `interface{}`): the builder
stores a `uuid.UUID`, a `bool` or a `string`. -/
inductive FieldValue where
  | uuid (u : uuid.UUID)
  | bool (b : Bool)
  | string (s : String)
deriving DecidableEq

/-- A `types.Query` used as a leaf clause: exactly one of `Term`, `Range`,
`MultiMatch`, `Match` is set, and the map it holds has one key.
`MultiMatch` is the `bool_prefix` multi-match the builder emits; each of its
fields is a constant followed by a literal suffix. -/
inductive Clause where
  | Term (field : constants.FieldName) (Value : FieldValue)
  | Range (field : constants.FieldName) (Gte : Float64)
  | MultiMatch (Query : String) (Fields : List (constants.FieldName × String))
  | Match (field : constants.FieldName) (Query : String)
deriving DecidableEq

/-- The struct `types.BoolQuery`, the four fields the builder touches. -/
structure BoolQuery where
  Filter : List Clause := []
  Must : List Clause := []
  Should : List Clause := []
  MinimumShouldMatch : Option Int := none
deriving DecidableEq

/-- The struct `types.FunctionScore` with one of `Gauss`, `FieldValueFactor`,
`RandomScore` set. -/
inductive FunctionScore where
  | Gauss (field : constants.FieldName) (Scale : String)
  | FieldValueFactor (Factor : Float64) (Field : constants.FieldName)
  | RandomScore (Field : String)
deriving DecidableEq

/-- The `types.Query` that `FunctionScoreQuery.Query` points to: the builder only
ever sets its `Bool`. -/
structure InnerQuery where
  Bool : Option BoolQuery := none
deriving DecidableEq

/-- The struct `types.FunctionScoreQuery`. -/
structure FunctionScoreQuery where
  Functions : List FunctionScore := []
  Query : Option InnerQuery := none
deriving DecidableEq

/-- The top-level `types.Query` of a request: `Bool` and `FunctionScore` are
pointers, `none` is nil. -/
structure Query where
  Bool : Option BoolQuery := none
  FunctionScore : Option FunctionScoreQuery := none
deriving DecidableEq

end types

namespace search

/-- The struct `search.Request`, the fields the wrapper sets. -/
structure Request where
  From : Option Int := none
  Size : Option Int := none
  Query : Option types.Query := none
deriving DecidableEq

end search

/-! ## The query wrapper (`services/ElasticSearchQueryWrapper.go`) -/

def SORT_BY_NEW_SCALE_IN_DAYS : Int := 1
def SORT_BY_TRENDING_SCALE_IN_DAYS : Int := 1
def SORT_BY_TRENDING_UPVOTE_WEIGHT : Float64 := .finite (3 / 2)
def SORT_BY_BEST_OF_ALL_TIME_UPVOTE_WEIGHT : Float64 := .finite (3 / 2)

/-- The struct `QueryWrapper`: the query it points to. -/
structure QueryWrapper where
  query : types.Query
deriving DecidableEq

/-- The struct `SearchRequestWrapper`, its `query` being the real `QueryWrapper`. -/
structure SearchRequestWrapper where
  request : search.Request
  query : QueryWrapper
deriving DecidableEq

def GetNewQueryWrapper : QueryWrapper :=
  { query :=
      { Bool := some {}
        FunctionScore := some { Functions := [], Query := some {} } } }

def GetNewElasticSearchRequestWrapper (queryWrapper : QueryWrapper) : SearchRequestWrapper :=
  { request := {}, query := queryWrapper }

namespace QueryWrapper

/-- Appends to `q.query.Bool.Filter`; a nil `Bool` panics. -/
def addToFilterQuery (q : QueryWrapper) (query : types.Clause) : Option QueryWrapper :=
  match q.query.Bool with
  | none => none
  | some b => some { query := { q.query with Bool := some { b with Filter := b.Filter ++ [query] } } }

/-- Appends to `q.query.Bool.Should`; a nil `Bool` panics. -/
def addToShouldQuery (q : QueryWrapper) (query : types.Clause) : Option QueryWrapper :=
  match q.query.Bool with
  | none => none
  | some b => some { query := { q.query with Bool := some { b with Should := b.Should ++ [query] } } }

/-- The statement `q.query.FunctionScore.Functions = append(..., function)` the
three scoring methods end with; a nil `FunctionScore` panics. -/
def addFunction (q : QueryWrapper) (function : types.FunctionScore) : Option QueryWrapper :=
  match q.query.FunctionScore with
  | none => none
  | some fs =>
    some { query := { q.query with FunctionScore := some { fs with Functions := fs.Functions ++ [function] } } }

def WithUserFilter (q : QueryWrapper) (userUUID : uuid.UUID) : Option QueryWrapper :=
  q.addToFilterQuery (.Term .ELASTIC_USER_ID_FIELD (.uuid userUUID))

/-- The scale is `strconv.Itoa(scaleInDays) + "d"`. -/
def WithTimeScoring (q : QueryWrapper) (scaleInDays : Int) : Option QueryWrapper :=
  q.addFunction (.Gauss .ELASTIC_UPDATED_AT_FIELD (toString scaleInDays ++ "d"))

def WithUpvotesScoring (q : QueryWrapper) (scoringWeight : Float64) : Option QueryWrapper :=
  q.addFunction (.FieldValueFactor scoringWeight .ELASTIC_NUMBER_OF_SUCCESSES)

def WithRandomScoring (q : QueryWrapper) : Option QueryWrapper :=
  q.addFunction (.RandomScore "_seq_no")

def SetMinimumShouldMatch (q : QueryWrapper) (minimumShouldMatch : Int) : Option QueryWrapper :=
  match q.query.Bool with
  | none => none
  | some b =>
    some { query := { q.query with Bool := some { b with MinimumShouldMatch := some minimumShouldMatch } } }

def WithVisibleFilter (q : QueryWrapper) (visible : Bool) : Option QueryWrapper :=
  q.addToFilterQuery (.Term .ELASTIC_VISIBLE_FIELD (.bool visible))

def WithStarredByUserFilter (q : QueryWrapper) (userUUID : uuid.UUID) : Option QueryWrapper :=
  q.addToFilterQuery (.Term .ELASTIC_STARRED_BY_USER_FIELD (.uuid userUUID))

def WithUpvotedByUserFilter (q : QueryWrapper) (userUUID : uuid.UUID) : Option QueryWrapper :=
  q.addToFilterQuery (.Term .ELASTIC_UPVOTED_BY_USER_FIELD (.uuid userUUID))

def WithSuccessPercentageFilter (q : QueryWrapper) (successPercentage : Float64) :
    Option QueryWrapper :=
  q.addToFilterQuery (.Range .ELASTIC_SUCCESS_PERCENTAGE_FIELD successPercentage)

def WithAutocompleteSuggestionShould (q : QueryWrapper) (fieldName : constants.FieldName)
    (value : String) : Option QueryWrapper :=
  q.addToShouldQuery (.MultiMatch value [(fieldName, ""), (fieldName, ".2gram"), (fieldName, ".3gram")])

def WithDisplayNameSuggestionShould (q : QueryWrapper) (displayName : String) : Option QueryWrapper :=
  q.WithAutocompleteSuggestionShould .ELASTIC_DISPLAY_NAME_FIELD displayName

def WithUsernameSuggestionShould (q : QueryWrapper) (username : String) : Option QueryWrapper :=
  q.WithAutocompleteSuggestionShould .ELASTIC_USERNAME_FIELD username

def WithTitleSuggestionShould (q : QueryWrapper) (title : String) : Option QueryWrapper :=
  q.WithAutocompleteSuggestionShould .ELASTIC_TITLE_FIELD title

def WithContentSuggestion (q : QueryWrapper) (content : String) : Option QueryWrapper :=
  q.addToShouldQuery (.Match .ELASTIC_CONTENT_FIELD content)

/-- The loop `for _, tagId := range tagIds`. -/
def WithTagsShould (q : QueryWrapper) : List String → Option QueryWrapper
  | [] => some q
  | tagId :: rest =>
    match q.addToShouldQuery (.Term .ELASTIC_TAG_FIELD (.string tagId)) with
    | none => none
    | some q1 => WithTagsShould q1 rest

/-- The method `GetQuery`: the returned pointer is `q.query` itself, so the query
returned is the query of the new state. With scoring functions the `Bool`
object is moved under `FunctionScore.Query` (both pointers name one object
while its `Must` and `Filter` are rewritten) and the top-level pointer is
cleared. -/
def GetQuery (q : QueryWrapper) : Option (types.Query × QueryWrapper) :=
  match q.query.FunctionScore with
  | none => none
  | some fs =>
    if fs.Functions.length > 0 then
      match fs.Query, q.query.Bool with
      | some inner, some b =>
        let moved : types.BoolQuery := { b with Must := b.Filter, Filter := [] }
        let query : types.Query :=
          { Bool := none
            FunctionScore := some { fs with Query := some { inner with Bool := some moved } } }
        some (query, { query := query })
      | _, _ => none
    else
      let query : types.Query := { q.query with FunctionScore := none }
      some (query, { query := query })

end QueryWrapper

namespace SearchRequestWrapper

def withOffset (e : SearchRequestWrapper) (offset : Int) : SearchRequestWrapper :=
  { e with request := { e.request with From := some offset } }

def withSize (e : SearchRequestWrapper) (size : Int) : SearchRequestWrapper :=
  { e with request := { e.request with Size := some size } }

/-- A call `e.query.M(...)` of a method `M` of the query wrapper. -/
def onQuery (e : SearchRequestWrapper) (M : QueryWrapper → Option QueryWrapper) :
    Option SearchRequestWrapper :=
  match M e.query with
  | none => none
  | some q => some { e with query := q }

def applySorting (e : SearchRequestWrapper) (pickupLineFilters : filters.PickupLineQueryFilters) :
    Option SearchRequestWrapper :=
  if pickupLineFilters.SortingType = filters.New then
    e.onQuery (·.WithTimeScoring SORT_BY_NEW_SCALE_IN_DAYS)
  else if pickupLineFilters.SortingType = filters.BestOfAllTime then
    e.onQuery (·.WithUpvotesScoring SORT_BY_BEST_OF_ALL_TIME_UPVOTE_WEIGHT)
  else if pickupLineFilters.SortingType = filters.Trending then
    (e.onQuery (·.WithTimeScoring SORT_BY_TRENDING_SCALE_IN_DAYS)).bind
      (·.onQuery (·.WithUpvotesScoring SORT_BY_TRENDING_UPVOTE_WEIGHT))
  else if pickupLineFilters.SortingType = filters.Random then
    e.onQuery (·.WithRandomScoring)
  else
    some e

/-- The method `applyFilters`. `ITEMS_FOR_PAGE` is the constant
`constants.ITEMS_FOR_PAGE`, whose declaration is not among the sources. -/
def applyFilters (ITEMS_FOR_PAGE : Int) (e : SearchRequestWrapper)
    (filters : filters.PickupLineQueryFilters) (requestingUser : uuid.UUID) :
    Option SearchRequestWrapper := do
  let e := e.withOffset (mulInt filters.Page ITEMS_FOR_PAGE)
  let e ← (if filters.Tags.length > 0 then e.onQuery (·.WithTagsShould filters.Tags) else some e)
  let e ← (if filters.Title ≠ "" then e.onQuery (·.WithTitleSuggestionShould filters.Title) else some e)
  let e ← (if filters.Content ≠ "" then e.onQuery (·.WithContentSuggestion filters.Content) else some e)
  let e ← (if filters.Starred then e.onQuery (·.WithStarredByUserFilter requestingUser) else some e)
  let e ←
    (if filters.OnlyUpvoted && (filters.UserId == uuid.Nil || filters.UserId == requestingUser) then
      e.onQuery (·.WithUpvotedByUserFilter requestingUser)
    else some e)
  let e ← (if filters.UserId ≠ uuid.Nil then e.onQuery (·.WithUserFilter filters.UserId) else some e)
  let e ←
    (if filters.SuccessPercentage.gtZero then
      e.onQuery (·.WithSuccessPercentageFilter filters.SuccessPercentage)
    else some e)
  let isRequestingSelfPickupLines : Bool := filters.UserId == requestingUser
  if filters.Visible ≠ "" then
    if filters.Visible = entities.NotVisible then
      if isRequestingSelfPickupLines then
        e.onQuery (·.WithVisibleFilter false)
      else
        e.onQuery (·.WithVisibleFilter true)
    else if filters.Visible = entities.Visible then
      e.onQuery (·.WithVisibleFilter true)
    else
      some e
  else if !isRequestingSelfPickupLines then
    e.onQuery (·.WithVisibleFilter true)
  else
    some e

/-- The method `getRequest`: stores the pointer `GetQuery` returns in
`e.request.Query` and returns `e.request`. -/
def getRequest (e : SearchRequestWrapper) : Option (search.Request × SearchRequestWrapper) :=
  match e.query.GetQuery with
  | none => none
  | some (query, q) =>
    let request : search.Request := { e.request with Query := some query }
    some (request, { request := request, query := q })

end SearchRequestWrapper

/-! ## Reading a built query -/

/-- The clause `visible = b` that `WithVisibleFilter b` registers. -/
def visibleClause (b : Bool) : types.Clause := .Term .ELASTIC_VISIBLE_FIELD (.bool b)

/-- The clause that `WithUpvotedByUserFilter u` registers. -/
def upvotedByUserClause (u : uuid.UUID) : types.Clause :=
  .Term .ELASTIC_UPVOTED_BY_USER_FIELD (.uuid u)

/-- The clause that `WithStarredByUserFilter u` registers. -/
def starredByUserClause (u : uuid.UUID) : types.Clause :=
  .Term .ELASTIC_STARRED_BY_USER_FIELD (.uuid u)

/-- The clause that `WithUserFilter u` registers (the owner filter). -/
def userClause (u : uuid.UUID) : types.Clause := .Term .ELASTIC_USER_ID_FIELD (.uuid u)

/-- The clause that `WithSuccessPercentageFilter p` registers. -/
def successPercentageClause (p : Float64) : types.Clause :=
  .Range .ELASTIC_SUCCESS_PERCENTAGE_FIELD p

/-- The should clause one tag id gives in `WithTagsShould`. -/
def tagClause (tagId : String) : types.Clause := .Term .ELASTIC_TAG_FIELD (.string tagId)

/-- The should clause that `WithTitleSuggestionShould title` registers. -/
def titleSuggestionClause (title : String) : types.Clause :=
  .MultiMatch title
    [(.ELASTIC_TITLE_FIELD, ""), (.ELASTIC_TITLE_FIELD, ".2gram"), (.ELASTIC_TITLE_FIELD, ".3gram")]

/-- The should clause that `WithContentSuggestion content` registers. -/
def contentClause (content : String) : types.Clause := .Match .ELASTIC_CONTENT_FIELD content

/-- A visibility clause: a term clause on the visible field. -/
def isVisibilityClause : types.Clause → Bool
  | .Term .ELASTIC_VISIBLE_FIELD _ => true
  | _ => false

/-- An upvoted-by-user clause: a term clause on the upvoted-by-user field. -/
def isUpvotedByUserClause : types.Clause → Bool
  | .Term .ELASTIC_UPVOTED_BY_USER_FIELD _ => true
  | _ => false

/-- The filter clauses of the wrapper's boolean query (none when it has no `Bool`). -/
def QueryWrapper.filterClauses (q : QueryWrapper) : List types.Clause :=
  match q.query.Bool with
  | some b => b.Filter
  | none => []

/-- The should clauses of the wrapper's boolean query (none when it has no `Bool`). -/
def QueryWrapper.shouldClauses (q : QueryWrapper) : List types.Clause :=
  match q.query.Bool with
  | some b => b.Should
  | none => []

/-- The `MinimumShouldMatch` of the wrapper's boolean query. -/
def QueryWrapper.minimumShouldMatch (q : QueryWrapper) : Option Int :=
  match q.query.Bool with
  | some b => b.MinimumShouldMatch
  | none => none

/-- The scoring functions registered in the wrapper (none when it has no
`FunctionScore`). -/
def QueryWrapper.scoringFunctions (q : QueryWrapper) : List types.FunctionScore :=
  match q.query.FunctionScore with
  | some fs => fs.Functions
  | none => []

/-- The wrapper a search starts from: a new request wrapper around a new query
wrapper. -/
def freshWrapper : SearchRequestWrapper := GetNewElasticSearchRequestWrapper GetNewQueryWrapper

/-- One call of a registering method of `QueryWrapperInterface` (every method
but `GetQuery`). -/
inductive QueryCall where
  | WithUserFilter (userUUID : uuid.UUID)
  | WithVisibleFilter (visible : Bool)
  | WithStarredByUserFilter (userUUID : uuid.UUID)
  | WithUpvotedByUserFilter (userUUID : uuid.UUID)
  | WithSuccessPercentageFilter (successPercentage : Float64)
  | WithTitleSuggestionShould (title : String)
  | WithContentSuggestion (content : String)
  | WithTagsShould (tagIds : List String)
  | WithUsernameSuggestionShould (username : String)
  | WithDisplayNameSuggestionShould (displayName : String)
  | SetMinimumShouldMatch (minimumShouldMatch : Int)
  | WithTimeScoring (scaleInDays : Int)
  | WithUpvotesScoring (scoringWeight : Float64)
  | WithRandomScoring
deriving DecidableEq

/-- The call `c` made on the wrapper `q`. -/
def QueryWrapper.call (q : QueryWrapper) : QueryCall → Option QueryWrapper
  | .WithUserFilter u => q.WithUserFilter u
  | .WithVisibleFilter v => q.WithVisibleFilter v
  | .WithStarredByUserFilter u => q.WithStarredByUserFilter u
  | .WithUpvotedByUserFilter u => q.WithUpvotedByUserFilter u
  | .WithSuccessPercentageFilter p => q.WithSuccessPercentageFilter p
  | .WithTitleSuggestionShould t => q.WithTitleSuggestionShould t
  | .WithContentSuggestion c => q.WithContentSuggestion c
  | .WithTagsShould tagIds => q.WithTagsShould tagIds
  | .WithUsernameSuggestionShould u => q.WithUsernameSuggestionShould u
  | .WithDisplayNameSuggestionShould d => q.WithDisplayNameSuggestionShould d
  | .SetMinimumShouldMatch m => q.SetMinimumShouldMatch m
  | .WithTimeScoring s => q.WithTimeScoring s
  | .WithUpvotesScoring w => q.WithUpvotesScoring w
  | .WithRandomScoring => q.WithRandomScoring

/-- The calls `cs` made one after the other on the wrapper `q`. -/
def QueryWrapper.calls (q : QueryWrapper) : List QueryCall → Option QueryWrapper
  | [] => some q
  | c :: cs =>
    match q.call c with
    | none => none
    | some q1 => q1.calls cs

/-- The visibility clauses `applyFilters` adds, read off its last statement. -/
def addedVisibility (f : filters.PickupLineQueryFilters) (r : uuid.UUID) : List types.Clause :=
  if f.Visible ≠ "" then
    if f.Visible = entities.NotVisible then
      if f.UserId = r then [visibleClause false] else [visibleClause true]
    else if f.Visible = entities.Visible then [visibleClause true]
    else []
  else if f.UserId = r then [] else [visibleClause true]

/-- The filter clauses `applyFilters` adds, in the order of its statements. -/
def addedFilters (f : filters.PickupLineQueryFilters) (r : uuid.UUID) : List types.Clause :=
  (if f.Starred then [starredByUserClause r] else []) ++
  (if f.OnlyUpvoted ∧ (f.UserId = uuid.Nil ∨ f.UserId = r) then [upvotedByUserClause r] else []) ++
  (if f.UserId ≠ uuid.Nil then [userClause f.UserId] else []) ++
  (if f.SuccessPercentage.gtZero then [successPercentageClause f.SuccessPercentage] else []) ++
  addedVisibility f r

/-- The should clauses `applyFilters` adds, in the order of its statements. -/
def addedShoulds (f : filters.PickupLineQueryFilters) : List types.Clause :=
  f.Tags.map tagClause ++
  (if f.Title ≠ "" then [titleSuggestionClause f.Title] else []) ++
  (if f.Content ≠ "" then [contentClause f.Content] else [])

/-- The scoring functions `applySorting` adds for a sort mode. -/
def addedFunctions (sortingType : filters.SortingType) : List types.FunctionScore :=
  if sortingType = filters.New then [.Gauss .ELASTIC_UPDATED_AT_FIELD "1d"]
  else if sortingType = filters.BestOfAllTime then
    [.FieldValueFactor (.finite (3 / 2)) .ELASTIC_NUMBER_OF_SUCCESSES]
  else if sortingType = filters.Trending then
    [.Gauss .ELASTIC_UPDATED_AT_FIELD "1d",
     .FieldValueFactor (.finite (3 / 2)) .ELASTIC_NUMBER_OF_SUCCESSES]
  else if sortingType = filters.Random then [.RandomScore "_seq_no"]
  else []

/-- A wrapper whose query has a `Bool` object `b`. -/
def wrapperOf (req : search.Request) (b : types.BoolQuery) (fso : Option types.FunctionScoreQuery) :
    SearchRequestWrapper :=
  { request := req, query := { query := { Bool := some b, FunctionScore := fso } } }

/-- The boolean query `b` with filter clauses `fs` and should clauses `ss` appended. -/
def types.BoolQuery.extend (b : types.BoolQuery) (fs ss : List types.Clause) : types.BoolQuery :=
  { b with Filter := b.Filter ++ fs, Should := b.Should ++ ss }

/-- The scoring function a call registers, if it registers one. -/
def QueryCall.function? : QueryCall → Option types.FunctionScore
  | .WithTimeScoring s => some (.Gauss .ELASTIC_UPDATED_AT_FIELD (toString s ++ "d"))
  | .WithUpvotesScoring w => some (.FieldValueFactor w .ELASTIC_NUMBER_OF_SUCCESSES)
  | .WithRandomScoring => some (.RandomScore "_seq_no")
  | _ => none

/-- The filter clause a call registers, if it registers one. -/
def QueryCall.filter? : QueryCall → Option types.Clause
  | .WithUserFilter u => some (userClause u)
  | .WithVisibleFilter v => some (visibleClause v)
  | .WithStarredByUserFilter u => some (starredByUserClause u)
  | .WithUpvotedByUserFilter u => some (upvotedByUserClause u)
  | .WithSuccessPercentageFilter p => some (successPercentageClause p)
  | _ => none

/-- The should clauses a call registers. -/
def QueryCall.shoulds : QueryCall → List types.Clause
  | .WithTitleSuggestionShould t => [titleSuggestionClause t]
  | .WithContentSuggestion c => [contentClause c]
  | .WithTagsShould tagIds => tagIds.map tagClause
  | .WithUsernameSuggestionShould u =>
    [.MultiMatch u [(.ELASTIC_USERNAME_FIELD, ""), (.ELASTIC_USERNAME_FIELD, ".2gram"),
      (.ELASTIC_USERNAME_FIELD, ".3gram")]]
  | .WithDisplayNameSuggestionShould d =>
    [.MultiMatch d [(.ELASTIC_DISPLAY_NAME_FIELD, ""), (.ELASTIC_DISPLAY_NAME_FIELD, ".2gram"),
      (.ELASTIC_DISPLAY_NAME_FIELD, ".3gram")]]
  | _ => []

/-- The scoring functions a sequence of calls registers, in registration order. -/
def registeredFunctions (cs : List QueryCall) : List types.FunctionScore :=
  cs.filterMap QueryCall.function?

/-- The filter clauses a sequence of calls registers, in registration order. -/
def registeredFilters (cs : List QueryCall) : List types.Clause :=
  cs.filterMap QueryCall.filter?

/-- The should clauses a sequence of calls registers, in registration order. -/
def registeredShoulds : List QueryCall → List types.Clause
  | [] => []
  | c :: cs => c.shoulds ++ registeredShoulds cs

/-- The value the last `SetMinimumShouldMatch` of a sequence of calls leaves,
starting from `m`. -/
def registeredMinimumShouldMatch (m : Option Int) : List QueryCall → Option Int
  | [] => m
  | .SetMinimumShouldMatch v :: cs => registeredMinimumShouldMatch (some v) cs
  | _ :: cs => registeredMinimumShouldMatch m cs

/-! ## The item document and the update scripts (`services/ElasticSearchScriptWrapper.go`) -/

namespace uuid

/-- A lower-case hexadecimal digit. -/
def hexDigit (n : Nat) : Char := if n < 10 then Char.ofNat (48 + n) else Char.ofNat (87 + n)

/-- The method `String()`: the 32 hexadecimal digits in groups of 8-4-4-4-12. -/
def UUID.String (u : UUID) : String :=
  let digits := (List.range 32).map (fun i => hexDigit (u.val / 16 ^ (31 - i) % 16))
  String.mk (digits.take 8 ++ ['-'] ++ (digits.drop 8).take 4 ++ ['-'] ++ (digits.drop 12).take 4 ++
    ['-'] ++ (digits.drop 16).take 4 ++ ['-'] ++ digits.drop 20)

end uuid

/-- The fields of an item document that only indexing and the metadata update
write (the JSON of `elastic_dtos.PickupLineElasticDTO` without its counters). -/
structure ItemMetadata where
  id : uuid.UUID := uuid.Nil
  title : String := ""
  content : String := ""
  tags : List uuid.UUID := []
  userId : uuid.UUID := uuid.Nil
  username : String := ""
  display_name : String := ""
  visible : Bool := false
  starred : Bool := false
  updatedAt : Int := 0
deriving DecidableEq

/-- The `_source` of an item document as the scripts see it: three membership
arrays, three counters and the percentage, each possibly absent (`null`), next
to the metadata. A double is given by its value, a rational. -/
structure ItemDocument where
  metadata : ItemMetadata := {}
  starredByUser : Option (List String) := none
  upvotedByUser : Option (List String) := none
  downvotedByUser : Option (List String) := none
  numberOfFailures : Option Int := none
  numberOfSuccesses : Option Int := none
  numberOfTries : Option Int := none
  successPercentage : Option ℚ := none
deriving DecidableEq

/-- The pieces of Painless source the script wrapper concatenates: the text
`NewScriptWrapper` starts with and the text each method appends. -/
inductive Fragment where
  | prologue
  | AddStarredByUser
  | RemoveStarredByUser
  | RemoveDownvotedByUser
  | RemoveUpvotedByUser
  | AddDownvotedByUser
  | AddUpvotedByUser
deriving DecidableEq

/-- The map `params` of the script wrapper: its three possible keys. -/
structure ScriptParams where
  starredByUser : Option String := none
  upvotedByUser : Option String := none
  downvotedByUser : Option String := none
deriving DecidableEq

/-- The struct `ScriptWrapper`: the source is the list of its fragments in order. -/
structure ScriptWrapper where
  source : List Fragment
  params : ScriptParams
deriving DecidableEq

def NewScriptWrapper : ScriptWrapper := { source := [.prologue], params := {} }

namespace ScriptWrapper

def AddStarredByUser (s : ScriptWrapper) (userId : uuid.UUID) : ScriptWrapper :=
  { source := s.source ++ [.AddStarredByUser]
    params := { s.params with starredByUser := some userId.String } }

def RemoveStarredByUser (s : ScriptWrapper) (userId : uuid.UUID) : ScriptWrapper :=
  { source := s.source ++ [.RemoveStarredByUser]
    params := { s.params with starredByUser := some userId.String } }

def RemoveDownvotedByUser (s : ScriptWrapper) (userId : uuid.UUID) : ScriptWrapper :=
  { source := s.source ++ [.RemoveDownvotedByUser]
    params := { s.params with downvotedByUser := some userId.String } }

def RemoveUpvotedByUser (s : ScriptWrapper) (userId : uuid.UUID) : ScriptWrapper :=
  { source := s.source ++ [.RemoveUpvotedByUser]
    params := { s.params with upvotedByUser := some userId.String } }

def AddDownvotedByUser (s : ScriptWrapper) (userId : uuid.UUID) : ScriptWrapper :=
  { source := s.source ++ [.AddDownvotedByUser]
    params := { s.params with downvotedByUser := some userId.String } }

def AddUpvotedByUser (s : ScriptWrapper) (userId : uuid.UUID) : ScriptWrapper :=
  { source := s.source ++ [.AddUpvotedByUser]
    params := { s.params with upvotedByUser := some userId.String } }

end ScriptWrapper

/-- The script `UpdateUserReaction` builds before it sends it to the engine. -/
def UpdateUserReaction (userId : uuid.UUID) (newReaction oldReaction : entities.Reaction) :
    ScriptWrapper :=
  let scriptWrapper := NewScriptWrapper
  let scriptWrapper :=
    if oldReaction.Starred ≠ newReaction.Starred then
      if newReaction.Starred then scriptWrapper.AddStarredByUser userId
      else scriptWrapper.RemoveStarredByUser userId
    else scriptWrapper
  if oldReaction.Vote ≠ newReaction.Vote then
    let scriptWrapper :=
      if newReaction.Vote = entities.Upvote then scriptWrapper.AddUpvotedByUser userId
      else if newReaction.Vote = entities.Downvote then scriptWrapper.AddDownvotedByUser userId
      else scriptWrapper
    if oldReaction.Vote = entities.Upvote then scriptWrapper.RemoveUpvotedByUser userId
    else if oldReaction.Vote = entities.Downvote then scriptWrapper.RemoveDownvotedByUser userId
    else scriptWrapper
  else scriptWrapper

/-! ### Double arithmetic (IEEE 754 binary64) -/

namespace binary64

/-- The integer nearest to a rational, a half going to the even one. -/
def roundHalfEven (r : ℚ) : Int :=
  if 2 * (r - ⌊r⌋) < 1 then ⌊r⌋
  else if 1 < 2 * (r - ⌊r⌋) then ⌊r⌋ + 1
  else if ⌊r⌋ % 2 = 0 then ⌊r⌋
  else ⌊r⌋ + 1

/-- The double nearest to a rational, as its value: the rational is scaled by
the power of two that brings it between 2^52 and 2^53, rounded to an integer (a
half going to the even one) and scaled back, so the mantissa has 53 bits. The
exponent is not bounded: the value is that of the IEEE 754 operation for
magnitudes from 2^-1022 up to 2^1024, which no value computed from 64-bit
counters leaves. -/
def nearest (x : ℚ) : ℚ :=
  if x = 0 then 0
  else
    (roundHalfEven (x / (2 : ℚ) ^ (Int.log 2 |x| - 52)) : ℚ) * (2 : ℚ) ^ (Int.log 2 |x| - 52)

/-- The conversion of an integer to a double (Go `float64(n)`, Java `(double) n`). -/
def ofInt (n : Int) : ℚ := nearest n

/-- The quotient of two doubles. -/
def div (a b : ℚ) : ℚ := nearest (a / b)

/-- The product of two doubles. -/
def mul (a b : ℚ) : ℚ := nearest (a * b)

end binary64

/-! ### Painless semantics of the fragments -/

namespace painless

/-- Java `Math.round` on a double, given by its value: the floor of `x + 1/2`,
kept within the range of `long`. -/
def round (x : ℚ) : Int := max (-(2 : Int) ^ 63) (min ((2 : Int) ^ 63 - 1) ⌊x + 1 / 2⌋)

/-- The statement every vote fragment ends with: the percentage recomputed from
the counters, `(double) Math.round((double) successes / (double) tries * 100) / 100`
when `numberOfTries != 0` and 0 otherwise. The two casts, the division, the
multiplication and the last division are operations on doubles. A null counter
is a script error. -/
def recomputePercentage (doc : ItemDocument) : Option ItemDocument :=
  match doc.numberOfSuccesses, doc.numberOfTries with
  | some successes, some tries =>
    if tries ≠ 0 then
      some { doc with
        successPercentage := some
          (binary64.div
            (binary64.ofInt
              (round
                (binary64.mul (binary64.div (binary64.ofInt successes) (binary64.ofInt tries))
                  100)))
            100) }
    else
      some { doc with successPercentage := some 0 }
  | none, some tries =>
    if tries ≠ 0 then none else some { doc with successPercentage := some 0 }
  | _, none => none

/-- The defensive prologue: each absent array becomes `[]`, each absent counter 0. -/
def prologue (doc : ItemDocument) : ItemDocument :=
  let doc := if doc.starredByUser = none then { doc with starredByUser := some [] } else doc
  let doc := if doc.upvotedByUser = none then { doc with upvotedByUser := some [] } else doc
  let doc := if doc.downvotedByUser = none then { doc with downvotedByUser := some [] } else doc
  let doc := if doc.numberOfFailures = none then { doc with numberOfFailures := some 0 } else doc
  let doc := if doc.numberOfSuccesses = none then { doc with numberOfSuccesses := some 0 } else doc
  if doc.numberOfTries = none then { doc with numberOfTries := some 0 } else doc

/-- The statement `ctx._source.starredByUser.add(params.starredByUser)`. A
generated script always carries the parameter its fragments read; a missing
one counts as a script error here, as a null array does. -/
def addStarredByUser (params : ScriptParams) (doc : ItemDocument) : Option ItemDocument :=
  match doc.starredByUser, params.starredByUser with
  | some arr, some p => some { doc with starredByUser := some (arr ++ [p]) }
  | _, _ => none

/-- The loop of `RemoveStarredByUser` from index `i - 1` down to 0. -/
def removeStarredLoop (p : String) : Nat → ItemDocument → Option ItemDocument
  | 0, doc => some doc
  | i + 1, doc =>
    match doc.starredByUser with
    | none => none
    | some arr =>
      match arr[i]? with
      | none => none
      | some x =>
        if x = p then removeStarredLoop p i { doc with starredByUser := some (arr.eraseIdx i) }
        else removeStarredLoop p i doc

/-- The fragment of `RemoveStarredByUser`: `i` starts at `length - 1`. -/
def removeStarredByUser (params : ScriptParams) (doc : ItemDocument) : Option ItemDocument :=
  match doc.starredByUser, params.starredByUser with
  | some arr, some p => removeStarredLoop p arr.length doc
  | _, _ => none

/-- The body of the `if` in the loop of `RemoveDownvotedByUser`, at index `i`. -/
def removeDownvotedAt (i : Nat) (arr : List String) (doc : ItemDocument) : Option ItemDocument :=
  match doc.numberOfFailures, doc.numberOfTries with
  | some failures, some tries =>
    recomputePercentage
      { doc with
        downvotedByUser := some (arr.eraseIdx i)
        numberOfFailures := some (failures - 1)
        numberOfTries := some (tries - 1) }
  | _, _ => none

/-- The loop of `RemoveDownvotedByUser` from index `i - 1` down to 0. -/
def removeDownvotedLoop (p : String) : Nat → ItemDocument → Option ItemDocument
  | 0, doc => some doc
  | i + 1, doc =>
    match doc.downvotedByUser with
    | none => none
    | some arr =>
      match arr[i]? with
      | none => none
      | some x =>
        if x = p then
          match removeDownvotedAt i arr doc with
          | none => none
          | some doc1 => removeDownvotedLoop p i doc1
        else removeDownvotedLoop p i doc

/-- The fragment of `RemoveDownvotedByUser`. -/
def removeDownvotedByUser (params : ScriptParams) (doc : ItemDocument) : Option ItemDocument :=
  match doc.downvotedByUser, params.downvotedByUser with
  | some arr, some p => removeDownvotedLoop p arr.length doc
  | _, _ => none

/-- The body of the `if` in the loop of `RemoveUpvotedByUser`, at index `i`. -/
def removeUpvotedAt (i : Nat) (arr : List String) (doc : ItemDocument) : Option ItemDocument :=
  match doc.numberOfSuccesses, doc.numberOfTries with
  | some successes, some tries =>
    recomputePercentage
      { doc with
        upvotedByUser := some (arr.eraseIdx i)
        numberOfSuccesses := some (successes - 1)
        numberOfTries := some (tries - 1) }
  | _, _ => none

/-- The loop of `RemoveUpvotedByUser` from index `i - 1` down to 0. -/
def removeUpvotedLoop (p : String) : Nat → ItemDocument → Option ItemDocument
  | 0, doc => some doc
  | i + 1, doc =>
    match doc.upvotedByUser with
    | none => none
    | some arr =>
      match arr[i]? with
      | none => none
      | some x =>
        if x = p then
          match removeUpvotedAt i arr doc with
          | none => none
          | some doc1 => removeUpvotedLoop p i doc1
        else removeUpvotedLoop p i doc

/-- The fragment of `RemoveUpvotedByUser`. -/
def removeUpvotedByUser (params : ScriptParams) (doc : ItemDocument) : Option ItemDocument :=
  match doc.upvotedByUser, params.upvotedByUser with
  | some arr, some p => removeUpvotedLoop p arr.length doc
  | _, _ => none

/-- The fragment of `AddDownvotedByUser`. -/
def addDownvotedByUser (params : ScriptParams) (doc : ItemDocument) : Option ItemDocument :=
  match doc.downvotedByUser, params.downvotedByUser, doc.numberOfFailures, doc.numberOfTries with
  | some arr, some p, some failures, some tries =>
    recomputePercentage
      { doc with
        downvotedByUser := some (arr ++ [p])
        numberOfFailures := some (failures + 1)
        numberOfTries := some (tries + 1) }
  | _, _, _, _ => none

/-- The fragment of `AddUpvotedByUser`. -/
def addUpvotedByUser (params : ScriptParams) (doc : ItemDocument) : Option ItemDocument :=
  match doc.upvotedByUser, params.upvotedByUser, doc.numberOfSuccesses, doc.numberOfTries with
  | some arr, some p, some successes, some tries =>
    recomputePercentage
      { doc with
        upvotedByUser := some (arr ++ [p])
        numberOfSuccesses := some (successes + 1)
        numberOfTries := some (tries + 1) }
  | _, _, _, _ => none

/-- One fragment run on a document; `none` is a script error (a null dereferenced). -/
def runFragment (params : ScriptParams) : Fragment → ItemDocument → Option ItemDocument
  | .prologue, doc => some (prologue doc)
  | .AddStarredByUser, doc => addStarredByUser params doc
  | .RemoveStarredByUser, doc => removeStarredByUser params doc
  | .RemoveDownvotedByUser, doc => removeDownvotedByUser params doc
  | .RemoveUpvotedByUser, doc => removeUpvotedByUser params doc
  | .AddDownvotedByUser, doc => addDownvotedByUser params doc
  | .AddUpvotedByUser, doc => addUpvotedByUser params doc

/-- The fragments run in order. -/
def runFragments (params : ScriptParams) : List Fragment → ItemDocument → Option ItemDocument
  | [], doc => some doc
  | fragment :: rest, doc =>
    match runFragment params fragment doc with
    | none => none
    | some doc1 => runFragments params rest doc1

end painless

/-- The scripted update of a document: the engine runs the script source with
the script parameters on the document. -/
def ScriptWrapper.run (s : ScriptWrapper) (doc : ItemDocument) : Option ItemDocument :=
  painless.runFragments s.params s.source doc

namespace painless

/-- The percentage the vote fragments store for given counters: the double
`(double) Math.round((double) successes / (double) tries * 100) / 100`. -/
def percentageOf (successes tries : Int) : ℚ :=
  if tries ≠ 0 then
    binary64.div
      (binary64.ofInt
        (round
          (binary64.mul (binary64.div (binary64.ofInt successes) (binary64.ofInt tries)) 100)))
      100
  else 0

end painless

/-- A document all of whose arrays and counters are present. -/
def initialisedDocument (m : ItemMetadata) (st up dn : List String) (f s t : Int) (pct : Option ℚ) :
    ItemDocument :=
  { metadata := m, starredByUser := some st, upvotedByUser := some up, downvotedByUser := some dn,
    numberOfFailures := some f, numberOfSuccesses := some s, numberOfTries := some t,
    successPercentage := pct }

/-- The percentage field after a removal loop: untouched when nothing matched. -/
def percentageAfter (removed : Nat) (s t : Int) (pct : Option ℚ) : Option ℚ :=
  if removed = 0 then pct else some (painless.percentageOf (s - removed) (t - removed))


/-! ## The script handed to the engine, and the fragments in closed form -/

namespace types

/-- The struct `types.Script`: language, parameters (each the JSON of a string)
and source. -/
structure Script where
  Lang : String
  Params : ScriptParams
  Source : List Fragment
deriving DecidableEq

end types

/-- The method `GetScript`: `json.Marshal` of a string does not fail, so the
error is always nil. -/
def ScriptWrapper.GetScript (s : ScriptWrapper) : types.Script :=
  { Lang := "painless", Params := s.params, Source := s.source }

/-- A document whose three arrays and three counters are present: what every
document is once the prologue has run. -/
structure CountedDocument where
  metadata : ItemMetadata
  starredByUser : List String
  upvotedByUser : List String
  downvotedByUser : List String
  numberOfFailures : Int
  numberOfSuccesses : Int
  numberOfTries : Int
  successPercentage : Option ℚ

/-- The item document a counted document stands for. -/
def CountedDocument.toDocument (c : CountedDocument) : ItemDocument :=
  initialisedDocument c.metadata c.starredByUser c.upvotedByUser c.downvotedByUser
    c.numberOfFailures c.numberOfSuccesses c.numberOfTries c.successPercentage

/-- The counted document the prologue makes of a document: absent arrays are
empty, absent counters are 0. -/
def CountedDocument.ofDocument (doc : ItemDocument) : CountedDocument :=
  { metadata := doc.metadata
    starredByUser := doc.starredByUser.getD []
    upvotedByUser := doc.upvotedByUser.getD []
    downvotedByUser := doc.downvotedByUser.getD []
    numberOfFailures := doc.numberOfFailures.getD 0
    numberOfSuccesses := doc.numberOfSuccesses.getD 0
    numberOfTries := doc.numberOfTries.getD 0
    successPercentage := doc.successPercentage }

/-- The effect of one fragment, run with the parameter value `u`, on a counted
document, in closed form: an add appends `u` and adds one to its counter and to
the tries; a remove drops every entry equal to `u` and subtracts their number;
the percentage is recomputed whenever a counter moved. -/
def Fragment.effect (u : String) : Fragment → CountedDocument → CountedDocument
  | .prologue, c => c
  | .AddStarredByUser, c => { c with starredByUser := c.starredByUser ++ [u] }
  | .RemoveStarredByUser, c => { c with starredByUser := c.starredByUser.filter (· ≠ u) }
  | .RemoveDownvotedByUser, c =>
    { c with
      downvotedByUser := c.downvotedByUser.filter (· ≠ u)
      numberOfFailures := c.numberOfFailures - (c.downvotedByUser.count u : Nat)
      numberOfTries := c.numberOfTries - (c.downvotedByUser.count u : Nat)
      successPercentage :=
        if c.downvotedByUser.count u = 0 then c.successPercentage
        else some (painless.percentageOf c.numberOfSuccesses
          (c.numberOfTries - (c.downvotedByUser.count u : Nat))) }
  | .RemoveUpvotedByUser, c =>
    { c with
      upvotedByUser := c.upvotedByUser.filter (· ≠ u)
      numberOfSuccesses := c.numberOfSuccesses - (c.upvotedByUser.count u : Nat)
      numberOfTries := c.numberOfTries - (c.upvotedByUser.count u : Nat)
      successPercentage :=
        percentageAfter (c.upvotedByUser.count u) c.numberOfSuccesses c.numberOfTries
          c.successPercentage }
  | .AddDownvotedByUser, c =>
    { c with
      downvotedByUser := c.downvotedByUser ++ [u]
      numberOfFailures := c.numberOfFailures + 1
      numberOfTries := c.numberOfTries + 1
      successPercentage := some (painless.percentageOf c.numberOfSuccesses (c.numberOfTries + 1)) }
  | .AddUpvotedByUser, c =>
    { c with
      upvotedByUser := c.upvotedByUser ++ [u]
      numberOfSuccesses := c.numberOfSuccesses + 1
      numberOfTries := c.numberOfTries + 1
      successPercentage :=
        some (painless.percentageOf (c.numberOfSuccesses + 1) (c.numberOfTries + 1)) }

/-- The fragments of a list, one after the other, in closed form. -/
def effects (u : String) (fragments : List Fragment) (c : CountedDocument) : CountedDocument :=
  fragments.foldl (fun c fragment => fragment.effect u c) c

/-- The parameter a fragment reads has the value `u`. -/
def ScriptParams.covers (params : ScriptParams) (u : String) : Fragment → Prop
  | .prologue => True
  | .AddStarredByUser => params.starredByUser = some u
  | .RemoveStarredByUser => params.starredByUser = some u
  | .RemoveDownvotedByUser => params.downvotedByUser = some u
  | .RemoveUpvotedByUser => params.upvotedByUser = some u
  | .AddDownvotedByUser => params.downvotedByUser = some u
  | .AddUpvotedByUser => params.upvotedByUser = some u

/-- The star fragment of the script `UpdateUserReaction` builds. -/
def starFragments (newReaction oldReaction : entities.Reaction) : List Fragment :=
  if oldReaction.Starred ≠ newReaction.Starred then
    [if newReaction.Starred then .AddStarredByUser else .RemoveStarredByUser]
  else []

/-- The add fragment for the new vote, when the vote differs. -/
def addVoteFragments (newReaction oldReaction : entities.Reaction) : List Fragment :=
  if oldReaction.Vote ≠ newReaction.Vote then
    if newReaction.Vote = entities.Upvote then [.AddUpvotedByUser]
    else if newReaction.Vote = entities.Downvote then [.AddDownvotedByUser]
    else []
  else []

/-- The remove fragment for the old vote, when the vote differs. -/
def removeVoteFragments (newReaction oldReaction : entities.Reaction) : List Fragment :=
  if oldReaction.Vote ≠ newReaction.Vote then
    if oldReaction.Vote = entities.Upvote then [.RemoveUpvotedByUser]
    else if oldReaction.Vote = entities.Downvote then [.RemoveDownvotedByUser]
    else []
  else []

/-- The counters of a counted document add up and its percentage is the one
recomputed from them. -/
def CountedDocument.Consistent (c : CountedDocument) : Prop :=
  c.numberOfTries = c.numberOfSuccesses + c.numberOfFailures ∧
  c.successPercentage = some (painless.percentageOf c.numberOfSuccesses c.numberOfTries)

/-- The vote fragments. -/
def Fragment.isVote : Fragment → Bool
  | .RemoveDownvotedByUser => true
  | .RemoveUpvotedByUser => true
  | .AddDownvotedByUser => true
  | .AddUpvotedByUser => true
  | _ => false

/-! ## Entities and the document projections (`services/ElasticSearchMapper.go`) -/

namespace entities

/-- The struct `entities.Tag`. -/
structure Tag where
  ID : uuid.UUID := uuid.Nil
  Name : String := ""
  Description : String := ""
  UserId : uuid.UUID := uuid.Nil
  ElasticSearchId : String := ""
deriving DecidableEq

/-- The struct `entities.User` without its association lists. -/
structure User where
  ID : uuid.UUID := uuid.Nil
  DisplayName : String := ""
  Username : String := ""
  Password : String := ""
deriving DecidableEq

/-- The struct `entities.Statistic`; the percentage, a float, is given by its
value. -/
structure Statistic where
  NumberOfSuccesses : Int := 0
  NumberOfFailures : Int := 0
  NumberOfTries : Int := 0
  SuccessPercentage : ℚ := 0
deriving DecidableEq

/-- The struct `entities.PickupLine`. The pointers `Statistics`, `UserReaction`
and `User` may be nil (`none`); `UpdatedAt` is an instant. -/
structure PickupLine where
  ID : uuid.UUID := uuid.Nil
  Title : String := ""
  Content : String := ""
  Tags : List Tag := []
  Statistics : Option Statistic := none
  Reactions : List Reaction := []
  UserReaction : Option Reaction := none
  Visible : Bool := false
  UpdatedAt : Int := 0
  User : Option User := none
  UserID : uuid.UUID := uuid.Nil
deriving DecidableEq

end entities

namespace elastic_dtos

/-- The struct `elastic_dtos.PickupLineElasticDTO`. -/
structure PickupLineElasticDTO where
  Id : uuid.UUID := uuid.Nil
  Title : String := ""
  Content : String := ""
  Tags : List uuid.UUID := []
  UserId : uuid.UUID := uuid.Nil
  Username : String := ""
  DisplayName : String := ""
  Visible : Bool := false
  Starred : Bool := false
  NumberOfSuccesses : Int := 0
  NumberOfFailures : Int := 0
  NumberOfTries : Int := 0
  SuccessPercentage : ℚ := 0
  UpdatedAt : Int := 0
deriving DecidableEq

/-- The struct `elastic_dtos.UpdatePickupLineElasticDTO`. -/
structure UpdatePickupLineElasticDTO where
  Title : String := ""
  Content : String := ""
  Tags : List uuid.UUID := []
  Visible : Bool := false
  UpdatedAt : Int := 0
deriving DecidableEq

end elastic_dtos

/-- The method `pickupLineToElasticDTO`; a nil `User` panics. The counters and
`Starred` are left at their zero values. -/
def pickupLineToElasticDTO (pickupLine : entities.PickupLine) :
    Option elastic_dtos.PickupLineElasticDTO :=
  let tags := pickupLine.Tags.map (fun tag => tag.ID)
  match pickupLine.User with
  | none => none
  | some user =>
    some
      { Id := pickupLine.ID
        Title := pickupLine.Title
        Content := pickupLine.Content
        Tags := tags
        UserId := user.ID
        Username := user.Username
        DisplayName := user.DisplayName
        Visible := pickupLine.Visible
        UpdatedAt := pickupLine.UpdatedAt }

/-- The method `pickupLineToUpdateElasticDTO`. -/
def pickupLineToUpdateElasticDTO (pickupLine : entities.PickupLine) :
    elastic_dtos.UpdatePickupLineElasticDTO :=
  let tags := pickupLine.Tags.map (fun tag => tag.ID)
  { Title := pickupLine.Title
    Content := pickupLine.Content
    Tags := tags
    Visible := pickupLine.Visible
    UpdatedAt := pickupLine.UpdatedAt }

/-- The document the engine stores when `IndexPickupLine` sends the JSON of a
full projection: every field of the DTO, and none of the three arrays. -/
def indexedDocument (dto : elastic_dtos.PickupLineElasticDTO) : ItemDocument :=
  { metadata :=
      { id := dto.Id, title := dto.Title, content := dto.Content, tags := dto.Tags
        userId := dto.UserId, username := dto.Username, display_name := dto.DisplayName
        visible := dto.Visible, starred := dto.Starred, updatedAt := dto.UpdatedAt }
    numberOfFailures := some dto.NumberOfFailures
    numberOfSuccesses := some dto.NumberOfSuccesses
    numberOfTries := some dto.NumberOfTries
    successPercentage := some dto.SuccessPercentage }

/-- The document after the engine merged the JSON of a metadata projection into
it (`UpdatePickupLine`): the five fields of the DTO are replaced. -/
def mergedDocument (dto : elastic_dtos.UpdatePickupLineElasticDTO) (doc : ItemDocument) :
    ItemDocument :=
  { doc with
    metadata :=
      { doc.metadata with
        title := dto.Title, content := dto.Content, tags := dto.Tags
        visible := dto.Visible, updatedAt := dto.UpdatedAt } }

/-- The item-document states the system reaches: a freshly indexed document,
then any sequence of generated reaction scripts (any user, any old and new
reaction) and metadata updates. -/
inductive Reachable : ItemDocument → Prop where
  | indexed (pickupLine : entities.PickupLine) (dto : elastic_dtos.PickupLineElasticDTO) :
      pickupLineToElasticDTO pickupLine = some dto → Reachable (indexedDocument dto)
  | script (doc doc1 : ItemDocument) (userId : uuid.UUID)
      (newReaction oldReaction : entities.Reaction) :
      Reachable doc → (UpdateUserReaction userId newReaction oldReaction).run doc = some doc1 →
      Reachable doc1
  | updated (doc : ItemDocument) (pickupLine : entities.PickupLine) :
      Reachable doc → Reachable (mergedDocument (pickupLineToUpdateElasticDTO pickupLine) doc)

/-! ## Errors, requests and responses -/

/-- A non-nil Go `error`: a value with an identity of its own, or one wrapping
another error. The nil error is `none` of `Option error`. -/
inductive error where
  | New (identity : Nat)
  | Wrap (identity : Nat) (err : error)
deriving DecidableEq

namespace errors

/-- The function `errors.Is`: the target is the error or one it wraps. -/
def Is : error → error → Bool
  | .New identity, target => decide (error.New identity = target)
  | .Wrap identity err, target => decide (error.Wrap identity err = target) || Is err target

end errors

namespace gorm

/-- The sentinel `gorm.ErrRecordNotFound`. -/
def ErrRecordNotFound : error := .New 0

end gorm

namespace requests

/-- The struct `requests.TagIdRequest`. -/
structure TagIdRequest where
  ID : String := ""
deriving DecidableEq

/-- The struct `requests.PickupLineBodyRequest`; an entry of `Tags` is a pointer
and may be nil. -/
structure PickupLineBodyRequest where
  Title : String := ""
  Content : String := ""
  Tags : List (Option TagIdRequest) := []
  Visible : Bool := false
deriving DecidableEq

end requests

namespace mappers

/-- The method `DtoMapper.GetPickupLineEntityFromDTO`. -/
def GetPickupLineEntityFromDTO (pickupLineDTO : requests.PickupLineBodyRequest) :
    entities.PickupLine :=
  { Title := pickupLineDTO.Title
    Content := pickupLineDTO.Content
    Visible := pickupLineDTO.Visible }

end mappers

namespace responses

/-- The struct `responses.BaseUserInfoResponse`. -/
structure BaseUserInfoResponse where
  ID : uuid.UUID := uuid.Nil
  DisplayName : String := ""
  Username : String := ""
deriving DecidableEq

/-- The struct `responses.SinglePickupLineInfoResponse`. -/
structure SinglePickupLineInfoResponse where
  ID : uuid.UUID := uuid.Nil
  Title : String := ""
  Content : String := ""
  Tags : List entities.Tag := []
  Statistics : Option entities.Statistic := none
  UserReaction : Option entities.Reaction := none
  Visible : Bool := false
  UpdatedAt : Int := 0
  User : Option BaseUserInfoResponse := none
deriving DecidableEq

/-- The struct `responses.ElasticSearchPickupLineResponse`. -/
structure ElasticSearchPickupLineResponse where
  Total : Int := 0
  Users : List SinglePickupLineInfoResponse := []
deriving DecidableEq

/-- The function `NewBaseUserInfoResponse`; a nil user panics. -/
def NewBaseUserInfoResponse (user : Option entities.User) : Option BaseUserInfoResponse :=
  match user with
  | none => none
  | some user => some { ID := user.ID, DisplayName := user.DisplayName, Username := user.Username }

/-- The function `NewSinglePickupLineInfoResponse`. -/
def NewSinglePickupLineInfoResponse (pickupLine : entities.PickupLine) :
    Option SinglePickupLineInfoResponse :=
  match NewBaseUserInfoResponse pickupLine.User with
  | none => none
  | some user =>
    some
      { ID := pickupLine.ID
        Title := pickupLine.Title
        Content := pickupLine.Content
        Tags := pickupLine.Tags
        Statistics := pickupLine.Statistics
        UserReaction := pickupLine.UserReaction
        Visible := pickupLine.Visible
        UpdatedAt := pickupLine.UpdatedAt
        User := some user }

end responses

namespace types

/-- The struct `types.TotalHits`, its count only. -/
structure TotalHits where
  Value : Int := 0

/-- One hit of a search response. The bytes of `Source_` stand as what
`json.Unmarshal` makes of them: the item projection, or the decoding error. -/
structure Hit where
  Source_ : Except error elastic_dtos.PickupLineElasticDTO

/-- The struct `types.HitsMetadata`; `Total` is a pointer. -/
structure HitsMetadata where
  Hits : List Hit := []
  Total : Option TotalHits := none

end types

namespace search

/-- The struct `search.Response`, its hits only. -/
structure Response where
  Hits : types.HitsMetadata := {}

end search

/-! ## Collaborators and the calls made on them

The services reach the relational store and the search engine through
interfaces. A collaborator is stateful, so each of its methods is a function of
the calls made so far (on any collaborator) and of its arguments; a service
method takes the calls made so far and returns them extended by its own. -/

/-- One call on a collaborator, with its arguments; a pointer argument is shown
as the value it points to when the call is made. -/
inductive Call where
  | PickupLineRepository_Create (pickupLine : entities.PickupLine)
  | PickupLineRepository_Update (pickupLine : entities.PickupLine)
  | PickupLineRepository_Delete (pickupLine : entities.PickupLine)
  | PickupLineRepository_GetByIdAndUserId (pickupLineUUID userUUID : uuid.UUID)
  | PickupLineRepository_GetReactionByPickupLineIdAndUserId (pickupLineUUID userUUID : uuid.UUID)
  | PickupLineRepository_UpdateReaction (reaction : entities.Reaction)
  | TagService_GetListByTagIdAndUserIdList (tagList : List (List uuid.UUID))
  | TagRepository_GetListByTagIdAndUserIdList (tagList : List (List uuid.UUID))
  | ElasticSearchWrapper_IndexPickupLine (pickupLine : entities.PickupLine)
  | ElasticSearchWrapper_DeletePickupLine (pickupLineUUID : uuid.UUID)
  | ElasticSearchWrapper_UpdatePickupLine (pickupLine : entities.PickupLine)
  | ElasticSearchWrapper_UpdateUserReaction (userId pickupLineUUID : uuid.UUID)
      (newReaction : entities.Reaction) (oldReaction : Option entities.Reaction)
  | PickupLineRepository_GetPickupLineForVisibilityCheck (pickupLineUUID : uuid.UUID)
  | UserRepository_Create (user : entities.User)
  | UserRepository_Delete (user : entities.User)
  | TagRepository_Delete (tag : entities.Tag)
  | ElasticSearchWrapper_IndexUser (user : entities.User)
  | ElasticSearchWrapper_DeleteTag (tag : entities.Tag)
  | TypedClient_Search (request : search.Request)
deriving DecidableEq

/-- Whether the call is one on the search engine. -/
def Call.onSearchEngine : Call → Bool
  | .ElasticSearchWrapper_IndexPickupLine _ => true
  | .ElasticSearchWrapper_DeletePickupLine _ => true
  | .ElasticSearchWrapper_UpdatePickupLine _ => true
  | .ElasticSearchWrapper_UpdateUserReaction _ _ _ _ => true
  | .ElasticSearchWrapper_IndexUser _ => true
  | .ElasticSearchWrapper_DeleteTag _ => true
  | .TypedClient_Search _ => true
  | _ => false

/-- Whether the call writes to the relational store. -/
def Call.isRelationalWrite : Call → Bool
  | .PickupLineRepository_Create _ => true
  | .PickupLineRepository_Update _ => true
  | .PickupLineRepository_Delete _ => true
  | .PickupLineRepository_UpdateReaction _ => true
  | .UserRepository_Create _ => true
  | .UserRepository_Delete _ => true
  | .TagRepository_Delete _ => true
  | _ => false

/-- Whether the call deletes the relational row of an item. -/
def Call.isRelationalDelete : Call → Bool
  | .PickupLineRepository_Delete _ => true
  | _ => false

/-- The tag identifiers a call asks the relational store or the tag service to
look up: the first entry of every (tag id, owner id) pair. -/
def Call.tagIdsLookedUp : Call → List uuid.UUID
  | .TagService_GetListByTagIdAndUserIdList tagList => tagList.filterMap List.head?
  | .TagRepository_GetListByTagIdAndUserIdList tagList => tagList.filterMap List.head?
  | _ => []

namespace repositories

/-- The methods of `repositories.PickupLineRepositoryInterface` the services
below use. `Create`, `Update` and `UpdateReaction` may write to the entity they
are handed, so they return it with their error; a lookup returns a pointer that
may be nil. -/
structure PickupLineRepositoryInterface where
  Create : List Call → entities.PickupLine → entities.PickupLine × Option error
  Update : List Call → entities.PickupLine → entities.PickupLine × Option error
  Delete : List Call → entities.PickupLine → Option error
  GetByIdAndUserId : List Call → uuid.UUID → uuid.UUID →
    Option entities.PickupLine × Option error
  GetReactionByPickupLineIdAndUserId : List Call → uuid.UUID → uuid.UUID →
    Option entities.Reaction × Option error
  UpdateReaction : List Call → entities.Reaction → entities.Reaction × Option error
  GetPickupLineForVisibilityCheck : List Call → uuid.UUID →
    Option entities.PickupLine × Option error

/-- The methods of `repositories.TagRepositoryInterface` the mapper and the tag
service use. -/
structure TagRepositoryInterface where
  GetListByTagIdAndUserIdList : List Call → List (List uuid.UUID) →
    List entities.Tag × Option error
  Delete : List Call → entities.Tag → Option error

/-- The methods of `repositories.UserRepositoryInterface` the user service uses;
`Create` may write to the entity it is handed. -/
structure UserRepositoryInterface where
  Create : List Call → entities.User → entities.User × Option error
  Delete : List Call → entities.User → Option error

end repositories

/-- The method of `TagServiceInterface` the item service uses. -/
structure TagServiceInterface where
  GetListByTagIdAndUserIdList : List Call → List (List uuid.UUID) →
    List entities.Tag × Option error

/-- The methods of `ElasticSearchWrapperInterface` the services use; they read
the entities they are handed. -/
structure ElasticSearchWrapperInterface where
  IndexPickupLine : List Call → entities.PickupLine → Option error
  DeletePickupLine : List Call → uuid.UUID → Option error
  UpdatePickupLine : List Call → entities.PickupLine → Option error
  UpdateUserReaction : List Call → uuid.UUID → uuid.UUID → entities.Reaction →
    Option entities.Reaction → Option error
  IndexUser : List Call → entities.User → Option error
  DeleteTag : List Call → entities.Tag → Option error

/-! ## The item service (`services/PickupLineService.go`) -/

/-- The struct `PickupLineService`; its `dtoMapper` is `mappers.DtoMapper`. -/
structure PickupLineService where
  pickupLineRepository : repositories.PickupLineRepositoryInterface
  tagService : TagServiceInterface
  elasticSearchWrapper : ElasticSearchWrapperInterface

namespace PickupLineService

/-- The loop of `GetTagsFromRequest` from the given list of pairs on: the pairs
of all the raw tags, or the first parsing error; `none` when a raw tag is nil. -/
def tagSearchList (Parse : String → uuid.UUID × Option error) (userUUID : uuid.UUID) :
    List (Option requests.TagIdRequest) → List (List uuid.UUID) →
      Option (Except error (List (List uuid.UUID)))
  | [], tagSearchList => some (.ok tagSearchList)
  | none :: _, _ => none
  | some tag :: rawTags, tagSearchList =>
    match Parse tag.ID with
    | (_, some err) => some (.error err)
    | (tagUUID, none) =>
      PickupLineService.tagSearchList Parse userUUID rawTags (tagSearchList ++ [[tagUUID, userUUID]])

/-- The method `GetTagsFromRequest`, with `uuid.Parse` as `Parse`. The result is
`none` when the method panics. -/
def GetTagsFromRequest (u : PickupLineService) (Parse : String → uuid.UUID × Option error)
    (rawTags : List (Option requests.TagIdRequest)) (userUUID : uuid.UUID)
    (calls : List Call) : Option (List entities.Tag × Option error) × List Call :=
  if rawTags.length = 0 then (some ([], none), calls)
  else
    match tagSearchList Parse userUUID rawTags [] with
    | none => (none, calls)
    | some (.error err) => (some ([], some err), calls)
    | some (.ok tagSearchList) =>
      match u.tagService.GetListByTagIdAndUserIdList calls tagSearchList with
      | (_, some err) =>
        (some ([], some err), calls ++ [.TagService_GetListByTagIdAndUserIdList tagSearchList])
      | (tags, none) =>
        (some (tags, none), calls ++ [.TagService_GetListByTagIdAndUserIdList tagSearchList])

/-- The entity `Create` hands to the relational store. -/
def entityToCreate (pickupLineDTO : requests.PickupLineBodyRequest) (user : entities.User)
    (tags : List entities.Tag) : entities.PickupLine :=
  { mappers.GetPickupLineEntityFromDTO pickupLineDTO with
    User := some user, Tags := tags, Statistics := some {} }

/-- The method `Create`. The result is `none` when the method panics (a nil
`user`, a nil raw tag), else the entity and the error returned. -/
def Create (u : PickupLineService) (Parse : String → uuid.UUID × Option error)
    (pickupLineDTO : requests.PickupLineBodyRequest) (user : Option entities.User)
    (calls : List Call) : Option (Option entities.PickupLine × Option error) × List Call :=
  match user with
  | none => (none, calls)
  | some user =>
    match u.GetTagsFromRequest Parse pickupLineDTO.Tags user.ID calls with
    | (none, calls) => (none, calls)
    | (some (_, some err), calls) => (some (none, some err), calls)
    | (some (tags, none), calls) =>
      let pickupLineEntity := entityToCreate pickupLineDTO user tags
      match u.pickupLineRepository.Create calls pickupLineEntity with
      | (_, some err) =>
        (some (none, some err), calls ++ [.PickupLineRepository_Create pickupLineEntity])
      | (created, none) =>
        let calls := calls ++ [.PickupLineRepository_Create pickupLineEntity]
        match u.elasticSearchWrapper.IndexPickupLine calls created with
        | some err =>
          (some (none, some err),
            calls ++ [.ElasticSearchWrapper_IndexPickupLine created,
              .ElasticSearchWrapper_DeletePickupLine created.ID,
              .PickupLineRepository_Delete created])
        | none =>
          (some (some created, none), calls ++ [.ElasticSearchWrapper_IndexPickupLine created])

/-- The method `Delete`. The result is `none` when the method panics (the
lookup returns neither an entity nor an error), else the error returned. -/
def Delete (u : PickupLineService) (pickupLineUUID userUUID : uuid.UUID) (calls : List Call) :
    Option (Option error) × List Call :=
  match u.pickupLineRepository.GetByIdAndUserId calls pickupLineUUID userUUID with
  | (_, some err) =>
    (some (some err), calls ++ [.PickupLineRepository_GetByIdAndUserId pickupLineUUID userUUID])
  | (none, none) =>
    (none, calls ++ [.PickupLineRepository_GetByIdAndUserId pickupLineUUID userUUID])
  | (some pickupLineToDelete, none) =>
    let calls := calls ++ [.PickupLineRepository_GetByIdAndUserId pickupLineUUID userUUID]
    match u.elasticSearchWrapper.DeletePickupLine calls pickupLineToDelete.ID with
    | some err =>
      (some (some err), calls ++ [.ElasticSearchWrapper_DeletePickupLine pickupLineToDelete.ID])
    | none =>
      let calls := calls ++ [.ElasticSearchWrapper_DeletePickupLine pickupLineToDelete.ID]
      (some (u.pickupLineRepository.Delete calls pickupLineToDelete),
        calls ++ [.PickupLineRepository_Delete pickupLineToDelete])

/-- The method `UpdateReactionByUser`: the error returned. -/
def UpdateReactionByUser (u : PickupLineService) (userUUID pickupLineUUID : uuid.UUID)
    (newReaction : entities.Reaction) (calls : List Call) : Option error × List Call :=
  match u.pickupLineRepository.GetReactionByPickupLineIdAndUserId calls pickupLineUUID
      userUUID with
  | (oldReaction, err) =>
    let calls :=
      calls ++ [.PickupLineRepository_GetReactionByPickupLineIdAndUserId pickupLineUUID userUUID]
    if err.any (fun err => !errors.Is err gorm.ErrRecordNotFound) then (err, calls)
    else
      match u.pickupLineRepository.UpdateReaction calls newReaction with
      | (_, some err) => (some err, calls ++ [.PickupLineRepository_UpdateReaction newReaction])
      | (saved, none) =>
        let calls := calls ++ [.PickupLineRepository_UpdateReaction newReaction]
        (u.elasticSearchWrapper.UpdateUserReaction calls userUUID pickupLineUUID saved
            oldReaction,
          calls ++ [.ElasticSearchWrapper_UpdateUserReaction userUUID pickupLineUUID saved
            oldReaction])

/-- The entity `Update` hands to the relational store. -/
def entityToUpdate (pickupLineToUpdate : entities.PickupLine)
    (pickupLineDTO : requests.PickupLineBodyRequest) (tags : List entities.Tag) :
    entities.PickupLine :=
  { pickupLineToUpdate with
    Title := pickupLineDTO.Title
    Content := pickupLineDTO.Content
    Visible := pickupLineDTO.Visible
    Tags := tags }

/-- The method `Update`. The result is `none` when the method panics (a nil raw
tag, a lookup that returns neither an entity nor an error). -/
def Update (u : PickupLineService) (Parse : String → uuid.UUID × Option error)
    (pickupLineUUID : uuid.UUID) (pickupLineDTO : requests.PickupLineBodyRequest)
    (userUUID : uuid.UUID) (calls : List Call) :
    Option (Option entities.PickupLine × Option error) × List Call :=
  match u.pickupLineRepository.GetByIdAndUserId calls pickupLineUUID userUUID with
  | (_, some err) =>
    (some (none, some err),
      calls ++ [.PickupLineRepository_GetByIdAndUserId pickupLineUUID userUUID])
  | (pickupLineToUpdate, none) =>
    match u.GetTagsFromRequest Parse pickupLineDTO.Tags userUUID
        (calls ++ [.PickupLineRepository_GetByIdAndUserId pickupLineUUID userUUID]) with
    | (none, calls) => (none, calls)
    | (some (_, some err), calls) => (some (none, some err), calls)
    | (some (tags, none), calls) =>
      match pickupLineToUpdate with
      | none => (none, calls)
      | some pickupLineToUpdate =>
        let pickupLineToUpdate := entityToUpdate pickupLineToUpdate pickupLineDTO tags
        match u.pickupLineRepository.Update calls pickupLineToUpdate with
        | (_, some err) =>
          (some (none, some err), calls ++ [.PickupLineRepository_Update pickupLineToUpdate])
        | (updated, none) =>
          let calls := calls ++ [.PickupLineRepository_Update pickupLineToUpdate]
          (some (some updated, u.elasticSearchWrapper.UpdatePickupLine calls updated),
            calls ++ [.ElasticSearchWrapper_UpdatePickupLine updated])

/-- The method `CanUserSeePickupLine`; the log line of the failing lookup is
left out. The result is `none` when the method panics: the lookup returns
neither an entity nor an error, or the item is hidden and its `User` is nil. -/
def CanUserSeePickupLine (u : PickupLineService) (pickupLineUUID userUUID : uuid.UUID)
    (calls : List Call) : Option Bool × List Call :=
  match u.pickupLineRepository.GetPickupLineForVisibilityCheck calls pickupLineUUID with
  | (_, some _) =>
    (some false, calls ++ [.PickupLineRepository_GetPickupLineForVisibilityCheck pickupLineUUID])
  | (none, none) =>
    (none, calls ++ [.PickupLineRepository_GetPickupLineForVisibilityCheck pickupLineUUID])
  | (some pickupLine, none) =>
    if pickupLine.Visible then
      (some true,
        calls ++ [.PickupLineRepository_GetPickupLineForVisibilityCheck pickupLineUUID])
    else
      match pickupLine.User with
      | none =>
        (none, calls ++ [.PickupLineRepository_GetPickupLineForVisibilityCheck pickupLineUUID])
      | some user =>
        (some (user.ID == userUUID),
          calls ++ [.PickupLineRepository_GetPickupLineForVisibilityCheck pickupLineUUID])

end PickupLineService

/-! ## Hydration of search hits (`services/ElasticSearchMapper.go`) -/

/-- The struct `ElasticSearchMapper`. -/
structure ElasticSearchMapper where
  tagRepository : repositories.TagRepositoryInterface
  pickupLineRepository : repositories.PickupLineRepositoryInterface

/-- The function `elasticDtoToPickupLine`. -/
def elasticDtoToPickupLine (elasticDTO : elastic_dtos.PickupLineElasticDTO)
    (tags : List entities.Tag) (reaction : Option entities.Reaction) : entities.PickupLine :=
  { ID := elasticDTO.Id
    Title := elasticDTO.Title
    Content := elasticDTO.Content
    Visible := elasticDTO.Visible
    User := some
      { ID := elasticDTO.UserId
        Username := elasticDTO.Username
        DisplayName := elasticDTO.DisplayName }
    UserReaction := reaction
    Tags := tags
    Statistics := some
      { NumberOfSuccesses := elasticDTO.NumberOfSuccesses
        NumberOfTries := elasticDTO.NumberOfTries
        NumberOfFailures := elasticDTO.NumberOfFailures
        SuccessPercentage := elasticDTO.SuccessPercentage }
    UpdatedAt := elasticDTO.UpdatedAt }

namespace ElasticSearchMapper

/-- The first loop of `elasticDtoToTags` from the given `tagsToSearch` and `tags`
on: a tag id found in `tagsCache` (a map, as its list of entries) gives its tag,
any other is put on the list of pairs to search. -/
def sortTagIds (userUUID : uuid.UUID) (tagsCache : List (String × entities.Tag)) :
    List uuid.UUID → List (List uuid.UUID) × List entities.Tag →
      List (List uuid.UUID) × List entities.Tag
  | [], result => result
  | tagId :: tagIds, (tagsToSearch, tags) =>
    match tagsCache.lookup tagId.String with
    | none => sortTagIds userUUID tagsCache tagIds (tagsToSearch ++ [[tagId, userUUID]], tags)
    | some tag => sortTagIds userUUID tagsCache tagIds (tagsToSearch, tags ++ [tag])

/-- The second loop of `elasticDtoToTags`: every tag of the list is written to
the cache and appended to `tags`. -/
def cacheTags : List entities.Tag → List (String × entities.Tag) × List entities.Tag →
    List (String × entities.Tag) × List entities.Tag
  | [], result => result
  | tag :: list, (tagsCache, tags) =>
    cacheTags list
      ((tag.ID.String, tag) :: tagsCache.filter (fun entry => entry.1 != tag.ID.String),
        tags ++ [tag])

/-- The method `elasticDtoToTags`: `tagsCache` is made empty by every call. -/
def elasticDtoToTags (e : ElasticSearchMapper) (tagIds : List uuid.UUID) (userUUID : uuid.UUID)
    (calls : List Call) : (List entities.Tag × Option error) × List Call :=
  let tagsCache : List (String × entities.Tag) := []
  match sortTagIds userUUID tagsCache tagIds ([], []) with
  | (tagsToSearch, tags) =>
    if tagsToSearch.length ≠ 0 then
      match e.tagRepository.GetListByTagIdAndUserIdList calls tagsToSearch with
      | (_, some err) =>
        (([], some err), calls ++ [.TagRepository_GetListByTagIdAndUserIdList tagsToSearch])
      | (list, none) =>
        (((cacheTags list (tagsCache, tags)).2, none),
          calls ++ [.TagRepository_GetListByTagIdAndUserIdList tagsToSearch])
    else ((tags, none), calls)

/-- The method `getReaction`. The result is `none` when the method panics (a
record-not-found error that comes with a nil reaction). -/
def getReaction (e : ElasticSearchMapper) (pickupLineId userId : uuid.UUID)
    (calls : List Call) : Option (Option entities.Reaction × Option error) × List Call :=
  match e.pickupLineRepository.GetReactionByPickupLineIdAndUserId calls pickupLineId userId with
  | (reaction, some err) =>
    if !errors.Is err gorm.ErrRecordNotFound then
      (some (none, some err),
        calls ++ [.PickupLineRepository_GetReactionByPickupLineIdAndUserId pickupLineId userId])
    else
      match reaction with
      | none =>
        (none,
          calls ++ [.PickupLineRepository_GetReactionByPickupLineIdAndUserId pickupLineId userId])
      | some reaction =>
        (some (some { reaction with Vote := entities.None }, none),
          calls ++ [.PickupLineRepository_GetReactionByPickupLineIdAndUserId pickupLineId userId])
  | (reaction, none) =>
    (some (reaction, none),
      calls ++ [.PickupLineRepository_GetReactionByPickupLineIdAndUserId pickupLineId userId])

/-- The loop of `hydratePickupLineListFromElasticSearchResponse` from the given
list of items on. -/
def hydrateHits (e : ElasticSearchMapper) (userId : uuid.UUID) :
    List types.Hit → List responses.SinglePickupLineInfoResponse → List Call →
      Option (List responses.SinglePickupLineInfoResponse × Option error) × List Call
  | [], pickupLineList, calls => (some (pickupLineList, none), calls)
  | hit :: hits, pickupLineList, calls =>
    match hit.Source_ with
    | .error err => (some ([], some err), calls)
    | .ok pickupLineDTO =>
      match e.elasticDtoToTags pickupLineDTO.Tags pickupLineDTO.UserId calls with
      | ((_, some err), calls) => (some ([], some err), calls)
      | ((tags, none), calls) =>
        match e.getReaction pickupLineDTO.Id userId calls with
        | (none, calls) => (none, calls)
        | (some (_, some err), calls) => (some ([], some err), calls)
        | (some (reaction, none), calls) =>
          match responses.NewSinglePickupLineInfoResponse
              (elasticDtoToPickupLine pickupLineDTO tags reaction) with
          | none => (none, calls)
          | some pickupLineResponseItem =>
            hydrateHits e userId hits (pickupLineList ++ [pickupLineResponseItem]) calls

/-- The method `hydratePickupLineListFromElasticSearchResponse`. The result is
`none` when the method panics. -/
def hydratePickupLineListFromElasticSearchResponse (e : ElasticSearchMapper)
    (response : search.Response) (userId : uuid.UUID) (calls : List Call) :
    Option (Option responses.ElasticSearchPickupLineResponse × Option error) × List Call :=
  match hydrateHits e userId response.Hits.Hits [] calls with
  | (none, calls) => (none, calls)
  | (some (_, some err), calls) => (some (none, some err), calls)
  | (some (pickupLineList, none), calls) =>
    match response.Hits.Total with
    | none => (none, calls)
    | some total => (some (some { Total := total.Value, Users := pickupLineList }, none), calls)

end ElasticSearchMapper
/-! ## Collaborators for the examples

The call made when `fails` gives an error for the number of calls made so far
fails with that error; every other call succeeds. -/

/-- No call fails but the one made after `position` calls, which fails with
`err`. -/
def failingAt (position : Nat) (err : error) : Nat → Option error :=
  fun made => if made = position then some err else none

/-- A relational store of items: `Create` gives the item the id 7, a lookup
finds the item asked for, `UpdateReaction` writes the vote `NONE` over an empty
vote as `PickupLineRepository.UpdateReaction` does, and the visibility lookup
finds a hidden item of user 3 with its `User` loaded. -/
def scriptedPickupLineRepository (fails : Nat → Option error) :
    repositories.PickupLineRepositoryInterface :=
  { Create := fun calls pickupLine => ({ pickupLine with ID := ⟨7⟩ }, fails calls.length)
    Update := fun calls pickupLine => (pickupLine, fails calls.length)
    Delete := fun calls _ => fails calls.length
    GetByIdAndUserId := fun calls pickupLineUUID userUUID =>
      match fails calls.length with
      | some err => (none, some err)
      | none => (some { ID := pickupLineUUID, UserID := userUUID }, none)
    GetReactionByPickupLineIdAndUserId := fun calls pickupLineUUID userUUID =>
      (some { PickupLineId := pickupLineUUID, UserId := userUUID }, fails calls.length)
    UpdateReaction := fun calls reaction =>
      ({ reaction with Vote := if reaction.Vote = "" then entities.None else reaction.Vote },
        fails calls.length)
    GetPickupLineForVisibilityCheck := fun calls pickupLineUUID =>
      match fails calls.length with
      | some err => (none, some err)
      | none =>
        (some { ID := pickupLineUUID, Visible := false, User := some { ID := ⟨3⟩ }, UserID := ⟨3⟩ },
          none) }

/-- The tags a store returns for a list of (tag id, owner id) pairs: one tag for
each different tag id. -/
def scriptedTags (tagList : List (List uuid.UUID)) : List entities.Tag :=
  (tagList.filterMap List.head?).dedup.map (fun tagId => { ID := tagId })

/-- A relational store of tags. -/
def scriptedTagRepository (fails : Nat → Option error) : repositories.TagRepositoryInterface :=
  { GetListByTagIdAndUserIdList := fun calls tagList =>
      match fails calls.length with
      | some err => ([], some err)
      | none => (scriptedTags tagList, none)
    Delete := fun calls _ => fails calls.length }

/-- A relational store of users: `Create` gives the user the id 8. -/
def scriptedUserRepository (fails : Nat → Option error) : repositories.UserRepositoryInterface :=
  { Create := fun calls user => ({ user with ID := ⟨8⟩ }, fails calls.length)
    Delete := fun calls _ => fails calls.length }

/-- A tag service. -/
def scriptedTagService (fails : Nat → Option error) : TagServiceInterface :=
  { GetListByTagIdAndUserIdList := fun calls tagList =>
      match fails calls.length with
      | some err => ([], some err)
      | none => (scriptedTags tagList, none) }

/-- A search engine. -/
def scriptedElasticSearchWrapper (fails : Nat → Option error) : ElasticSearchWrapperInterface :=
  { IndexPickupLine := fun calls _ => fails calls.length
    DeletePickupLine := fun calls _ => fails calls.length
    UpdatePickupLine := fun calls _ => fails calls.length
    UpdateUserReaction := fun calls _ _ _ _ => fails calls.length
    IndexUser := fun calls _ => fails calls.length
    DeleteTag := fun calls _ => fails calls.length }

/-- The item service over the collaborators above. -/
def scriptedService (fails : Nat → Option error) : PickupLineService :=
  { pickupLineRepository := scriptedPickupLineRepository fails
    tagService := scriptedTagService fails
    elasticSearchWrapper := scriptedElasticSearchWrapper fails }

/-- The mapper over the collaborators above. -/
def scriptedMapper (fails : Nat → Option error) : ElasticSearchMapper :=
  { tagRepository := scriptedTagRepository fails
    pickupLineRepository := scriptedPickupLineRepository fails }

/-- A stand-in for `uuid.Parse`: the empty string is rejected, any other string
is read as the identifier numbered by its length. -/
def scriptedParse (s : String) : uuid.UUID × Option error :=
  if s = "" then (uuid.Nil, some (.New 9)) else (⟨s.length⟩, none)

/-- A page of two hits of owner 9: the first lists the tag 5 twice, the second
lists it once more. -/
def pageSharingATag : search.Response :=
  { Hits :=
      { Hits :=
          [ { Source_ := .ok { Id := ⟨1⟩, UserId := ⟨9⟩, Tags := [⟨5⟩, ⟨5⟩] } },
            { Source_ := .ok { Id := ⟨2⟩, UserId := ⟨9⟩, Tags := [⟨5⟩] } } ]
        Total := some { Value := 2 } } }
/-! ## The user service and the tag service -/

namespace requests

/-- The struct `requests.CreateUserRequest`. -/
structure CreateUserRequest where
  DisplayName : String := ""
  Username : String := ""
  EncodedUserImage : String := ""
  Password : String := ""
deriving DecidableEq

end requests

namespace mappers

/-- The method `DtoMapper.UserCreateToEntity`. -/
def UserCreateToEntity (user : requests.CreateUserRequest) : entities.User :=
  { DisplayName := user.DisplayName
    Username := user.Username
    Password := user.Password }

end mappers

namespace utils

/-- The function `utils.IsUsernameValid`, with the error of `mail.ParseAddress`
as `ParseAddress`. -/
def IsUsernameValid (ParseAddress : String → Option error) (username : String) : Bool :=
  (ParseAddress username).isNone

end utils

/-- The struct `UserService`; its `dtoMapper` is `mappers.DtoMapper`. -/
structure UserService where
  userRepository : repositories.UserRepositoryInterface
  elasticSearchWrapper : ElasticSearchWrapperInterface

namespace UserService

/-- The error `errors.New("Username is not valid")`. -/
def usernameNotValid : error := .New 1

/-- The method `Create`: the user and the error returned. An empty display name
is first overwritten with the username. -/
def Create (u : UserService) (ParseAddress : String → Option error)
    (user : requests.CreateUserRequest) (calls : List Call) :
    (Option entities.User × Option error) × List Call :=
  if !utils.IsUsernameValid ParseAddress user.Username then
    ((none, some usernameNotValid), calls)
  else
    let user := if user.DisplayName = "" then { user with DisplayName := user.Username } else user
    let userToAdd := mappers.UserCreateToEntity user
    match u.userRepository.Create calls userToAdd with
    | (_, some err) => ((none, some err), calls ++ [.UserRepository_Create userToAdd])
    | (created, none) =>
      let calls := calls ++ [.UserRepository_Create userToAdd]
      match u.elasticSearchWrapper.IndexUser calls created with
      | some err =>
        match u.userRepository.Delete (calls ++ [.ElasticSearchWrapper_IndexUser created])
            created with
        | some errDelete =>
          ((none, some errDelete),
            calls ++ [.ElasticSearchWrapper_IndexUser created, .UserRepository_Delete created])
        | none =>
          ((none, some err),
            calls ++ [.ElasticSearchWrapper_IndexUser created, .UserRepository_Delete created])
      | none => ((some created, none), calls ++ [.ElasticSearchWrapper_IndexUser created])

end UserService

/-- The struct `TagService`, the collaborators `Delete` uses. -/
structure TagService where
  tagRepository : repositories.TagRepositoryInterface
  elasticSearchWrapper : ElasticSearchWrapperInterface

namespace TagService

/-- The method `Delete`: the result of `DeleteTag` is thrown away. -/
def Delete (u : TagService) (tag : entities.Tag) (calls : List Call) : Option error × List Call :=
  (u.tagRepository.Delete (calls ++ [.ElasticSearchWrapper_DeleteTag tag]) tag,
    calls ++ [.ElasticSearchWrapper_DeleteTag tag, .TagRepository_Delete tag])

end TagService

/-! ## The database (`database/Database.go`) -/

namespace math

/-- Go `math.Round` on a float, given by its value: the nearest integer, halves
away from zero. -/
def Round (x : ℚ) : ℚ := if 0 ≤ x then ((⌊x + 1 / 2⌋ : Int) : ℚ) else ((⌈x - 1 / 2⌉ : Int) : ℚ)

end math

namespace database

/-- The struct `StatisticsCountResult`: one row of the grouped count. -/
structure StatisticsCountResult where
  Vote : entities.Vote := ""
  Total : Int := 0
deriving DecidableEq

end database

/-- The struct `Database`: the rows of the item table, each shown as the entity
of its columns. -/
structure Database where
  pickup_lines : List entities.PickupLine := []

namespace Database

/-- The method `GetPickupLineForVisibilityCheck`. The query selects the columns
`Visible` and `UserID` of the first row with the id and preloads nothing, so
every other field of the entity returned keeps its zero value; with no such
row the entity is returned untouched with `gorm.ErrRecordNotFound`. -/
def GetPickupLineForVisibilityCheck (d : Database) (pickupLineId : uuid.UUID) :
    Option entities.PickupLine × Option error :=
  match d.pickup_lines.find? (fun row => row.ID = pickupLineId) with
  | none => (some {}, some gorm.ErrRecordNotFound)
  | some row => (some { Visible := row.Visible, UserID := row.UserID }, none)

/-- The loop of `GetStatisticsById` over the rows of the count, from the given
`statistics` and `total` on; `total += result.Total` is an addition of `int`. -/
def countVotes : List database.StatisticsCountResult → entities.Statistic × Int →
    entities.Statistic × Int
  | [], state => state
  | result :: countResult, (statistics, total) =>
    if result.Vote = entities.None then countVotes countResult (statistics, total)
    else if result.Vote = entities.Upvote then
      countVotes countResult
        ({ statistics with NumberOfSuccesses := result.Total }, wrapInt64 (total + result.Total))
    else if result.Vote = entities.Downvote then
      countVotes countResult
        ({ statistics with NumberOfFailures := result.Total }, wrapInt64 (total + result.Total))
    else countVotes countResult (statistics, total)

/-- The method `GetStatisticsById`, from what the grouped count query scanned:
its rows and its error. The percentage is
`math.Round(float64(successes) / float64(tries) * 100) / 100`, its conversions,
its divisions and its multiplication being operations on doubles. -/
def GetStatisticsById (countResult : List database.StatisticsCountResult) (err : Option error) :
    Option entities.Statistic × Option error :=
  match err with
  | some err => (none, some err)
  | none =>
    match countVotes countResult ({}, 0) with
    | (statistics, total) =>
      let statistics := { statistics with NumberOfTries := total }
      if total > 0 then
        (some { statistics with
            SuccessPercentage :=
              binary64.div
                (math.Round
                  (binary64.mul
                    (binary64.div (binary64.ofInt statistics.NumberOfSuccesses)
                      (binary64.ofInt statistics.NumberOfTries))
                    100))
                100 },
          none)
      else (some statistics, none)

end Database

/-- The item repository over a database, for the visibility lookup:
`PickupLineRepository.GetPickupLineForVisibilityCheck` hands the call over to
the database. The other methods are those of the example store. -/
def databasePickupLineRepository (d : Database) : repositories.PickupLineRepositoryInterface :=
  { scriptedPickupLineRepository (fun _ => none) with
    GetPickupLineForVisibilityCheck := fun _ pickupLineUUID =>
      d.GetPickupLineForVisibilityCheck pickupLineUUID }

/-- A database with one item: the hidden item 4 of user 3. -/
def databaseWithHiddenItem : Database :=
  { pickup_lines := [{ ID := ⟨4⟩, Title := "The Baker", Visible := false, UserID := ⟨3⟩ }] }

/-! ## The feed (`services/ElasticSearchWrapper.go`) -/

/-- The struct `ElasticSearchWrapper`: `client` is the call
`client.Search().Index(PickupLineIndexName).Request(request).Do(ctx)`, a
function of the calls made so far and of the request. -/
structure ElasticSearchWrapper where
  client : List Call → search.Request → Option search.Response × Option error
  mapper : ElasticSearchMapper

namespace ElasticSearchWrapper

/-- The method `GetPickupLineFeed`, with `constants.ITEMS_FOR_PAGE` as
`ITEMS_FOR_PAGE`. The filter object is the caller's, so it is returned as the
method leaves it, next to the result; the result is `none` when the method
panics. -/
def GetPickupLineFeed (e : ElasticSearchWrapper) (ITEMS_FOR_PAGE : Int) (userId : uuid.UUID)
    (filters : filters.PickupLineQueryFilters) (calls : List Call) :
    (Option (Option responses.ElasticSearchPickupLineResponse × Option error) ×
      playbook.filters.PickupLineQueryFilters) × List Call :=
  let elasticSearchRequest := GetNewElasticSearchRequestWrapper GetNewQueryWrapper
  let filters := { filters with Visible := entities.Visible }
  let elasticSearchRequest := elasticSearchRequest.withSize ITEMS_FOR_PAGE
  match elasticSearchRequest.applyFilters ITEMS_FOR_PAGE filters userId with
  | none => ((none, filters), calls)
  | some elasticSearchRequest =>
    match elasticSearchRequest.applySorting filters with
    | none => ((none, filters), calls)
    | some elasticSearchRequest =>
      match elasticSearchRequest.getRequest with
      | none => ((none, filters), calls)
      | some (request, _) =>
        match e.client calls request with
        | (_, some err) => ((some (none, some err), filters), calls ++ [.TypedClient_Search request])
        | (none, none) => ((none, filters), calls ++ [.TypedClient_Search request])
        | (some res, none) =>
          match e.mapper.hydratePickupLineListFromElasticSearchResponse res userId
              (calls ++ [.TypedClient_Search request]) with
          | (result, calls) => ((result, filters), calls)

end ElasticSearchWrapper

/-- The clauses a document has to match to be selected by a query: the `Filter`
and `Must` clauses of its boolean query, at the top level or under
`FunctionScore`. -/
def types.Query.requiredClauses (query : types.Query) : List types.Clause :=
  (match query.Bool with
    | some b => b.Filter ++ b.Must
    | none => []) ++
  (match query.FunctionScore with
    | some functionScore =>
      match functionScore.Query with
      | some inner =>
        match inner.Bool with
        | some b => b.Filter ++ b.Must
        | none => []
      | none => []
    | none => [])

/-- A reading of a clause on an item document that follows the engine on the
visibility clause (the document's `visible` is the value of the clause) and lets
every other clause match. -/
def matchesVisibility : types.Clause → ItemDocument → Bool
  | .Term .ELASTIC_VISIBLE_FIELD (.bool b), doc => doc.metadata.visible == b
  | _, _ => true

/-- A search engine for the examples: it fails as `fails` says and else answers
with the page of two hits. -/
def scriptedWrapper (fails : Nat → Option error) : ElasticSearchWrapper :=
  { client := fun calls _ =>
      match fails calls.length with
      | some err => (none, some err)
      | none => (some pageSharingATag, none)
    mapper := scriptedMapper fails }

/-- The clauses a query only scores by: the `Should` clauses of its boolean
query, at the top level or under `FunctionScore`. -/
def types.Query.shouldClauses (query : types.Query) : List types.Clause :=
  (match query.Bool with
    | some b => b.Should
    | none => []) ++
  (match query.FunctionScore with
    | some functionScore =>
      match functionScore.Query with
      | some inner =>
        match inner.Bool with
        | some b => b.Should
        | none => []
      | none => []
    | none => [])

/-- The user service over the example collaborators. -/
def scriptedUserService (fails : Nat → Option error) : UserService :=
  { userRepository := scriptedUserRepository fails
    elasticSearchWrapper := scriptedElasticSearchWrapper fails }

/-- The tag service over the example collaborators. -/
def scriptedTagServiceOf (fails : Nat → Option error) : TagService :=
  { tagRepository := scriptedTagRepository fails
    elasticSearchWrapper := scriptedElasticSearchWrapper fails }

/-- A stand-in for the error of `mail.ParseAddress`: the empty string is
rejected, any other string is taken for an address. -/
def scriptedParseAddress (s : String) : Option error :=
  if s = "" then some (.New 9) else none
/-! ## Lemmas on double arithmetic -/

theorem roundHalfEven_bounds (r : ℚ) :
    ⌊r⌋ ≤ binary64.roundHalfEven r ∧ binary64.roundHalfEven r ≤ ⌊r⌋ + 1 := by
  unfold binary64.roundHalfEven
  split_ifs <;> constructor <;> omega

/-- Rounding an integer gives the integer. -/
theorem roundHalfEven_intCast (n : Int) : binary64.roundHalfEven (n : ℚ) = n := by
  unfold binary64.roundHalfEven
  simp

/-- The integer a rational is less than a half away from is what it rounds to. -/
theorem roundHalfEven_eq (r : ℚ) (m : Int) (h1 : (m : ℚ) - 1 / 2 < r) (h2 : r < (m : ℚ) + 1 / 2) :
    binary64.roundHalfEven r = m := by
  unfold binary64.roundHalfEven
  by_cases hm : (m : ℚ) ≤ r
  · have hf : ⌊r⌋ = m := by
      rw [Int.floor_eq_iff]
      exact ⟨hm, by linarith⟩
    rw [hf]
    have : 2 * (r - (m : ℚ)) < 1 := by linarith
    simp [this]
  · have hm' : r < (m : ℚ) := lt_of_not_le hm
    have hf : ⌊r⌋ = m - 1 := by
      rw [Int.floor_eq_iff]
      push_cast
      exact ⟨by linarith, by linarith⟩
    rw [hf]
    have h3 : ¬ 2 * (r - ((m - 1 : Int) : ℚ)) < 1 := by
      push_cast
      linarith
    have h4 : 1 < 2 * (r - ((m - 1 : Int) : ℚ)) := by
      push_cast
      linarith
    simp only [h3, h4, if_false, if_true]
    omega

/-- Rounding is monotone. -/
theorem roundHalfEven_mono (r s : ℚ) (h : r ≤ s) :
    binary64.roundHalfEven r ≤ binary64.roundHalfEven s := by
  have hfl : ⌊r⌋ ≤ ⌊s⌋ := Int.floor_mono h
  rcases lt_or_eq_of_le hfl with hlt | heq
  · exact le_trans (roundHalfEven_bounds r).2 (le_trans (by omega) (roundHalfEven_bounds s).1)
  · unfold binary64.roundHalfEven
    rw [← heq]
    have hd : 2 * (r - (⌊r⌋ : ℚ)) ≤ 2 * (s - (⌊r⌋ : ℚ)) := by linarith
    split_ifs <;> first | omega | linarith

theorem two_zpow_pos (k : Int) : (0 : ℚ) < (2 : ℚ) ^ k := zpow_pos (by norm_num) k

theorem log_bounds (x : ℚ) (hx : 0 < x) :
    (2 : ℚ) ^ Int.log 2 x ≤ x ∧ x < (2 : ℚ) ^ (Int.log 2 x + 1) := by
  have h1 := Int.zpow_log_le_self (b := 2) (r := x) (by norm_num) hx
  have h2 := Int.lt_zpow_succ_log_self (b := 2) (by norm_num) x
  simp only [Nat.cast_ofNat] at h1 h2
  exact ⟨h1, h2⟩

/-- The exponent of a positive rational between two consecutive powers of two. -/
theorem log_eq (x : ℚ) (k : Int) (h1 : (2 : ℚ) ^ k ≤ x) (h2 : x < (2 : ℚ) ^ (k + 1)) :
    Int.log 2 x = k := by
  have hx : 0 < x := lt_of_lt_of_le (two_zpow_pos k) h1
  have ha : k ≤ Int.log 2 x := by
    rw [← Int.zpow_le_iff_le_log (by norm_num) hx]
    simpa using h1
  have hb : Int.log 2 x < k + 1 := by
    rw [← Int.lt_zpow_iff_log_lt (by norm_num) hx]
    simpa using h2
  omega

/-- The double nearest to a rational, from its exponent and its mantissa. -/
theorem nearest_eq (x : ℚ) (k m : Int) (h1 : (2 : ℚ) ^ k ≤ |x|) (h2 : |x| < (2 : ℚ) ^ (k + 1))
    (hm : binary64.roundHalfEven (x / (2 : ℚ) ^ (k - 52)) = m) :
    binary64.nearest x = (m : ℚ) * (2 : ℚ) ^ (k - 52) := by
  have hx : x ≠ 0 := by
    intro h
    rw [h, abs_zero] at h1
    exact absurd h1 (not_le.mpr (two_zpow_pos k))
  unfold binary64.nearest
  rw [if_neg hx, log_eq |x| k h1 h2, hm]

theorem nearest_zero : binary64.nearest 0 = 0 := by simp [binary64.nearest]

/-- A positive rational and the double nearest to it lie between the same two
powers of two. -/
theorem nearest_bounds (x : ℚ) (hx : 0 < x) :
    (2 : ℚ) ^ Int.log 2 x ≤ binary64.nearest x ∧
      binary64.nearest x ≤ (2 : ℚ) ^ (Int.log 2 x + 1) := by
  obtain ⟨h1, h2⟩ := log_bounds x hx
  have he := two_zpow_pos (Int.log 2 x - 52)
  unfold binary64.nearest
  rw [if_neg (ne_of_gt hx), abs_of_pos hx]
  have e1 : (2 : ℚ) ^ Int.log 2 x = ((2 ^ 52 : Int) : ℚ) * (2 : ℚ) ^ (Int.log 2 x - 52) := by
    rw [zpow_sub₀ (by norm_num : (2 : ℚ) ≠ 0)]
    push_cast
    field_simp
    norm_num
    ring
  have e2 : (2 : ℚ) ^ (Int.log 2 x + 1) =
      ((2 ^ 53 : Int) : ℚ) * (2 : ℚ) ^ (Int.log 2 x - 52) := by
    rw [zpow_sub₀ (by norm_num : (2 : ℚ) ≠ 0), zpow_add₀ (by norm_num : (2 : ℚ) ≠ 0)]
    push_cast
    field_simp
    norm_num
    ring
  constructor
  · rw [e1]
    apply mul_le_mul_of_nonneg_right _ (le_of_lt he)
    have : ((2 ^ 52 : Int) : ℚ) ≤ x / (2 : ℚ) ^ (Int.log 2 x - 52) := by
      rw [le_div_iff₀ he, ← e1]
      exact h1
    have := roundHalfEven_mono _ _ this
    rw [roundHalfEven_intCast] at this
    exact_mod_cast this
  · rw [e2]
    apply mul_le_mul_of_nonneg_right _ (le_of_lt he)
    have : x / (2 : ℚ) ^ (Int.log 2 x - 52) ≤ ((2 ^ 53 : Int) : ℚ) := by
      rw [div_le_iff₀ he, ← e2]
      exact le_of_lt h2
    have := roundHalfEven_mono _ _ this
    rw [roundHalfEven_intCast] at this
    exact_mod_cast this

/-- The double nearest to a rational that is not negative is not negative. -/
theorem nearest_nonneg (x : ℚ) (hx : 0 ≤ x) : 0 ≤ binary64.nearest x := by
  rcases eq_or_lt_of_le hx with h | h
  · rw [← h, nearest_zero]
  · exact le_trans (le_of_lt (two_zpow_pos _)) (nearest_bounds x h).1

/-- Rounding to the nearest double is monotone on the rationals that are not
negative. -/
theorem nearest_mono (x y : ℚ) (hx : 0 ≤ x) (hxy : x ≤ y) :
    binary64.nearest x ≤ binary64.nearest y := by
  rcases eq_or_lt_of_le hx with h | h
  · rw [← h, nearest_zero]
    exact nearest_nonneg y (le_trans hx hxy)
  · have hy : 0 < y := lt_of_lt_of_le h hxy
    have hlog := Int.log_mono_right (b := 2) h hxy
    rcases lt_or_eq_of_le hlog with hlt | heq
    · have h1 := (nearest_bounds x h).2
      have h2 := (nearest_bounds y hy).1
      have h3 : (2 : ℚ) ^ (Int.log 2 x + 1) ≤ (2 : ℚ) ^ Int.log 2 y :=
        zpow_le_zpow_right₀ (by norm_num) (by omega)
      linarith
    · unfold binary64.nearest
      rw [if_neg (ne_of_gt h), if_neg (ne_of_gt hy), abs_of_pos h, abs_of_pos hy, heq]
      have he := two_zpow_pos (Int.log 2 y - 52)
      apply mul_le_mul_of_nonneg_right _ (le_of_lt he)
      have : x / (2 : ℚ) ^ (Int.log 2 y - 52) ≤ y / (2 : ℚ) ^ (Int.log 2 y - 52) :=
        div_le_div_of_nonneg_right hxy (le_of_lt he)
      exact_mod_cast roundHalfEven_mono _ _ this

/-- An integer of less than 54 bits is a double. -/
theorem nearest_intCast (n : Int) (h : |n| < 2 ^ 53) : binary64.nearest (n : ℚ) = n := by
  by_cases h0 : n = 0
  · rw [h0]
    simp [binary64.nearest]
  · have hpos : (0 : ℚ) < |(n : ℚ)| := abs_pos.mpr (by exact_mod_cast h0)
    have hlt : |(n : ℚ)| < (2 : ℚ) ^ ((53 : Int)) := by
      have : ((|n| : Int) : ℚ) < ((2 ^ 53 : Int) : ℚ) := by exact_mod_cast h
      rw [Int.cast_abs] at this
      norm_num at this ⊢
      exact this
    have hlog : Int.log 2 |(n : ℚ)| < 53 := by
      rw [← Int.lt_zpow_iff_log_lt (by norm_num) hpos]
      simpa using hlt
    obtain ⟨j, hj⟩ : ∃ j : ℕ, Int.log 2 |(n : ℚ)| - 52 = -(j : Int) :=
      ⟨(52 - Int.log 2 |(n : ℚ)|).toNat, by omega⟩
    unfold binary64.nearest
    rw [if_neg (by exact_mod_cast h0), hj]
    have hdiv : (n : ℚ) / (2 : ℚ) ^ (-(j : Int)) = ((n * 2 ^ j : Int) : ℚ) := by
      rw [zpow_neg, zpow_natCast, div_inv_eq_mul]
      push_cast
      ring
    rw [hdiv, roundHalfEven_intCast, zpow_neg, zpow_natCast]
    push_cast
    field_simp

/-- The value of `Math.round` on a double less than a half below and at most a
half above an integer in the range of `long`. -/
theorem round_eq (x : ℚ) (n : Int) (h1 : (n : ℚ) - 1 / 2 ≤ x) (h2 : x < (n : ℚ) + 1 / 2)
    (hlo : -(2 : Int) ^ 63 ≤ n) (hhi : n ≤ (2 : Int) ^ 63 - 1) : painless.round x = n := by
  have hf : ⌊x + 1 / 2⌋ = n := by
    rw [Int.floor_eq_iff]
    exact ⟨by linarith, by linarith⟩
  unfold painless.round
  rw [hf]
  omega

/-- The value of `Math.round` on an integer in the range of `long`. -/
theorem round_intCast (n : Int) (hlo : -(2 : Int) ^ 63 ≤ n) (hhi : n ≤ (2 : Int) ^ 63 - 1) :
    painless.round (n : ℚ) = n :=
  round_eq n n (by linarith) (by linarith) hlo hhi

/-- The value of Go `math.Round` on a double that is not negative, less than a
half below and at most a half above an integer. -/
theorem Round_eq (x : ℚ) (n : Int) (hx : 0 ≤ x) (h1 : (n : ℚ) - 1 / 2 ≤ x)
    (h2 : x < (n : ℚ) + 1 / 2) : math.Round x = n := by
  unfold math.Round
  rw [if_pos hx]
  have hf : ⌊x + 1 / 2⌋ = n := by
    rw [Int.floor_eq_iff]
    exact ⟨by linarith, by linarith⟩
  rw [hf]

/-- The double `23.0 / 40.0`. -/
theorem div_23_40 :
    binary64.div (binary64.ofInt 23) (binary64.ofInt 40) =
      5179139571476070 * (2 : ℚ) ^ (-53 : Int) := by
  have h23 : binary64.ofInt 23 = 23 := nearest_intCast 23 (by norm_num)
  have h40 : binary64.ofInt 40 = 40 := nearest_intCast 40 (by norm_num)
  rw [h23, h40]
  unfold binary64.div
  have h := nearest_eq (23 / 40) (-1) 5179139571476070 (by norm_num [abs_of_pos])
    (by norm_num [abs_of_pos])
    (roundHalfEven_eq _ _ (by norm_num) (by norm_num))
  norm_num at h ⊢
  exact h

/-- The double `23.0 / 40.0 * 100`, just below 57.5. -/
theorem mul_23_40_100 :
    binary64.mul (binary64.div (binary64.ofInt 23) (binary64.ofInt 40)) 100 =
      8092405580431359 * (2 : ℚ) ^ (-47 : Int) := by
  rw [div_23_40]
  unfold binary64.mul
  have h := nearest_eq (5179139571476070 * (2 : ℚ) ^ (-53 : Int) * 100) 5 8092405580431359
    (by norm_num [abs_of_pos]) (by norm_num [abs_of_pos])
    (roundHalfEven_eq _ _ (by norm_num) (by norm_num))
  norm_num at h ⊢
  exact h

/-- The double `0.57`. -/
theorem div_57_100 : binary64.div 57 100 = 5134103575202365 * (2 : ℚ) ^ (-53 : Int) := by
  unfold binary64.div
  have h := nearest_eq (57 / 100) (-1) 5134103575202365 (by norm_num [abs_of_pos])
    (by norm_num [abs_of_pos])
    (roundHalfEven_eq _ _ (by norm_num) (by norm_num))
  norm_num at h ⊢
  exact h

/-- The double `0.58`. -/
theorem div_58_100 : binary64.div 58 100 = 5224175567749775 * (2 : ℚ) ^ (-53 : Int) := by
  unfold binary64.div
  have h := nearest_eq (58 / 100) (-1) 5224175567749775 (by norm_num [abs_of_pos])
    (by norm_num [abs_of_pos])
    (roundHalfEven_eq _ _ (by norm_num) (by norm_num))
  norm_num at h ⊢
  exact h

/-- The percentage the scripts store for 23 successes in 40 tries is the double
`0.57`, below the double `0.58`. -/
theorem percentageOf_23_40 :
    painless.percentageOf 23 40 = binary64.div 57 100 ∧
      binary64.div 57 100 < binary64.div 58 100 := by
  constructor
  · unfold painless.percentageOf
    rw [if_pos (by norm_num), mul_23_40_100]
    have hr : painless.round (8092405580431359 * (2 : ℚ) ^ (-47 : Int)) = 57 :=
      round_eq _ 57 (by norm_num) (by norm_num) (by norm_num) (by norm_num)
    rw [hr]
    have h57 : binary64.ofInt 57 = 57 := nearest_intCast 57 (by norm_num)
    rw [h57]
  · rw [div_57_100, div_58_100]
    norm_num
/-! ## Lemmas on the builder steps -/

theorem extend_extend (b : types.BoolQuery) (fs ss fs2 ss2 : List types.Clause) :
    (b.extend fs ss).extend fs2 ss2 = b.extend (fs ++ fs2) (ss ++ ss2) := by
  simp [types.BoolQuery.extend, List.append_assoc]

theorem extend_nil (b : types.BoolQuery) : b.extend [] [] = b := by
  simp [types.BoolQuery.extend]

theorem onQuery_addToFilterQuery (req : search.Request) (b : types.BoolQuery)
    (fso : Option types.FunctionScoreQuery) (c : types.Clause) :
    (wrapperOf req b fso).onQuery (·.addToFilterQuery c) = some (wrapperOf req (b.extend [c] []) fso) := by
  simp [wrapperOf, SearchRequestWrapper.onQuery, QueryWrapper.addToFilterQuery, types.BoolQuery.extend]

theorem onQuery_addToShouldQuery (req : search.Request) (b : types.BoolQuery)
    (fso : Option types.FunctionScoreQuery) (c : types.Clause) :
    (wrapperOf req b fso).onQuery (·.addToShouldQuery c) = some (wrapperOf req (b.extend [] [c]) fso) := by
  simp [wrapperOf, SearchRequestWrapper.onQuery, QueryWrapper.addToShouldQuery, types.BoolQuery.extend]

theorem WithTagsShould_eq (tags : List String) (b : types.BoolQuery)
    (fso : Option types.FunctionScoreQuery) :
    QueryWrapper.WithTagsShould { query := { Bool := some b, FunctionScore := fso } } tags =
      some { query := { Bool := some (b.extend [] (tags.map tagClause)), FunctionScore := fso } } := by
  induction tags generalizing b with
  | nil => simp [QueryWrapper.WithTagsShould, types.BoolQuery.extend]
  | cons t rest ih =>
    simp only [QueryWrapper.WithTagsShould, QueryWrapper.addToShouldQuery]
    rw [ih]
    simp [types.BoolQuery.extend, tagClause]

theorem onQuery_WithTagsShould (req : search.Request) (b : types.BoolQuery)
    (fso : Option types.FunctionScoreQuery) (tags : List String) :
    (wrapperOf req b fso).onQuery (·.WithTagsShould tags) =
      some (wrapperOf req (b.extend [] (tags.map tagClause)) fso) := by
  simp [wrapperOf, SearchRequestWrapper.onQuery, WithTagsShould_eq]

/-- A guarded registration of one filter clause. -/
theorem guarded_filter (p : Prop) [Decidable p] (req : search.Request) (b : types.BoolQuery)
    (fso : Option types.FunctionScoreQuery) (c : types.Clause) :
    (if p then (wrapperOf req b fso).onQuery (·.addToFilterQuery c) else some (wrapperOf req b fso)) =
      some (wrapperOf req (b.extend (if p then [c] else []) []) fso) := by
  split <;> simp [onQuery_addToFilterQuery, extend_nil]

/-- A guarded registration of one should clause. -/
theorem guarded_should (p : Prop) [Decidable p] (req : search.Request) (b : types.BoolQuery)
    (fso : Option types.FunctionScoreQuery) (c : types.Clause) :
    (if p then (wrapperOf req b fso).onQuery (·.addToShouldQuery c) else some (wrapperOf req b fso)) =
      some (wrapperOf req (b.extend [] (if p then [c] else [])) fso) := by
  split <;> simp [onQuery_addToShouldQuery, extend_nil]

/-- The guarded call of `WithTagsShould`: an empty tag list adds nothing either way. -/
theorem guarded_tags (req : search.Request) (b : types.BoolQuery)
    (fso : Option types.FunctionScoreQuery) (tags : List String) :
    (if tags.length > 0 then (wrapperOf req b fso).onQuery (·.WithTagsShould tags)
      else some (wrapperOf req b fso)) =
      some (wrapperOf req (b.extend [] (tags.map tagClause)) fso) := by
  split
  · exact onQuery_WithTagsShould req b fso tags
  · next h =>
    have : tags = [] := by
      cases tags with
      | nil => rfl
      | cons t rest => simp at h
    subst this
    simp [extend_nil]

/-- What `applyFilters` does to a wrapper whose query has a `Bool`: it never
panics, sets the offset and appends the clauses of `addedFilters` and
`addedShoulds`. -/
theorem applyFilters_eq (n : Int) (req : search.Request) (b : types.BoolQuery)
    (fso : Option types.FunctionScoreQuery) (f : filters.PickupLineQueryFilters) (r : uuid.UUID) :
    (wrapperOf req b fso).applyFilters n f r =
      some (wrapperOf { req with From := some (mulInt f.Page n) }
        (b.extend (addedFilters f r) (addedShoulds f)) fso) := by
  unfold SearchRequestWrapper.applyFilters
  have h0 : (wrapperOf req b fso).withOffset (mulInt f.Page n) =
      wrapperOf { req with From := some (mulInt f.Page n) } b fso := rfl
  simp only [h0, QueryWrapper.WithTitleSuggestionShould, QueryWrapper.WithAutocompleteSuggestionShould,
    QueryWrapper.WithContentSuggestion, QueryWrapper.WithStarredByUserFilter,
    QueryWrapper.WithUpvotedByUserFilter, QueryWrapper.WithUserFilter,
    QueryWrapper.WithSuccessPercentageFilter, QueryWrapper.WithVisibleFilter,
    guarded_tags, guarded_should, guarded_filter, bind, Option.bind, extend_extend]
  unfold addedFilters addedShoulds addedVisibility visibleClause starredByUserClause
    upvotedByUserClause userClause successPercentageClause titleSuggestionClause contentClause
  by_cases h1 : f.Visible = "" <;> by_cases h2 : f.Visible = entities.NotVisible <;>
    by_cases h3 : f.Visible = entities.Visible <;> by_cases h4 : f.UserId = r <;>
    simp [h1, h2, h3, h4, onQuery_addToFilterQuery, extend_nil, extend_extend,
      show entities.NotVisible ≠ "" by decide, show entities.Visible ≠ "" by decide,
      show entities.Visible ≠ entities.NotVisible by decide]

theorem freshWrapper_eq :
    freshWrapper = wrapperOf {} {} (some { Functions := [], Query := some {} }) := rfl

theorem addedFilters_visibility (f : filters.PickupLineQueryFilters) (r : uuid.UUID) :
    (addedFilters f r).filter isVisibilityClause = addedVisibility f r := by
  unfold addedFilters addedVisibility
  simp only [List.filter_append]
  split_ifs <;> simp [isVisibilityClause, visibleClause, starredByUserClause, upvotedByUserClause,
    userClause, successPercentageClause]

theorem addedFilters_upvoted (f : filters.PickupLineQueryFilters) (r : uuid.UUID) :
    (addedFilters f r).filter isUpvotedByUserClause =
      if f.OnlyUpvoted = true ∧ (f.UserId = uuid.Nil ∨ f.UserId = r) then [upvotedByUserClause r]
      else [] := by
  unfold addedFilters addedVisibility
  simp only [List.filter_append]
  split_ifs <;> simp [isUpvotedByUserClause, visibleClause, starredByUserClause, upvotedByUserClause,
    userClause, successPercentageClause]

theorem addedFilters_rest (f : filters.PickupLineQueryFilters) (r : uuid.UUID) :
    (addedFilters f r).filter (fun c => !isVisibilityClause c && !isUpvotedByUserClause c) =
      (if f.Starred then [starredByUserClause r] else []) ++
      (if f.UserId ≠ uuid.Nil then [userClause f.UserId] else []) ++
      (if f.SuccessPercentage.gtZero then [successPercentageClause f.SuccessPercentage] else []) := by
  unfold addedFilters addedVisibility
  simp only [List.filter_append]
  split_ifs <;> simp [isUpvotedByUserClause, isVisibilityClause, visibleClause, starredByUserClause,
    upvotedByUserClause, userClause, successPercentageClause]

theorem applyFilters_fresh (n : Int) (f : filters.PickupLineQueryFilters) (r : uuid.UUID) :
    ∃ e, freshWrapper.applyFilters n f r = some e ∧
      e.request = { From := some (mulInt f.Page n) } ∧
      e.query.query.Bool = some { Filter := addedFilters f r, Should := addedShoulds f } ∧
      e.query.query.FunctionScore = some { Functions := [], Query := some {} } ∧
      e.query.filterClauses = addedFilters f r ∧
      e.query.shouldClauses = addedShoulds f := by
  rw [freshWrapper_eq, applyFilters_eq]
  refine ⟨_, rfl, ?_⟩
  simp [wrapperOf, types.BoolQuery.extend, QueryWrapper.filterClauses, QueryWrapper.shouldClauses]

theorem wrapInt64_of_range (x : Int) (h : -(2 : Int) ^ 63 ≤ x ∧ x < 2 ^ 63) : wrapInt64 x = x := by
  unfold wrapInt64
  omega

theorem onQuery_addFunction (req : search.Request) (bo : Option types.BoolQuery)
    (fs : types.FunctionScoreQuery) (fn : types.FunctionScore) :
    SearchRequestWrapper.onQuery { request := req, query := { query := { Bool := bo, FunctionScore := some fs } } }
        (·.addFunction fn) =
      some { request := req
             query := { query := { Bool := bo
                                   FunctionScore := some { fs with Functions := fs.Functions ++ [fn] } } } } := by
  simp [SearchRequestWrapper.onQuery, QueryWrapper.addFunction]

/-- What `applySorting` does to a wrapper whose query has a `FunctionScore`: it
never panics and appends the functions of `addedFunctions`. -/
theorem applySorting_eq (req : search.Request) (bo : Option types.BoolQuery)
    (fs : types.FunctionScoreQuery) (f : filters.PickupLineQueryFilters) :
    SearchRequestWrapper.applySorting
        { request := req, query := { query := { Bool := bo, FunctionScore := some fs } } } f =
      some { request := req
             query := { query := { Bool := bo
                                   FunctionScore :=
                                     some { fs with Functions := fs.Functions ++ addedFunctions f.SortingType } } } } := by
  unfold SearchRequestWrapper.applySorting addedFunctions
  simp only [QueryWrapper.WithTimeScoring, QueryWrapper.WithUpvotesScoring,
    QueryWrapper.WithRandomScoring, onQuery_addFunction, Option.bind]
  have hs : toString SORT_BY_NEW_SCALE_IN_DAYS ++ "d" = "1d" := by decide
  have ht : toString SORT_BY_TRENDING_SCALE_IN_DAYS ++ "d" = "1d" := by decide
  split_ifs <;> simp [hs, ht, SORT_BY_BEST_OF_ALL_TIME_UPVOTE_WEIGHT, SORT_BY_TRENDING_UPVOTE_WEIGHT]

theorem call_eq (c : QueryCall) (b : types.BoolQuery) (fs : types.FunctionScoreQuery) :
    QueryWrapper.call { query := { Bool := some b, FunctionScore := some fs } } c =
      some { query :=
        { Bool := some
            { Filter := b.Filter ++ registeredFilters [c]
              Must := b.Must
              Should := b.Should ++ c.shoulds
              MinimumShouldMatch := registeredMinimumShouldMatch b.MinimumShouldMatch [c] }
          FunctionScore := some { fs with Functions := fs.Functions ++ registeredFunctions [c] } } } := by
  cases c <;>
    simp [QueryWrapper.call, QueryWrapper.WithUserFilter, QueryWrapper.WithVisibleFilter,
      QueryWrapper.WithStarredByUserFilter, QueryWrapper.WithUpvotedByUserFilter,
      QueryWrapper.WithSuccessPercentageFilter, QueryWrapper.WithTitleSuggestionShould,
      QueryWrapper.WithContentSuggestion, QueryWrapper.WithUsernameSuggestionShould,
      QueryWrapper.WithDisplayNameSuggestionShould, QueryWrapper.WithAutocompleteSuggestionShould,
      QueryWrapper.SetMinimumShouldMatch, QueryWrapper.WithTimeScoring,
      QueryWrapper.WithUpvotesScoring, QueryWrapper.WithRandomScoring,
      QueryWrapper.addToFilterQuery, QueryWrapper.addToShouldQuery, QueryWrapper.addFunction,
      registeredFilters, registeredFunctions, registeredMinimumShouldMatch,
      QueryCall.filter?, QueryCall.function?, QueryCall.shoulds, WithTagsShould_eq,
      types.BoolQuery.extend, userClause, visibleClause, starredByUserClause, upvotedByUserClause,
      successPercentageClause, titleSuggestionClause, contentClause]

theorem calls_eq (cs : List QueryCall) (b : types.BoolQuery) (fs : types.FunctionScoreQuery) :
    QueryWrapper.calls { query := { Bool := some b, FunctionScore := some fs } } cs =
      some { query :=
        { Bool := some
            { Filter := b.Filter ++ registeredFilters cs
              Must := b.Must
              Should := b.Should ++ registeredShoulds cs
              MinimumShouldMatch := registeredMinimumShouldMatch b.MinimumShouldMatch cs }
          FunctionScore := some { fs with Functions := fs.Functions ++ registeredFunctions cs } } } := by
  induction cs generalizing b fs with
  | nil => simp [QueryWrapper.calls, registeredFilters, registeredShoulds, registeredFunctions,
      registeredMinimumShouldMatch]
  | cons c cs ih =>
    simp only [QueryWrapper.calls, call_eq, ih]
    cases c <;>
      simp [registeredFilters, registeredShoulds, registeredFunctions, registeredMinimumShouldMatch,
        QueryCall.filter?, QueryCall.function?, QueryCall.shoulds]

theorem GetQuery_scored (b : types.BoolQuery) (fs : types.FunctionScoreQuery)
    (inner : types.InnerQuery) (hq : fs.Query = some inner) (hf : fs.Functions ≠ []) :
    QueryWrapper.GetQuery { query := { Bool := some b, FunctionScore := some fs } } =
      some ({ Bool := none
              FunctionScore := some
                { Functions := fs.Functions
                  Query := some { Bool := some { b with Must := b.Filter, Filter := [] } } } },
            { query :=
              { Bool := none
                FunctionScore := some
                  { Functions := fs.Functions
                    Query := some { Bool := some { b with Must := b.Filter, Filter := [] } } } } }) := by
  obtain ⟨fns, qi⟩ := fs
  simp only at hq hf
  subst hq
  have : fns.length > 0 := List.length_pos.mpr hf
  simp [QueryWrapper.GetQuery, this]

theorem GetQuery_plain (bo : Option types.BoolQuery) (fs : types.FunctionScoreQuery)
    (hf : fs.Functions = []) :
    QueryWrapper.GetQuery { query := { Bool := bo, FunctionScore := some fs } } =
      some ({ Bool := bo, FunctionScore := none },
            { query := { Bool := bo, FunctionScore := none } }) := by
  simp [QueryWrapper.GetQuery, hf]

theorem getRequest_eq (req : search.Request) (q : QueryWrapper) (query : types.Query)
    (q1 : QueryWrapper) (h : q.GetQuery = some (query, q1)) :
    SearchRequestWrapper.getRequest { request := req, query := q } =
      some ({ req with Query := some query },
            { request := { req with Query := some query }, query := q1 }) := by
  simp [SearchRequestWrapper.getRequest, h]

/-- The three steps of a search on a fresh wrapper, for any sort mode. -/
theorem search_steps (n : Int) (f : filters.PickupLineQueryFilters) (r : uuid.UUID) :
    ∃ e1 e2, freshWrapper.applyFilters n f r = some e1 ∧ e1.applySorting f = some e2 ∧
      e1.query.filterClauses = addedFilters f r ∧ e1.query.shouldClauses = addedShoulds f ∧
      e2 = { request := { From := some (mulInt f.Page n) }
             query := { query :=
               { Bool := some { Filter := addedFilters f r, Should := addedShoulds f }
                 FunctionScore := some
                   { Functions := addedFunctions f.SortingType, Query := some {} } } } } := by
  obtain ⟨e1, h1, hreq, hb, hfs, hf, hs⟩ := applyFilters_fresh n f r
  obtain ⟨req, ⟨⟨bo, fso⟩⟩⟩ := e1
  simp only at hreq hb hfs
  subst hreq hb hfs
  refine ⟨_, _, h1, applySorting_eq _ _ _ f, hf, hs, ?_⟩
  simp


/-! ## Lemmas on the script fragments -/

theorem prologue_eq (doc : ItemDocument) :
    painless.prologue doc =
      initialisedDocument doc.metadata (doc.starredByUser.getD []) (doc.upvotedByUser.getD [])
        (doc.downvotedByUser.getD []) (doc.numberOfFailures.getD 0) (doc.numberOfSuccesses.getD 0)
        (doc.numberOfTries.getD 0) doc.successPercentage := by
  obtain ⟨m, st, up, dn, f, s, t, pct⟩ := doc
  cases st <;> cases up <;> cases dn <;> cases f <;> cases s <;> cases t <;>
    simp [painless.prologue, initialisedDocument]

theorem recomputePercentage_eq (m : ItemMetadata) (st up dn : List String) (f s t : Int)
    (pct : Option ℚ) :
    painless.recomputePercentage (initialisedDocument m st up dn f s t pct) =
      some (initialisedDocument m st up dn f s t (some (painless.percentageOf s t))) := by
  unfold painless.recomputePercentage painless.percentageOf initialisedDocument
  by_cases h : t = 0 <;> simp [h]

theorem addStarredByUser_eq (p : String) (pu pd : Option String)
    (m : ItemMetadata) (st up dn : List String) (f s t : Int) (pct : Option ℚ) :
    painless.addStarredByUser { starredByUser := some p, upvotedByUser := pu, downvotedByUser := pd }
        (initialisedDocument m st up dn f s t pct) =
      some (initialisedDocument m (st ++ [p]) up dn f s t pct) := by
  simp [painless.addStarredByUser, initialisedDocument]

theorem addUpvotedByUser_eq (p : String) (ps pd : Option String)
    (m : ItemMetadata) (st up dn : List String) (f s t : Int) (pct : Option ℚ) :
    painless.addUpvotedByUser { starredByUser := ps, upvotedByUser := some p, downvotedByUser := pd }
        (initialisedDocument m st up dn f s t pct) =
      some (initialisedDocument m st (up ++ [p]) dn f (s + 1) (t + 1)
        (some (painless.percentageOf (s + 1) (t + 1)))) := by
  have h := recomputePercentage_eq m st (up ++ [p]) dn f (s + 1) (t + 1) pct
  simpa [painless.addUpvotedByUser, initialisedDocument] using h

theorem addDownvotedByUser_eq (p : String) (ps pu : Option String)
    (m : ItemMetadata) (st up dn : List String) (f s t : Int) (pct : Option ℚ) :
    painless.addDownvotedByUser { starredByUser := ps, upvotedByUser := pu, downvotedByUser := some p }
        (initialisedDocument m st up dn f s t pct) =
      some (initialisedDocument m st up (dn ++ [p]) (f + 1) s (t + 1)
        (some (painless.percentageOf s (t + 1)))) := by
  have h := recomputePercentage_eq m st up (dn ++ [p]) (f + 1) s (t + 1) pct
  simpa [painless.addDownvotedByUser, initialisedDocument] using h

/-- The entries of `arr` left by a removal loop that has gone from the end down
to index `k`: the matches among the first `k` entries are gone. -/
theorem take_succ_filter (p : String) (arr : List String) (k : Nat) (x : String)
    (hx : arr[k]? = some x) :
    (arr.take (k + 1)).filter (· ≠ p) ++ arr.drop (k + 1) =
      (arr.take k).filter (· ≠ p) ++ (if x = p then [] else [x]) ++ arr.drop (k + 1) := by
  rw [List.take_succ, hx]
  by_cases h : x = p <;> simp [List.filter_append, h]

theorem take_eraseIdx_self (l : List String) (k : Nat) : (l.eraseIdx k).take k = l.take k := by
  induction l generalizing k with
  | nil => simp
  | cons a l ih => cases k <;> simp [ih]

theorem drop_eraseIdx_self (l : List String) (k : Nat) : (l.eraseIdx k).drop k = l.drop (k + 1) := by
  induction l generalizing k with
  | nil => simp
  | cons a l ih => cases k <;> simp [ih]

theorem removeStarredLoop_eq (p : String) (k : Nat) (m : ItemMetadata) (st up dn : List String)
    (f s t : Int) (pct : Option ℚ) (hk : k ≤ st.length) :
    painless.removeStarredLoop p k (initialisedDocument m st up dn f s t pct) =
      some (initialisedDocument m ((st.take k).filter (· ≠ p) ++ st.drop k) up dn f s t pct) := by
  induction k generalizing st with
  | zero => simp [painless.removeStarredLoop]
  | succ k ih =>
    have hlt : k < st.length := hk
    have hx : st[k]? = some st[k] := List.getElem?_eq_getElem hlt
    rw [take_succ_filter p st k _ hx]
    unfold painless.removeStarredLoop
    simp only [initialisedDocument, hx]
    by_cases h : st[k] = p
    · have := ih (st.eraseIdx k) (by rw [List.length_eraseIdx]; split <;> omega)
      simp only [initialisedDocument, take_eraseIdx_self, drop_eraseIdx_self] at this
      simp only [h, if_true, this]
      simp
    · have := ih st (by omega)
      simp only [initialisedDocument] at this
      simp only [h, if_false, this]
      rw [List.drop_eq_getElem_cons hlt]
      simp

theorem removeStarredByUser_eq (p : String) (pu pd : Option String)
    (m : ItemMetadata) (st up dn : List String) (f s t : Int) (pct : Option ℚ) :
    painless.removeStarredByUser { starredByUser := some p, upvotedByUser := pu, downvotedByUser := pd }
        (initialisedDocument m st up dn f s t pct) =
      some (initialisedDocument m (st.filter (· ≠ p)) up dn f s t pct) := by
  have h := removeStarredLoop_eq p st.length m st up dn f s t pct (le_refl _)
  simp only [List.take_length, List.drop_length, List.append_nil] at h
  simpa [painless.removeStarredByUser, initialisedDocument] using h

theorem removeUpvotedLoop_eq (p : String) (k : Nat) (m : ItemMetadata) (st up dn : List String)
    (f s t : Int) (pct : Option ℚ) (hk : k ≤ up.length) :
    painless.removeUpvotedLoop p k (initialisedDocument m st up dn f s t pct) =
      some (initialisedDocument m st ((up.take k).filter (· ≠ p) ++ up.drop k) dn f
        (s - ((up.take k).count p : Nat)) (t - ((up.take k).count p : Nat))
        (percentageAfter ((up.take k).count p) s t pct)) := by
  induction k generalizing up s t pct with
  | zero => simp [painless.removeUpvotedLoop, percentageAfter]
  | succ k ih =>
    have hlt : k < up.length := hk
    have hx : up[k]? = some up[k] := List.getElem?_eq_getElem hlt
    have hc : (up.take (k + 1)).count p = (up.take k).count p + (if up[k] = p then 1 else 0) := by
      rw [List.take_succ, hx, Option.toList, List.count_append, List.count_singleton]
      by_cases h : up[k] = p
      · simp [h]
      · simp [h]
    rw [take_succ_filter p up k _ hx, hc]
    unfold painless.removeUpvotedLoop
    simp only [initialisedDocument, hx]
    by_cases h : up[k] = p
    · have hr := recomputePercentage_eq m st (up.eraseIdx k) dn f (s - 1) (t - 1) pct
      have := ih (up.eraseIdx k) (s - 1) (t - 1) (some (painless.percentageOf (s - 1) (t - 1)))
        (by rw [List.length_eraseIdx]; split <;> omega)
      simp only [initialisedDocument, take_eraseIdx_self, drop_eraseIdx_self] at this hr
      simp only [h, if_true, painless.removeUpvotedAt, hr, this]
      simp only [percentageAfter]
      by_cases h0 : (up.take k).count p = 0
      · simp [h0]
      · simp [h0]
        refine ⟨by ring, by ring, ?_⟩
        congr 1 <;> ring
    · have := ih up s t pct (by omega)
      simp only [initialisedDocument] at this
      simp only [h, if_false, this]
      rw [List.drop_eq_getElem_cons hlt]
      simp

theorem removeUpvotedByUser_eq (p : String) (ps pd : Option String)
    (m : ItemMetadata) (st up dn : List String) (f s t : Int) (pct : Option ℚ) :
    painless.removeUpvotedByUser { starredByUser := ps, upvotedByUser := some p, downvotedByUser := pd }
        (initialisedDocument m st up dn f s t pct) =
      some (initialisedDocument m st (up.filter (· ≠ p)) dn f
        (s - (up.count p : Nat)) (t - (up.count p : Nat)) (percentageAfter (up.count p) s t pct)) := by
  have h := removeUpvotedLoop_eq p up.length m st up dn f s t pct (le_refl _)
  simp only [List.take_length, List.drop_length, List.append_nil] at h
  simpa [painless.removeUpvotedByUser, initialisedDocument] using h

theorem removeDownvotedLoop_eq (p : String) (k : Nat) (m : ItemMetadata) (st up dn : List String)
    (f s t : Int) (pct : Option ℚ) (hk : k ≤ dn.length) :
    painless.removeDownvotedLoop p k (initialisedDocument m st up dn f s t pct) =
      some (initialisedDocument m st up ((dn.take k).filter (· ≠ p) ++ dn.drop k)
        (f - ((dn.take k).count p : Nat)) s (t - ((dn.take k).count p : Nat))
        (if (dn.take k).count p = 0 then pct
         else some (painless.percentageOf s (t - ((dn.take k).count p : Nat))))) := by
  induction k generalizing dn f t pct with
  | zero => simp [painless.removeDownvotedLoop]
  | succ k ih =>
    have hlt : k < dn.length := hk
    have hx : dn[k]? = some dn[k] := List.getElem?_eq_getElem hlt
    have hc : (dn.take (k + 1)).count p = (dn.take k).count p + (if dn[k] = p then 1 else 0) := by
      rw [List.take_succ, hx, Option.toList, List.count_append, List.count_singleton]
      by_cases h : dn[k] = p
      · simp [h]
      · simp [h]
    rw [take_succ_filter p dn k _ hx, hc]
    unfold painless.removeDownvotedLoop
    simp only [initialisedDocument, hx]
    by_cases h : dn[k] = p
    · have hr := recomputePercentage_eq m st up (dn.eraseIdx k) (f - 1) s (t - 1) pct
      have := ih (dn.eraseIdx k) (f - 1) (t - 1) (some (painless.percentageOf s (t - 1)))
        (by rw [List.length_eraseIdx]; split <;> omega)
      simp only [initialisedDocument, take_eraseIdx_self, drop_eraseIdx_self] at this hr
      simp only [h, if_true, painless.removeDownvotedAt, hr, this]
      by_cases h0 : (dn.take k).count p = 0
      · simp [h0]
      · simp [h0]
        refine ⟨by ring, by ring, ?_⟩
        congr 1; ring
    · have := ih dn f t pct (by omega)
      simp only [initialisedDocument] at this
      simp only [h, if_false, this]
      rw [List.drop_eq_getElem_cons hlt]
      simp

theorem removeDownvotedByUser_eq (p : String) (ps pu : Option String)
    (m : ItemMetadata) (st up dn : List String) (f s t : Int) (pct : Option ℚ) :
    painless.removeDownvotedByUser { starredByUser := ps, upvotedByUser := pu, downvotedByUser := some p }
        (initialisedDocument m st up dn f s t pct) =
      some (initialisedDocument m st up (dn.filter (· ≠ p))
        (f - (dn.count p : Nat)) s (t - (dn.count p : Nat))
        (if dn.count p = 0 then pct else some (painless.percentageOf s (t - (dn.count p : Nat))))) := by
  have h := removeDownvotedLoop_eq p dn.length m st up dn f s t pct (le_refl _)
  simp only [List.take_length, List.drop_length, List.append_nil] at h
  simpa [painless.removeDownvotedByUser, initialisedDocument] using h

theorem percentageOf_one_one : painless.percentageOf 1 1 = 1 := by
  have h1 : binary64.ofInt 1 = 1 := by simpa using nearest_intCast 1 (by norm_num)
  have h100 : binary64.nearest (100 : ℚ) = 100 := by
    simpa using nearest_intCast 100 (by norm_num)
  have hone : binary64.nearest (1 : ℚ) = 1 := by simpa using nearest_intCast 1 (by norm_num)
  have hr : painless.round (100 : ℚ) = 100 := by
    simpa using round_intCast 100 (by norm_num) (by norm_num)
  unfold painless.percentageOf
  rw [if_pos (by norm_num), h1]
  unfold binary64.div binary64.mul
  rw [div_one, hone, one_mul, h100, hr]
  unfold binary64.ofInt
  push_cast
  rw [h100, div_self (by norm_num), hone]

theorem percentageOf_zero_one : painless.percentageOf 0 1 = 0 := by
  have h0 : binary64.ofInt 0 = 0 := by simp [binary64.ofInt, nearest_zero]
  have hr : painless.round (0 : ℚ) = 0 := by
    simpa using round_intCast 0 (by norm_num) (by norm_num)
  unfold painless.percentageOf
  rw [if_pos (by norm_num), h0]
  unfold binary64.div binary64.mul
  rw [zero_div, nearest_zero, zero_mul, nearest_zero, hr, h0, zero_div, nearest_zero]

theorem prologue_initialised (m : ItemMetadata) (st up dn : List String) (f s t : Int)
    (pct : Option ℚ) :
    painless.prologue (initialisedDocument m st up dn f s t pct) =
      initialisedDocument m st up dn f s t pct := by
  simp [prologue_eq, initialisedDocument]

/-! ## Lemmas on the generated scripts -/

theorem Upvote_ne_Downvote : entities.Upvote ≠ entities.Downvote := by decide

/-- The vote statements of `UpdateUserReaction` on any script wrapper. -/
theorem voteStage_eq (U : uuid.UUID) (new old : entities.Reaction) (w : ScriptWrapper) :
    (if old.Vote ≠ new.Vote then
      (if old.Vote = entities.Upvote then
        (if new.Vote = entities.Upvote then w.AddUpvotedByUser U
         else if new.Vote = entities.Downvote then w.AddDownvotedByUser U else w).RemoveUpvotedByUser U
      else if old.Vote = entities.Downvote then
        (if new.Vote = entities.Upvote then w.AddUpvotedByUser U
         else if new.Vote = entities.Downvote then w.AddDownvotedByUser U else w).RemoveDownvotedByUser U
      else
        (if new.Vote = entities.Upvote then w.AddUpvotedByUser U
         else if new.Vote = entities.Downvote then w.AddDownvotedByUser U else w))
     else w) =
      { source := w.source ++ addVoteFragments new old ++ removeVoteFragments new old
        params :=
          { starredByUser := w.params.starredByUser
            upvotedByUser :=
              if old.Vote ≠ new.Vote ∧ (new.Vote = entities.Upvote ∨ old.Vote = entities.Upvote)
                then some U.String else w.params.upvotedByUser
            downvotedByUser :=
              if old.Vote ≠ new.Vote ∧
                  (new.Vote = entities.Downvote ∨ old.Vote = entities.Downvote)
                then some U.String else w.params.downvotedByUser } } := by
  unfold addVoteFragments removeVoteFragments
  split_ifs <;>
    simp_all [ScriptWrapper.AddUpvotedByUser,
      ScriptWrapper.AddDownvotedByUser, ScriptWrapper.RemoveUpvotedByUser,
      ScriptWrapper.RemoveDownvotedByUser, Upvote_ne_Downvote, Upvote_ne_Downvote.symm]

theorem UpdateUserReaction_eq (U : uuid.UUID) (new old : entities.Reaction) :
    UpdateUserReaction U new old =
      { source := [.prologue] ++ starFragments new old ++ addVoteFragments new old ++
          removeVoteFragments new old
        params :=
          { starredByUser := if old.Starred ≠ new.Starred then some U.String else none
            upvotedByUser :=
              if old.Vote ≠ new.Vote ∧ (new.Vote = entities.Upvote ∨ old.Vote = entities.Upvote)
                then some U.String else none
            downvotedByUser :=
              if old.Vote ≠ new.Vote ∧
                  (new.Vote = entities.Downvote ∨ old.Vote = entities.Downvote)
                then some U.String else none } } := by
  unfold UpdateUserReaction
  simp only []
  rw [voteStage_eq]
  unfold starFragments
  split_ifs <;> simp [NewScriptWrapper, ScriptWrapper.AddStarredByUser,
      ScriptWrapper.RemoveStarredByUser]

theorem prologue_toDocument (doc : ItemDocument) :
    painless.prologue doc = (CountedDocument.ofDocument doc).toDocument :=
  prologue_eq doc

theorem runFragment_effect (params : ScriptParams) (u : String) (fragment : Fragment)
    (c : CountedDocument) (h : params.covers u fragment) :
    painless.runFragment params fragment c.toDocument = some (fragment.effect u c).toDocument := by
  obtain ⟨ps, pu, pd⟩ := params
  obtain ⟨m, st, up, dn, f, s, t, pct⟩ := c
  cases fragment <;> simp only [ScriptParams.covers] at h <;> try subst h
  · simp [painless.runFragment, CountedDocument.toDocument, Fragment.effect, prologue_initialised]
  · simp [painless.runFragment, CountedDocument.toDocument, Fragment.effect, addStarredByUser_eq]
  · simp [painless.runFragment, CountedDocument.toDocument, Fragment.effect,
      removeStarredByUser_eq]
  · simp [painless.runFragment, CountedDocument.toDocument, Fragment.effect,
      removeDownvotedByUser_eq]
  · simp [painless.runFragment, CountedDocument.toDocument, Fragment.effect,
      removeUpvotedByUser_eq]
  · simp [painless.runFragment, CountedDocument.toDocument, Fragment.effect,
      addDownvotedByUser_eq]
  · simp [painless.runFragment, CountedDocument.toDocument, Fragment.effect, addUpvotedByUser_eq]

theorem runFragments_effect (params : ScriptParams) (u : String) (fragments : List Fragment)
    (c : CountedDocument) (h : ∀ fragment ∈ fragments, params.covers u fragment) :
    painless.runFragments params fragments c.toDocument =
      some (effects u fragments c).toDocument := by
  induction fragments generalizing c with
  | nil => simp [painless.runFragments, effects]
  | cons fragment rest ih =>
    have h1 := runFragment_effect params u fragment c (h fragment (List.mem_cons_self _ _))
    have h2 := ih (fragment.effect u c) (fun x hx => h x (List.mem_cons_of_mem _ hx))
    simp only [painless.runFragments, h1, h2, effects, List.foldl_cons]

theorem UpdateUserReaction_covers (U : uuid.UUID) (new old : entities.Reaction) :
    ∀ fragment ∈ starFragments new old ++ addVoteFragments new old ++ removeVoteFragments new old,
      (UpdateUserReaction U new old).params.covers U.String fragment := by
  intro fragment hmem
  rw [UpdateUserReaction_eq]
  simp only [List.mem_append] at hmem
  rcases hmem with (hmem | hmem) | hmem
  · unfold starFragments at hmem
    split_ifs at hmem with h1 h2 <;> simp at hmem <;> subst hmem <;>
      simp [ScriptParams.covers, h1]
  · unfold addVoteFragments at hmem
    split_ifs at hmem <;> simp at hmem <;> subst hmem <;>
      simp_all [ScriptParams.covers]
  · unfold removeVoteFragments at hmem
    split_ifs at hmem <;> simp at hmem <;> subst hmem <;>
      simp_all [ScriptParams.covers]

/-- A generated script never fails, and its result is the closed form of its
fragments applied to the document the prologue makes. -/
theorem UpdateUserReaction_run (U : uuid.UUID) (new old : entities.Reaction) (doc : ItemDocument) :
    (UpdateUserReaction U new old).run doc =
      some (effects U.String
        (starFragments new old ++ addVoteFragments new old ++ removeVoteFragments new old)
        (CountedDocument.ofDocument doc)).toDocument := by
  have hc := UpdateUserReaction_covers U new old
  have hs : (UpdateUserReaction U new old).source =
      .prologue :: (starFragments new old ++ addVoteFragments new old ++
        removeVoteFragments new old) := by
    rw [UpdateUserReaction_eq]; simp
  unfold ScriptWrapper.run
  rw [hs]
  simp only [painless.runFragments, painless.runFragment, prologue_toDocument]
  exact runFragments_effect _ _ _ _ hc

theorem effect_consistent (u : String) (fragment : Fragment) (c : CountedDocument)
    (h : c.Consistent) : (fragment.effect u c).Consistent := by
  obtain ⟨h1, h2⟩ := h
  cases fragment <;> simp only [Fragment.effect, CountedDocument.Consistent]
  · exact ⟨h1, h2⟩
  · exact ⟨h1, h2⟩
  · exact ⟨h1, h2⟩
  · refine ⟨by rw [h1]; ring, ?_⟩
    by_cases h0 : c.downvotedByUser.count u = 0
    · simp [h0, h2]
    · simp [h0]
  · refine ⟨by rw [h1]; ring, ?_⟩
    unfold percentageAfter
    by_cases h0 : c.upvotedByUser.count u = 0
    · simp [h0, h2]
    · simp [h0]
  · exact ⟨by rw [h1]; ring, trivial⟩
  · exact ⟨by rw [h1]; ring, trivial⟩

theorem effects_consistent (u : String) (fragments : List Fragment) (c : CountedDocument)
    (h : c.Consistent) : (effects u fragments c).Consistent := by
  induction fragments generalizing c with
  | nil => exact h
  | cons fragment rest ih =>
    simp only [effects, List.foldl_cons]
    exact ih _ (effect_consistent u fragment c h)

theorem effects_append (u : String) (a b : List Fragment) (c : CountedDocument) :
    effects u (a ++ b) c = effects u b (effects u a c) := by
  simp [effects, List.foldl_append]

theorem ofDocument_toDocument (c : CountedDocument) :
    CountedDocument.ofDocument c.toDocument = c := by
  obtain ⟨m, st, up, dn, f, s, t, pct⟩ := c
  simp [CountedDocument.ofDocument, CountedDocument.toDocument, initialisedDocument]

theorem effects_vote_starredByUser (u : String) (fragments : List Fragment) (c : CountedDocument)
    (h : ∀ fragment ∈ fragments, fragment.isVote = true) :
    (effects u fragments c).starredByUser = c.starredByUser := by
  induction fragments generalizing c with
  | nil => rfl
  | cons fragment rest ih =>
    simp only [effects, List.foldl_cons]
    have h1 := ih (fragment.effect u c) (fun x hx => h x (List.mem_cons_of_mem _ hx))
    simp only [effects] at h1
    rw [h1]
    have h2 := h fragment (List.mem_cons_self _ _)
    cases fragment <;> simp [Fragment.isVote] at h2 <;> rfl

theorem voteFragments_isVote (new old : entities.Reaction) :
    ∀ fragment ∈ addVoteFragments new old ++ removeVoteFragments new old,
      fragment.isVote = true := by
  intro fragment hmem
  simp only [List.mem_append] at hmem
  rcases hmem with hmem | hmem
  · unfold addVoteFragments at hmem
    split_ifs at hmem <;> simp at hmem <;> subst hmem <;> rfl
  · unfold removeVoteFragments at hmem
    split_ifs at hmem <;> simp at hmem <;> subst hmem <;> rfl

/-- The starred-by-user array a generated script leaves. -/
theorem UpdateUserReaction_run_starredByUser (U : uuid.UUID) (new old : entities.Reaction)
    (doc : ItemDocument) :
    ∃ d, (UpdateUserReaction U new old).run doc = some d ∧
      d.starredByUser = some
        (if old.Starred ≠ new.Starred then
          (if new.Starred then doc.starredByUser.getD [] ++ [U.String]
           else (doc.starredByUser.getD []).filter (· ≠ U.String))
         else doc.starredByUser.getD []) := by
  refine ⟨_, UpdateUserReaction_run U new old doc, ?_⟩
  rw [List.append_assoc, effects_append]
  simp only [CountedDocument.toDocument, initialisedDocument]
  rw [effects_vote_starredByUser _ _ _ (voteFragments_isVote new old)]
  unfold starFragments
  split_ifs <;> simp_all [effects, Fragment.effect, CountedDocument.ofDocument]

theorem count_filter_ne (u : String) (l : List String) : (l.filter (· ≠ u)).count u = 0 := by
  rw [List.count_eq_zero]
  intro h
  simpa using (List.mem_filter.mp h).2

theorem filter_filter_ne (u : String) (l : List String) :
    (l.filter (· ≠ u)).filter (· ≠ u) = l.filter (· ≠ u) := by
  simp [List.filter_filter]
theorem removal_effects_idempotent (u : String) (fragments : List Fragment) (c : CountedDocument)
    (h : fragments = [] ∨ fragments = [.RemoveStarredByUser] ∨
      fragments = [.RemoveUpvotedByUser] ∨ fragments = [.RemoveDownvotedByUser] ∨
      fragments = [.RemoveStarredByUser, .RemoveUpvotedByUser] ∨
      fragments = [.RemoveStarredByUser, .RemoveDownvotedByUser]) :
    effects u fragments (effects u fragments c) = effects u fragments c := by
  obtain ⟨m, st, up, dn, f, s, t, pct⟩ := c
  have hc : ∀ l : List String, List.count u (List.filter (fun a => !decide (a = u)) l) = 0 :=
    fun l => by simpa using count_filter_ne u l
  rcases h with h | h | h | h | h | h <;> subst h <;>
    simp [effects, Fragment.effect, hc, percentageAfter]

theorem removal_fragments_cases (new old : entities.Reaction)
    (hStar : old.Starred = new.Starred ∨ new.Starred = false)
    (hVote : old.Vote = new.Vote ∨
      (new.Vote ≠ entities.Upvote ∧ new.Vote ≠ entities.Downvote)) :
    let fragments := starFragments new old ++ addVoteFragments new old ++ removeVoteFragments new old
    fragments = [] ∨ fragments = [.RemoveStarredByUser] ∨
      fragments = [.RemoveUpvotedByUser] ∨ fragments = [.RemoveDownvotedByUser] ∨
      fragments = [.RemoveStarredByUser, .RemoveUpvotedByUser] ∨
      fragments = [.RemoveStarredByUser, .RemoveDownvotedByUser] := by
  have hadd : addVoteFragments new old = [] := by
    unfold addVoteFragments
    rcases hVote with h | ⟨h1, h2⟩
    · simp [h]
    · simp [h1, h2]
  have hstar : starFragments new old = [] ∨ starFragments new old = [.RemoveStarredByUser] := by
    unfold starFragments
    rcases hStar with h | h
    · simp [h]
    · by_cases h2 : old.Starred = new.Starred
      · simp [h2]
      · simp [h2, h]
  have hrem : removeVoteFragments new old = [] ∨
      removeVoteFragments new old = [.RemoveUpvotedByUser] ∨
      removeVoteFragments new old = [.RemoveDownvotedByUser] := by
    unfold removeVoteFragments
    split_ifs <;> simp
  intro fragments
  simp only [fragments, hadd, List.append_nil]
  rcases hstar with h1 | h1 <;> rcases hrem with h2 | h2 | h2 <;> simp [h1, h2]

/-- The document of a consistent counted document has its three counters, the
tries being the successes plus the failures, and the percentage the scripts
store for them. -/
theorem toDocument_consistent (c : CountedDocument) (h : c.Consistent) :
    ∃ s f t : Int, c.toDocument.numberOfSuccesses = some s ∧
      c.toDocument.numberOfFailures = some f ∧ c.toDocument.numberOfTries = some t ∧
      t = s + f ∧
      c.toDocument.successPercentage = some (painless.percentageOf s t) := by
  obtain ⟨h1, h2⟩ := h
  exact ⟨c.numberOfSuccesses, c.numberOfFailures, c.numberOfTries, rfl, rfl, rfl, h1, h2⟩

/-- The percentage the scripts store when there is no try. -/
theorem percentageOf_zero (s : Int) : painless.percentageOf s 0 = 0 := by
  simp [painless.percentageOf]

/-- Every reachable document has its three counters, the tries being the
successes plus the failures, and the percentage the scripts store for them. -/
theorem reachable_consistent (doc : ItemDocument) (h : Reachable doc) :
    ∃ s f t : Int, doc.numberOfSuccesses = some s ∧ doc.numberOfFailures = some f ∧
      doc.numberOfTries = some t ∧ t = s + f ∧
      doc.successPercentage = some (painless.percentageOf s t) := by
  induction h with
  | indexed pickupLine dto hdto =>
    unfold pickupLineToElasticDTO at hdto
    cases hUser : pickupLine.User with
    | none => simp [hUser] at hdto
    | some user =>
      simp only [hUser, Option.some.injEq] at hdto
      subst hdto
      exact ⟨0, 0, 0, rfl, rfl, rfl, rfl, by simp [indexedDocument, percentageOf_zero]⟩
  | script doc doc1 userId newReaction oldReaction _ hrun ih =>
    rw [UpdateUserReaction_run] at hrun
    simp only [Option.some.injEq] at hrun
    subst hrun
    apply toDocument_consistent
    apply effects_consistent
    obtain ⟨s, f, t, hs, hf, ht, hsum, hp⟩ := ih
    simp [CountedDocument.Consistent, CountedDocument.ofDocument, hs, hf, ht, hsum, hp]
  | updated doc pickupLine _ ih => exact ih

/-- For any two numbers there is a reachable document with that many successes
and that many failures. -/
theorem reachable_votes (n m : Nat) :
    ∃ doc, Reachable doc ∧ doc.numberOfSuccesses = some (n : Int) ∧
      doc.numberOfFailures = some (m : Int) := by
  induction m with
  | zero =>
    induction n with
    | zero =>
      exact ⟨indexedDocument {}, Reachable.indexed { User := some {} } {} rfl, rfl, rfl⟩
    | succ n ih =>
      obtain ⟨doc, hr, hs, hf⟩ := ih
      refine ⟨_, Reachable.script doc _ ⟨1⟩ { Vote := entities.Upvote } {} hr
        (UpdateUserReaction_run _ _ _ _), ?_, ?_⟩
      · simp [effects, starFragments, addVoteFragments, removeVoteFragments, Fragment.effect,
          CountedDocument.ofDocument, CountedDocument.toDocument, initialisedDocument, hs,
          show ("" : String) ≠ entities.Upvote by decide,
          show ¬ ("" : String) = entities.Downvote by decide]
      · simp [effects, starFragments, addVoteFragments, removeVoteFragments, Fragment.effect,
          CountedDocument.ofDocument, CountedDocument.toDocument, initialisedDocument, hf,
          show ("" : String) ≠ entities.Upvote by decide,
          show ¬ ("" : String) = entities.Downvote by decide]
  | succ m ih =>
    obtain ⟨doc, hr, hs, hf⟩ := ih
    refine ⟨_, Reachable.script doc _ ⟨1⟩ { Vote := entities.Downvote } {} hr
      (UpdateUserReaction_run _ _ _ _), ?_, ?_⟩
    · simp [effects, starFragments, addVoteFragments, removeVoteFragments, Fragment.effect,
        CountedDocument.ofDocument, CountedDocument.toDocument, initialisedDocument, hs,
        show ("" : String) ≠ entities.Downvote by decide,
        show ¬ ("" : String) = entities.Upvote by decide,
        show ¬ entities.Downvote = entities.Upvote by decide]
    · simp [effects, starFragments, addVoteFragments, removeVoteFragments, Fragment.effect,
        CountedDocument.ofDocument, CountedDocument.toDocument, initialisedDocument, hf,
        show ("" : String) ≠ entities.Downvote by decide,
        show ¬ ("" : String) = entities.Upvote by decide,
        show ¬ entities.Downvote = entities.Upvote by decide]
/-! ## Lemmas on the services -/

/-- Tag resolution makes at most one call, on the tag service. -/
theorem GetTagsFromRequest_calls (u : PickupLineService)
    (Parse : String → uuid.UUID × Option error)
    (rawTags : List (Option requests.TagIdRequest)) (userUUID : uuid.UUID) (calls : List Call) :
    ∃ made, (u.GetTagsFromRequest Parse rawTags userUUID calls).2 = calls ++ made ∧
      ∀ call ∈ made, call.onSearchEngine = false ∧ call.isRelationalWrite = false := by
  unfold PickupLineService.GetTagsFromRequest
  split_ifs with h0
  · exact ⟨[], by simp⟩
  · split
    · exact ⟨[], by simp⟩
    · exact ⟨[], by simp⟩
    · split
      · exact ⟨[_], rfl, by simp [Call.onSearchEngine, Call.isRelationalWrite]⟩
      · exact ⟨[_], rfl, by simp [Call.onSearchEngine, Call.isRelationalWrite]⟩

/-- A call that writes nothing deletes nothing. -/
theorem isRelationalDelete_of_not_write (call : Call) (h : call.isRelationalWrite = false) :
    call.isRelationalDelete = false := by
  cases call <;> simp_all [Call.isRelationalWrite, Call.isRelationalDelete]

/-- With an empty cache the first loop of `elasticDtoToTags` puts every tag id on
the list to search. -/
theorem sortTagIds_empty_cache (userUUID : uuid.UUID) (tagIds : List uuid.UUID)
    (tagsToSearch : List (List uuid.UUID)) (tags : List entities.Tag) :
    ElasticSearchMapper.sortTagIds userUUID [] tagIds (tagsToSearch, tags) =
      (tagsToSearch ++ tagIds.map (fun tagId => [tagId, userUUID]), tags) := by
  induction tagIds generalizing tagsToSearch with
  | nil => simp [ElasticSearchMapper.sortTagIds]
  | cons tagId tagIds ih => simp [ElasticSearchMapper.sortTagIds, ih]

/-- The calls of `elasticDtoToTags`: none for an empty list, else one lookup of all
the tag ids of the list. -/
theorem elasticDtoToTags_calls (e : ElasticSearchMapper) (tagIds : List uuid.UUID)
    (userUUID : uuid.UUID) (calls : List Call) :
    (e.elasticDtoToTags tagIds userUUID calls).2 =
      if tagIds = [] then calls
      else calls ++ [.TagRepository_GetListByTagIdAndUserIdList
        (tagIds.map (fun tagId => [tagId, userUUID]))] := by
  unfold ElasticSearchMapper.elasticDtoToTags
  simp only [sortTagIds_empty_cache, List.nil_append, List.length_map, ne_eq,
    List.length_eq_zero]
  split_ifs with h
  · rfl
  · split <;> rfl

/-! ## Lemmas on the second call of `GetQuery`, the feed and the hydration -/

/-- A wrapper on which `GetQuery` has completed fails on the next `GetQuery`. -/
theorem GetQuery_twice_fails (q : QueryWrapper) (query : types.Query) (q1 : QueryWrapper)
    (h : q.GetQuery = some (query, q1)) : q1.GetQuery = none := by
  unfold QueryWrapper.GetQuery at h
  cases hfs : q.query.FunctionScore with
  | none => simp [hfs] at h
  | some fs =>
    simp only [hfs] at h
    split_ifs at h with hlen
    · cases hq : fs.Query with
      | none => simp [hq] at h
      | some inner =>
        cases hb : q.query.Bool with
        | none => simp [hq, hb] at h
        | some b =>
          simp only [hq, hb, Option.some.injEq, Prod.mk.injEq] at h
          obtain ⟨-, rfl⟩ := h
          simp [QueryWrapper.GetQuery, hlen]
    · simp only [Option.some.injEq, Prod.mk.injEq] at h
      obtain ⟨-, rfl⟩ := h
      simp [QueryWrapper.GetQuery]

/-- The calls of `getReaction` extend the calls made so far. -/
theorem getReaction_calls (e : ElasticSearchMapper) (pickupLineId userId : uuid.UUID)
    (calls : List Call) :
    (e.getReaction pickupLineId userId calls).2 =
      calls ++ [.PickupLineRepository_GetReactionByPickupLineIdAndUserId pickupLineId userId] := by
  unfold ElasticSearchMapper.getReaction
  split
  · split_ifs
    · rfl
    · split <;> rfl
  · rfl

/-- The calls of the hydration loop extend the calls made so far. -/
theorem hydrateHits_calls (e : ElasticSearchMapper) (userId : uuid.UUID) (hits : List types.Hit)
    (pickupLineList : List responses.SinglePickupLineInfoResponse) (calls : List Call) :
    ∃ made, (e.hydrateHits userId hits pickupLineList calls).2 = calls ++ made := by
  induction hits generalizing pickupLineList calls with
  | nil => exact ⟨[], by simp [ElasticSearchMapper.hydrateHits]⟩
  | cons hit hits ih =>
    unfold ElasticSearchMapper.hydrateHits
    cases hSource : hit.Source_ with
    | error err => exact ⟨[], by simp⟩
    | ok pickupLineDTO =>
      simp only
      have hTags := elasticDtoToTags_calls e pickupLineDTO.Tags pickupLineDTO.UserId calls
      rcases hT : e.elasticDtoToTags pickupLineDTO.Tags pickupLineDTO.UserId calls with
        ⟨⟨tags, errTags⟩, calls1⟩
      rw [hT] at hTags
      simp only at hTags
      have h1 : ∃ made1, calls1 = calls ++ made1 := by
        rw [hTags]
        split_ifs
        · exact ⟨[], by simp⟩
        · exact ⟨_, rfl⟩
      obtain ⟨made1, rfl⟩ := h1
      cases errTags with
      | some err => exact ⟨made1, rfl⟩
      | none =>
        simp only
        have hReaction := getReaction_calls e pickupLineDTO.Id userId (calls ++ made1)
        rcases hR : e.getReaction pickupLineDTO.Id userId (calls ++ made1) with
          ⟨result, calls2⟩
        rw [hR] at hReaction
        simp only at hReaction
        subst hReaction
        cases result with
        | none => exact ⟨_, by simp only; rw [List.append_assoc]⟩
        | some result =>
          obtain ⟨reaction, errReaction⟩ := result
          cases errReaction with
          | some err => exact ⟨_, by simp only; rw [List.append_assoc]⟩
          | none =>
            simp only
            split
            · exact ⟨_, by rw [List.append_assoc]⟩
            · obtain ⟨made, hmade⟩ := ih _ (calls ++ made1 ++
                [.PickupLineRepository_GetReactionByPickupLineIdAndUserId pickupLineDTO.Id userId])
              exact ⟨_, by rw [hmade, List.append_assoc, List.append_assoc]⟩

/-- The calls of the hydration extend the calls made so far. -/
theorem hydrate_calls (e : ElasticSearchMapper) (response : search.Response)
    (userId : uuid.UUID) (calls : List Call) :
    ∃ made,
      (e.hydratePickupLineListFromElasticSearchResponse response userId calls).2 =
        calls ++ made := by
  obtain ⟨made, hmade⟩ := hydrateHits_calls e userId response.Hits.Hits [] calls
  unfold ElasticSearchMapper.hydratePickupLineListFromElasticSearchResponse
  rcases hH : e.hydrateHits userId response.Hits.Hits [] calls with ⟨result, calls1⟩
  rw [hH] at hmade
  simp only at hmade
  subst hmade
  refine ⟨made, ?_⟩
  cases result with
  | none => rfl
  | some result =>
    obtain ⟨list, err⟩ := result
    cases err with
    | some err => rfl
    | none =>
      simp only
      split <;> rfl

/-- The request the feed and the search build for a filter specification whose
mode is `VISIBLE`: its query is present, the clauses a document has to match
are the filter clauses registered and its visibility clauses are the one
clause `visible = true`. -/
theorem feed_steps (n : Int) (f : filters.PickupLineQueryFilters) (r : uuid.UUID)
    (hVisible : f.Visible = entities.Visible) :
    ∃ e1 e2 request e3 query,
      ((GetNewElasticSearchRequestWrapper GetNewQueryWrapper).withSize n).applyFilters n f r =
        some e1 ∧
      e1.applySorting f = some e2 ∧ e2.getRequest = some (request, e3) ∧
      request.Query = some query ∧
      query.requiredClauses.filter isVisibilityClause = [visibleClause true] ∧
      query.shouldClauses.filter isVisibilityClause = [] := by
  have h0 : (GetNewElasticSearchRequestWrapper GetNewQueryWrapper).withSize n =
      wrapperOf { Size := some n } {} (some { Functions := [], Query := some {} }) := rfl
  have hv : (addedFilters f r).filter isVisibilityClause = [visibleClause true] := by
    rw [addedFilters_visibility]
    unfold addedVisibility
    simp [hVisible, show entities.Visible ≠ "" by decide,
      show entities.Visible ≠ entities.NotVisible by decide]
  have hs : (addedShoulds f).filter isVisibilityClause = [] := by
    unfold addedShoulds
    simp only [List.filter_append, List.filter_map]
    have ht : ∀ l : List String, List.filter (isVisibilityClause ∘ tagClause) l = [] := by
      intro l
      rw [List.filter_eq_nil_iff]
      intro a _
      simp [isVisibilityClause, tagClause]
    rw [ht]
    split_ifs <;> simp [isVisibilityClause, titleSuggestionClause, contentClause]
  rw [h0, applyFilters_eq]
  have hsort := applySorting_eq { From := some (mulInt f.Page n), Size := some n }
    (some (({} : types.BoolQuery).extend (addedFilters f r) (addedShoulds f)))
    { Functions := [], Query := some {} } f
  by_cases hfun : addedFunctions f.SortingType = []
  · have hg := GetQuery_plain
      (some (({} : types.BoolQuery).extend (addedFilters f r) (addedShoulds f)))
      { Functions := [] ++ addedFunctions f.SortingType, Query := some {} } (by simp [hfun])
    refine ⟨_, _, _, _, _, rfl, hsort, getRequest_eq _ _ _ _ hg, rfl, ?_, ?_⟩
    · simpa [types.Query.requiredClauses, types.BoolQuery.extend] using hv
    · simpa [types.Query.shouldClauses, types.BoolQuery.extend] using hs
  · have hg := GetQuery_scored (({} : types.BoolQuery).extend (addedFilters f r) (addedShoulds f))
      { Functions := [] ++ addedFunctions f.SortingType, Query := some {} } {} rfl
      (by simpa using hfun)
    refine ⟨_, _, _, _, _, rfl, hsort, getRequest_eq _ _ _ _ hg, rfl, ?_, ?_⟩
    · simpa [types.Query.requiredClauses, types.BoolQuery.extend] using hv
    · simpa [types.Query.shouldClauses, types.BoolQuery.extend] using hs

/-! ## Lemmas on the statistics aggregation and on counters against entries -/

/-- The vote `NONE` is not the vote `UPVOTE`. -/
theorem None_ne_Upvote : entities.None ≠ entities.Upvote := by decide

/-- The vote `NONE` is not the vote `DOWNVOTE`. -/
theorem None_ne_Downvote : entities.None ≠ entities.Downvote := by decide

/-- The loop of `GetStatisticsById` on rows with at most one upvote row and at
most one downvote row, whose counts are not negative and fit an `int` together
with the total so far. -/
theorem countVotes_eq (countResult : List database.StatisticsCountResult)
    (statistics : entities.Statistic) (total : Int) (up down : Option Int)
    (hUp : (countResult.filter (fun row => row.Vote = entities.Upvote)).map (fun row => row.Total) =
      up.toList)
    (hDown : (countResult.filter (fun row => row.Vote = entities.Downvote)).map
      (fun row => row.Total) = down.toList)
    (hUp0 : 0 ≤ up.getD 0) (hDown0 : 0 ≤ down.getD 0) (hTotal0 : 0 ≤ total)
    (hFit : total + up.getD 0 + down.getD 0 < 2 ^ 63) :
    Database.countVotes countResult (statistics, total) =
      ({ statistics with
          NumberOfSuccesses := up.getD statistics.NumberOfSuccesses
          NumberOfFailures := down.getD statistics.NumberOfFailures },
        total + up.getD 0 + down.getD 0) := by
  induction countResult generalizing statistics total up down with
  | nil =>
    cases up <;> cases down <;> simp_all [Database.countVotes]
  | cons row rows ih =>
    unfold Database.countVotes
    by_cases hNone : row.Vote = entities.None
    · rw [if_pos hNone]
      simp only [List.filter_cons, hNone, None_ne_Upvote, None_ne_Downvote, decide_False,
        Bool.false_eq_true, if_false] at hUp hDown
      exact ih statistics total up down hUp hDown hUp0 hDown0 hTotal0 hFit
    · by_cases hUpvote : row.Vote = entities.Upvote
      · rw [if_neg hNone, if_pos hUpvote]
        simp only [List.filter_cons, hUpvote, Upvote_ne_Downvote, decide_True, decide_False,
          if_true, Bool.false_eq_true, if_false, List.map_cons] at hUp hDown
        cases up with
        | none => simp at hUp
        | some upCount =>
          simp only [Option.toList, List.cons.injEq] at hUp
          obtain ⟨hCount, hRest⟩ := hUp
          subst hCount
          simp only [Option.getD_some] at hUp0 hFit ⊢
          have hw : wrapInt64 (total + row.Total) = total + row.Total :=
            wrapInt64_of_range _ ⟨by linarith [show (0 : Int) ≤ 2 ^ 63 by norm_num], by linarith⟩
          rw [hw, ih { statistics with NumberOfSuccesses := row.Total } (total + row.Total) none
            down (by simpa using hRest) hDown (by simp) hDown0 (by linarith)
            (by simpa using hFit)]
          simp
      · by_cases hDownvote : row.Vote = entities.Downvote
        · rw [if_neg hNone, if_neg hUpvote, if_pos hDownvote]
          simp only [List.filter_cons, hDownvote, Upvote_ne_Downvote.symm, decide_True,
            decide_False, if_true, Bool.false_eq_true, if_false, List.map_cons] at hUp hDown
          cases down with
          | none => simp at hDown
          | some downCount =>
            simp only [Option.toList, List.cons.injEq] at hDown
            obtain ⟨hCount, hRest⟩ := hDown
            subst hCount
            simp only [Option.getD_some] at hDown0 hFit ⊢
            have hw : wrapInt64 (total + row.Total) = total + row.Total :=
              wrapInt64_of_range _
                ⟨by linarith [show (0 : Int) ≤ 2 ^ 63 by norm_num], by linarith⟩
            rw [hw, ih { statistics with NumberOfFailures := row.Total } (total + row.Total) up
              none hUp (by simpa using hRest) hUp0 (by simp) (by linarith)
              (by simp only [Option.getD_none]; linarith)]
            simp only [Option.getD_none, Prod.mk.injEq]
            exact ⟨trivial, by ring⟩
        · rw [if_neg hNone, if_neg hUpvote, if_neg hDownvote]
          simp only [List.filter_cons, hUpvote, hDownvote, decide_False, Bool.false_eq_true,
            if_false] at hUp hDown
          exact ih statistics total up down hUp hDown hUp0 hDown0 hTotal0 hFit

/-- The percentage `GetStatisticsById` computes for successes that are not
negative and not more than the tries lies between 0 and 1. -/
theorem statistics_percentage_bounds (successes tries : Int) (h0 : 0 ≤ successes)
    (h1 : successes ≤ tries) (ht : 0 < tries) :
    0 ≤ binary64.div
        (math.Round
          (binary64.mul (binary64.div (binary64.ofInt successes) (binary64.ofInt tries)) 100))
        100 ∧
      binary64.div
        (math.Round
          (binary64.mul (binary64.div (binary64.ofInt successes) (binary64.ofInt tries)) 100))
        100 ≤ 1 := by
  have hone : binary64.nearest (1 : ℚ) = 1 := by simpa using nearest_intCast 1 (by norm_num)
  have h100 : binary64.nearest (100 : ℚ) = 100 := by
    simpa using nearest_intCast 100 (by norm_num)
  have hs : (0 : ℚ) ≤ (successes : ℚ) := by exact_mod_cast h0
  have hst : (successes : ℚ) ≤ (tries : ℚ) := by exact_mod_cast h1
  have ht1 : (1 : ℚ) ≤ (tries : ℚ) := by exact_mod_cast ht
  have ha0 : 0 ≤ binary64.ofInt successes := nearest_nonneg _ hs
  have hab : binary64.ofInt successes ≤ binary64.ofInt tries := nearest_mono _ _ hs hst
  have hb1 : 1 ≤ binary64.ofInt tries := by
    have := nearest_mono 1 (tries : ℚ) (by norm_num) ht1
    rw [hone] at this
    exact this
  have hb0 : 0 < binary64.ofInt tries := by linarith
  have hq0 : 0 ≤ binary64.ofInt successes / binary64.ofInt tries := div_nonneg ha0 (le_of_lt hb0)
  have hq1 : binary64.ofInt successes / binary64.ofInt tries ≤ 1 := (div_le_one hb0).mpr hab
  have hd0 : 0 ≤ binary64.div (binary64.ofInt successes) (binary64.ofInt tries) :=
    nearest_nonneg _ hq0
  have hd1 : binary64.div (binary64.ofInt successes) (binary64.ofInt tries) ≤ 1 := by
    have := nearest_mono _ 1 hq0 hq1
    rw [hone] at this
    exact this
  have hm0 : 0 ≤ binary64.mul (binary64.div (binary64.ofInt successes) (binary64.ofInt tries))
      100 := nearest_nonneg _ (by positivity)
  have hm1 : binary64.mul (binary64.div (binary64.ofInt successes) (binary64.ofInt tries))
      100 ≤ 100 := by
    have := nearest_mono
      (binary64.div (binary64.ofInt successes) (binary64.ofInt tries) * 100) 100
      (by positivity) (by linarith)
    rw [h100] at this
    exact this
  have hr : 0 ≤ math.Round
        (binary64.mul (binary64.div (binary64.ofInt successes) (binary64.ofInt tries)) 100) ∧
      math.Round
        (binary64.mul (binary64.div (binary64.ofInt successes) (binary64.ofInt tries)) 100) ≤
        100 := by
    unfold math.Round
    rw [if_pos hm0]
    constructor
    · have : (0 : Int) ≤ ⌊binary64.mul
          (binary64.div (binary64.ofInt successes) (binary64.ofInt tries)) 100 + 1 / 2⌋ :=
        Int.floor_nonneg.mpr (by linarith)
      exact_mod_cast this
    · have : ⌊binary64.mul
          (binary64.div (binary64.ofInt successes) (binary64.ofInt tries)) 100 + 1 / 2⌋ < 101 := by
        rw [Int.floor_lt]
        push_cast
        linarith
      have h : ⌊binary64.mul
          (binary64.div (binary64.ofInt successes) (binary64.ofInt tries)) 100 + 1 / 2⌋ ≤ 100 := by
        omega
      exact_mod_cast h
  constructor
  · exact nearest_nonneg _ (div_nonneg hr.1 (by norm_num))
  · have := nearest_mono
      (math.Round
        (binary64.mul (binary64.div (binary64.ofInt successes) (binary64.ofInt tries)) 100) / 100)
      1 (div_nonneg hr.1 (by norm_num)) ((div_le_one (by norm_num)).mpr hr.2)
    rw [hone] at this
    exact this

/-- The percentage `GetStatisticsById` computes for 23 successes in 40 tries is
the double `0.57`. -/
theorem statistics_percentage_23_40 :
    binary64.div
        (math.Round (binary64.mul (binary64.div (binary64.ofInt 23) (binary64.ofInt 40)) 100))
        100 = binary64.div 57 100 := by
  rw [mul_23_40_100]
  have hr : math.Round (8092405580431359 * (2 : ℚ) ^ (-47 : Int)) = ((57 : Int) : ℚ) :=
    Round_eq _ 57 (by positivity) (by norm_num) (by norm_num)
  rw [hr]
  norm_num

/-- Dropping the entries equal to `u` shortens a list by their number. -/
theorem length_filter_ne (u : String) (l : List String) :
    ((l.filter (· ≠ u)).length : Int) = (l.length : Int) - (l.count u : Nat) := by
  induction l with
  | nil => simp
  | cons a l ih =>
    by_cases h : a = u
    · subst h
      simp only [List.filter_cons, ne_eq, not_true_eq_false, decide_False, Bool.false_eq_true,
        if_false, List.length_cons, List.count_cons_self, Nat.cast_add, Nat.cast_one]
      rw [ih]
      ring
    · have h' : (a == u) = false := by simpa using h
      simp only [List.filter_cons, ne_eq, h, not_false_eq_true, decide_True, if_true,
        List.length_cons, List.count_cons, h', Bool.false_eq_true, if_false, Nat.cast_add,
        Nat.cast_one, add_zero]
      rw [ih]
      ring

/-- A fragment keeps the successes equal to the number of upvote entries, the
failures equal to the number of downvote entries, and the tries equal to their
sum. -/
theorem effect_matched (u : String) (fragment : Fragment) (c : CountedDocument)
    (hUp : c.numberOfSuccesses = (c.upvotedByUser.length : Int))
    (hDown : c.numberOfFailures = (c.downvotedByUser.length : Int)) :
    (fragment.effect u c).numberOfSuccesses = ((fragment.effect u c).upvotedByUser.length : Int) ∧
    (fragment.effect u c).numberOfFailures =
      ((fragment.effect u c).downvotedByUser.length : Int) ∧
    (c.numberOfTries = c.numberOfSuccesses + c.numberOfFailures →
      (fragment.effect u c).numberOfTries =
        (fragment.effect u c).numberOfSuccesses + (fragment.effect u c).numberOfFailures) := by
  cases fragment <;> simp only [Fragment.effect]
  · exact ⟨hUp, hDown, id⟩
  · exact ⟨hUp, hDown, id⟩
  · exact ⟨hUp, hDown, id⟩
  · refine ⟨hUp, ?_, fun h => by rw [h]; ring⟩
    rw [length_filter_ne, hDown]
  · refine ⟨?_, hDown, fun h => by rw [h]; ring⟩
    rw [length_filter_ne, hUp]
  · refine ⟨hUp, ?_, fun h => by rw [h]; ring⟩
    rw [hDown]
    simp
  · refine ⟨?_, hDown, fun h => by rw [h]; ring⟩
    rw [hUp]
    simp

/-- A list of fragments keeps the counters equal to the numbers of entries. -/
theorem effects_matched (u : String) (fragments : List Fragment) (c : CountedDocument)
    (hUp : c.numberOfSuccesses = (c.upvotedByUser.length : Int))
    (hDown : c.numberOfFailures = (c.downvotedByUser.length : Int)) :
    (effects u fragments c).numberOfSuccesses =
      ((effects u fragments c).upvotedByUser.length : Int) ∧
    (effects u fragments c).numberOfFailures =
      ((effects u fragments c).downvotedByUser.length : Int) ∧
    (c.numberOfTries = c.numberOfSuccesses + c.numberOfFailures →
      (effects u fragments c).numberOfTries =
        (effects u fragments c).numberOfSuccesses + (effects u fragments c).numberOfFailures) := by
  induction fragments generalizing c with
  | nil => exact ⟨hUp, hDown, id⟩
  | cons fragment rest ih =>
    simp only [effects, List.foldl_cons]
    obtain ⟨h1, h2, h3⟩ := effect_matched u fragment c hUp hDown
    obtain ⟨g1, g2, g3⟩ := ih (fragment.effect u c) h1 h2
    exact ⟨g1, g2, fun h => g3 (h3 h)⟩

/-- The hydration loop over two lists of hits one after the other: the second
list is gone through from where the first one ends, if that one ends without
error. -/
theorem hydrateHits_append (e : ElasticSearchMapper) (userId : uuid.UUID)
    (pre post : List types.Hit) (pickupLineList : List responses.SinglePickupLineInfoResponse)
    (calls : List Call) :
    e.hydrateHits userId (pre ++ post) pickupLineList calls =
      match e.hydrateHits userId pre pickupLineList calls with
      | (some (list, none), calls1) => e.hydrateHits userId post list calls1
      | other => other := by
  induction pre generalizing pickupLineList calls with
  | nil => simp [ElasticSearchMapper.hydrateHits]
  | cons hit hits ih =>
    rw [List.cons_append]
    simp only [ElasticSearchMapper.hydrateHits]
    cases hit.Source_ with
    | error err => rfl
    | ok pickupLineDTO =>
      simp only
      rcases e.elasticDtoToTags pickupLineDTO.Tags pickupLineDTO.UserId calls with
        ⟨⟨tags, errTags⟩, calls1⟩
      cases errTags with
      | some err => rfl
      | none =>
        simp only
        rcases e.getReaction pickupLineDTO.Id userId calls1 with ⟨result, calls2⟩
        cases result with
        | none => rfl
        | some result =>
          obtain ⟨reaction, errReaction⟩ := result
          cases errReaction with
          | some err => rfl
          | none =>
            simp only
            cases responses.NewSinglePickupLineInfoResponse
                (elasticDtoToPickupLine pickupLineDTO tags reaction) with
            | none => rfl
            | some item =>
              simp only
              exact ih _ _

/-- With a tag repository that never fails, `elasticDtoToTags` returns no error. -/
theorem elasticDtoToTags_ok (e : ElasticSearchMapper) (tagIds : List uuid.UUID)
    (userUUID : uuid.UUID) (calls : List Call)
    (hTags : ∀ calls tagList, (e.tagRepository.GetListByTagIdAndUserIdList calls tagList).2 = none) :
    (e.elasticDtoToTags tagIds userUUID calls).1.2 = none := by
  unfold ElasticSearchMapper.elasticDtoToTags
  simp only
  split_ifs
  · have h := hTags calls (ElasticSearchMapper.sortTagIds userUUID [] tagIds ([], [])).1
    rcases hr : e.tagRepository.GetListByTagIdAndUserIdList calls
      (ElasticSearchMapper.sortTagIds userUUID [] tagIds ([], [])).1 with ⟨list, err⟩
    rw [hr] at h
    simp only at h
    subst h
    rfl
  · rfl

/-- With a reaction lookup that always hands over a reaction and fails with
record-not-found only, `getReaction` returns a reaction and no error. -/
theorem getReaction_ok (e : ElasticSearchMapper) (pickupLineId userId : uuid.UUID)
    (calls : List Call)
    (hReaction : ∀ calls pickupLineId userId,
      (∃ reaction,
        (e.pickupLineRepository.GetReactionByPickupLineIdAndUserId calls pickupLineId userId).1 =
          some reaction) ∧
      ∀ err,
        (e.pickupLineRepository.GetReactionByPickupLineIdAndUserId calls pickupLineId userId).2 =
          some err →
        errors.Is err gorm.ErrRecordNotFound = true) :
    ∃ reaction calls1,
      e.getReaction pickupLineId userId calls = (some (some reaction, none), calls1) := by
  obtain ⟨⟨reaction, hr⟩, hIs⟩ := hReaction calls pickupLineId userId
  unfold ElasticSearchMapper.getReaction
  rcases hl : e.pickupLineRepository.GetReactionByPickupLineIdAndUserId calls pickupLineId
    userId with ⟨found, err⟩
  rw [hl] at hr hIs
  simp only at hr hIs
  subst hr
  cases err with
  | none =>
    exact ⟨reaction,
      calls ++ [.PickupLineRepository_GetReactionByPickupLineIdAndUserId pickupLineId userId], rfl⟩
  | some err =>
    exact ⟨{ reaction with Vote := entities.None },
      calls ++ [.PickupLineRepository_GetReactionByPickupLineIdAndUserId pickupLineId userId],
      by simp [hIs err rfl]⟩

/-- The statistics an item of the response carries for a projection. -/
theorem NewSinglePickupLineInfoResponse_of_dto (dto : elastic_dtos.PickupLineElasticDTO)
    (tags : List entities.Tag) (reaction : Option entities.Reaction) :
    responses.NewSinglePickupLineInfoResponse (elasticDtoToPickupLine dto tags reaction) =
      some
        { ID := dto.Id
          Title := dto.Title
          Content := dto.Content
          Tags := tags
          Statistics := some
            { NumberOfSuccesses := dto.NumberOfSuccesses
              NumberOfFailures := dto.NumberOfFailures
              NumberOfTries := dto.NumberOfTries
              SuccessPercentage := dto.SuccessPercentage }
          UserReaction := reaction
          Visible := dto.Visible
          UpdatedAt := dto.UpdatedAt
          User := some
            { ID := dto.UserId, DisplayName := dto.DisplayName, Username := dto.Username } } :=
  rfl

/-- The hydration loop over hits that all decode, with lookups that do not
fail: one item per hit is appended, in hit order. -/
theorem hydrateHits_ok (e : ElasticSearchMapper) (userId : uuid.UUID)
    (dtos : List elastic_dtos.PickupLineElasticDTO)
    (pickupLineList : List responses.SinglePickupLineInfoResponse) (calls : List Call)
    (hTags : ∀ calls tagList, (e.tagRepository.GetListByTagIdAndUserIdList calls tagList).2 = none)
    (hReaction : ∀ calls pickupLineId userId,
      (∃ reaction,
        (e.pickupLineRepository.GetReactionByPickupLineIdAndUserId calls pickupLineId userId).1 =
          some reaction) ∧
      ∀ err,
        (e.pickupLineRepository.GetReactionByPickupLineIdAndUserId calls pickupLineId userId).2 =
          some err →
        errors.Is err gorm.ErrRecordNotFound = true) :
    ∃ items calls1,
      e.hydrateHits userId (dtos.map (fun dto => { Source_ := .ok dto })) pickupLineList calls =
        (some (pickupLineList ++ items, none), calls1) ∧
      items.map (fun item => item.ID) = dtos.map (fun dto => dto.Id) ∧
      items.map (fun item => item.Statistics) =
        dtos.map (fun dto => some
          { NumberOfSuccesses := dto.NumberOfSuccesses
            NumberOfFailures := dto.NumberOfFailures
            NumberOfTries := dto.NumberOfTries
            SuccessPercentage := dto.SuccessPercentage }) ∧
      ∀ item ∈ items, ∃ reaction, item.UserReaction = some reaction := by
  induction dtos generalizing pickupLineList calls with
  | nil => exact ⟨[], calls, by simp [ElasticSearchMapper.hydrateHits], rfl, rfl, by simp⟩
  | cons dto dtos ih =>
    have hT := elasticDtoToTags_ok e dto.Tags dto.UserId calls hTags
    rcases hTr : e.elasticDtoToTags dto.Tags dto.UserId calls with ⟨⟨tags, errTags⟩, calls1⟩
    rw [hTr] at hT
    simp only at hT
    subst hT
    obtain ⟨reaction, calls2, hR⟩ := getReaction_ok e dto.Id userId calls1 hReaction
    obtain ⟨item, hItem, hId, hStat, hRe⟩ : ∃ item,
        responses.NewSinglePickupLineInfoResponse
          (elasticDtoToPickupLine dto tags (some reaction)) = some item ∧
        item.ID = dto.Id ∧
        item.Statistics = some
          { NumberOfSuccesses := dto.NumberOfSuccesses
            NumberOfFailures := dto.NumberOfFailures
            NumberOfTries := dto.NumberOfTries
            SuccessPercentage := dto.SuccessPercentage } ∧
        item.UserReaction = some reaction := ⟨_, rfl, rfl, rfl, rfl⟩
    obtain ⟨items, calls3, hrun, hIds, hStats, hReact⟩ := ih (pickupLineList ++ [item]) calls2
    refine ⟨item :: items, calls3, ?_, ?_, ?_, ?_⟩
    · rw [List.map_cons]
      simp only [ElasticSearchMapper.hydrateHits, hTr, hR, hItem]
      rw [hrun]
      simp
    · simp [hIds, hId]
    · simp [hStats, hStat]
    · intro x hx
      rcases List.mem_cons.mp hx with h | h
      · exact ⟨reaction, by rw [h, hRe]⟩
      · exact hReact x h

/-! ## The claims -/

/-- Claim C1. For every filter specification `f` and requesting user `r`,
`applyFilters` on a fresh wrapper succeeds and the visibility clauses among the
filter clauses it registered are as the policy table says, never more than one:
`VISIBLE` gives `visible = true`; `NOT_VISIBLE` gives `visible = false` when
`f.UserId = r` and `visible = true` otherwise; `ALL` gives none; the unset mode
gives `visible = true` when `f.UserId ≠ r` and none when `f.UserId = r`. -/
theorem applyFilters_visibility_policy (ITEMS_FOR_PAGE : Int)
    (f : filters.PickupLineQueryFilters) (r : uuid.UUID) :
    ∃ e, freshWrapper.applyFilters ITEMS_FOR_PAGE f r = some e ∧
      (e.query.filterClauses.filter isVisibilityClause).length ≤ 1 ∧
      (f.Visible = entities.Visible →
        e.query.filterClauses.filter isVisibilityClause = [visibleClause true]) ∧
      (f.Visible = entities.NotVisible → f.UserId = r →
        e.query.filterClauses.filter isVisibilityClause = [visibleClause false]) ∧
      (f.Visible = entities.NotVisible → f.UserId ≠ r →
        e.query.filterClauses.filter isVisibilityClause = [visibleClause true]) ∧
      (f.Visible = entities.All →
        e.query.filterClauses.filter isVisibilityClause = []) ∧
      (f.Visible = "" → f.UserId ≠ r →
        e.query.filterClauses.filter isVisibilityClause = [visibleClause true]) ∧
      (f.Visible = "" → f.UserId = r →
        e.query.filterClauses.filter isVisibilityClause = []) := by
  obtain ⟨e, he, -, -, -, hf, -⟩ := applyFilters_fresh ITEMS_FOR_PAGE f r
  refine ⟨e, he, ?_⟩
  rw [hf, addedFilters_visibility]
  unfold addedVisibility
  refine ⟨?_, ?_, ?_, ?_, ?_, ?_, ?_⟩
  · split_ifs <;> simp
  · intro h; simp [h, show entities.Visible ≠ "" by decide,
      show entities.Visible ≠ entities.NotVisible by decide]
  · intro h h2; simp [h, h2, show entities.NotVisible ≠ "" by decide]
  · intro h h2; simp [h, h2, show entities.NotVisible ≠ "" by decide]
  · intro h; simp [h, show entities.All ≠ "" by decide,
      show entities.All ≠ entities.NotVisible by decide,
      show entities.All ≠ entities.Visible by decide]
  · intro h h2; simp [h, h2]
  · intro h h2; simp [h, h2]

/-- Claim C2, refuted as stated. User 1 searches the items of user 2 with
visibility mode `ALL`: the only filter clause registered is the owner filter, so
the query carries no `visible = true` clause. The page size, 10 here, plays no
part in the clauses. -/
theorem applyFilters_all_mode_other_user_unrestricted :
    (freshWrapper.applyFilters 10 { UserId := ⟨2⟩, Visible := entities.All } ⟨1⟩).map
        (fun e => e.query.filterClauses) = some [userClause ⟨2⟩] ∧
      visibleClause true ∉ [userClause ⟨2⟩] := by
  decide

/-- Claim C2, amended. For every filter specification whose owner filter differs
from the requesting user (so also when it names another user) and whose
visibility mode is unset, `VISIBLE` or `NOT_VISIBLE`, the query built by
`applyFilters` carries a `visible = true` filter clause and no
`visible = false` clause. -/
theorem applyFilters_other_user_forced_visible (ITEMS_FOR_PAGE : Int)
    (f : filters.PickupLineQueryFilters) (r : uuid.UUID) (hOther : f.UserId ≠ r)
    (hMode : f.Visible = "" ∨ f.Visible = entities.Visible ∨ f.Visible = entities.NotVisible) :
    ∃ e, freshWrapper.applyFilters ITEMS_FOR_PAGE f r = some e ∧
      visibleClause true ∈ e.query.filterClauses ∧
      visibleClause false ∉ e.query.filterClauses := by
  obtain ⟨e, he, -, -, -, hf, -⟩ := applyFilters_fresh ITEMS_FOR_PAGE f r
  have hv : e.query.filterClauses.filter isVisibilityClause = [visibleClause true] := by
    rw [hf, addedFilters_visibility]
    unfold addedVisibility
    rcases hMode with h | h | h
    · simp [h, hOther]
    · simp [h, show entities.Visible ≠ "" by decide,
        show entities.Visible ≠ entities.NotVisible by decide]
    · simp [h, hOther, show entities.NotVisible ≠ "" by decide]
  refine ⟨e, he, ?_, ?_⟩
  · have : visibleClause true ∈ e.query.filterClauses.filter isVisibilityClause := by
      rw [hv]; simp
    exact (List.mem_filter.mp this).1
  · intro hmem
    have : visibleClause false ∈ e.query.filterClauses.filter isVisibilityClause :=
      List.mem_filter.mpr ⟨hmem, rfl⟩
    rw [hv] at this
    simp [visibleClause] at this

/-- Claim C2, amended, at a concrete input: user 1 asks for the hidden items of
user 2 and gets the filter `visible = true`. -/
theorem applyFilters_other_user_forced_visible_witness :
    ∃ e, freshWrapper.applyFilters 10 { UserId := ⟨2⟩, Visible := entities.NotVisible } ⟨1⟩ =
        some e ∧
      visibleClause true ∈ e.query.filterClauses ∧
      visibleClause false ∉ e.query.filterClauses :=
  applyFilters_other_user_forced_visible 10 { UserId := ⟨2⟩, Visible := entities.NotVisible }
    ⟨1⟩ (by decide) (Or.inr (Or.inr rfl))

/-- Claim C3. For every requesting user and every filter specification with no
owner filter (`UserId = uuid.Nil`) whose visibility mode is unset or
`NOT_VISIBLE`, `applyFilters` registers a `visible = true` filter clause and no
`visible = false` clause. The requesting user is the identity of a stored user,
read by `utils.ExtractUserUuidFromRequest` from the token; `User.BeforeSave`
gives every stored user an id other than `uuid.Nil`, and the controllers return
when the extraction fails, so `applyFilters` is never called with the requester
`uuid.Nil`: this is the hypothesis `hr`. -/
theorem applyFilters_no_owner_forced_visible (ITEMS_FOR_PAGE : Int)
    (f : filters.PickupLineQueryFilters) (r : uuid.UUID) (hr : r ≠ uuid.Nil)
    (hNoOwner : f.UserId = uuid.Nil)
    (hMode : f.Visible = "" ∨ f.Visible = entities.NotVisible) :
    ∃ e, freshWrapper.applyFilters ITEMS_FOR_PAGE f r = some e ∧
      visibleClause true ∈ e.query.filterClauses ∧
      visibleClause false ∉ e.query.filterClauses := by
  obtain ⟨e, he, -, -, -, hf, -⟩ := applyFilters_fresh ITEMS_FOR_PAGE f r
  have hOther : f.UserId ≠ r := by rw [hNoOwner]; exact fun h => hr h.symm
  have hv : e.query.filterClauses.filter isVisibilityClause = [visibleClause true] := by
    rw [hf, addedFilters_visibility]
    unfold addedVisibility
    rcases hMode with h | h
    · simp [h, hOther]
    · simp [h, hOther, show entities.NotVisible ≠ "" by decide]
  refine ⟨e, he, ?_, ?_⟩
  · have : visibleClause true ∈ e.query.filterClauses.filter isVisibilityClause := by
      rw [hv]; simp
    exact (List.mem_filter.mp this).1
  · intro hmem
    have : visibleClause false ∈ e.query.filterClauses.filter isVisibilityClause :=
      List.mem_filter.mpr ⟨hmem, rfl⟩
    rw [hv] at this
    simp [visibleClause] at this

/-- Claim C3 at a concrete input: user 1, no owner filter, mode `NOT_VISIBLE`. -/
theorem applyFilters_no_owner_forced_visible_witness :
    ∃ e, freshWrapper.applyFilters 10 { Visible := entities.NotVisible } ⟨1⟩ = some e ∧
      visibleClause true ∈ e.query.filterClauses ∧
      visibleClause false ∉ e.query.filterClauses :=
  applyFilters_no_owner_forced_visible 10 { Visible := entities.NotVisible } ⟨1⟩ (by decide) rfl
    (Or.inr rfl)

/-- Claim C4. `applyFilters` registers the upvoted-by-user filter, keyed on the
requesting user, if and only if `OnlyUpvoted` is set and the owner filter is
`uuid.Nil` or the requesting user: the upvoted-by-user clauses among the
registered filter clauses are that one clause in this case and none otherwise,
in particular none when the owner filter names another user. -/
theorem applyFilters_only_upvoted (ITEMS_FOR_PAGE : Int)
    (f : filters.PickupLineQueryFilters) (r : uuid.UUID) :
    ∃ e, freshWrapper.applyFilters ITEMS_FOR_PAGE f r = some e ∧
      (upvotedByUserClause r ∈ e.query.filterClauses ↔
        f.OnlyUpvoted = true ∧ (f.UserId = uuid.Nil ∨ f.UserId = r)) ∧
      e.query.filterClauses.filter isUpvotedByUserClause =
        (if f.OnlyUpvoted = true ∧ (f.UserId = uuid.Nil ∨ f.UserId = r) then
          [upvotedByUserClause r] else []) ∧
      (f.UserId ≠ uuid.Nil → f.UserId ≠ r →
        e.query.filterClauses.filter isUpvotedByUserClause = []) := by
  obtain ⟨e, he, -, -, -, hf, -⟩ := applyFilters_fresh ITEMS_FOR_PAGE f r
  have hu := addedFilters_upvoted f r
  rw [← hf] at hu
  refine ⟨e, he, ?_, hu, ?_⟩
  · constructor
    · intro hmem
      have : upvotedByUserClause r ∈ e.query.filterClauses.filter isUpvotedByUserClause :=
        List.mem_filter.mpr ⟨hmem, rfl⟩
      rw [hu] at this
      by_contra hc
      simp [hc] at this
    · intro hc
      have : upvotedByUserClause r ∈ e.query.filterClauses.filter isUpvotedByUserClause := by
        rw [hu]; simp [hc]
      exact (List.mem_filter.mp this).1
  · intro h1 h2
    rw [hu]
    simp [h1, h2]

/-- Claim C5. For every filter specification with `SortingType = BestOfAllTime`
and every requester, `applyFilters`, `applySorting` and `getRequest` on a fresh
wrapper succeed and the query of the request is a function-score query with
exactly one function, the field-value factor on the number-of-successes field
with factor 1.5; its inner boolean query has under `Must` the filter clauses
`applyFilters` registered, in order, and an empty `Filter`; the top-level `Bool`
is absent. -/
theorem bestOfAllTime_query (ITEMS_FOR_PAGE : Int) (f : filters.PickupLineQueryFilters)
    (r : uuid.UUID) (h : f.SortingType = filters.BestOfAllTime) :
    ∃ e1 e2 request e3, freshWrapper.applyFilters ITEMS_FOR_PAGE f r = some e1 ∧
      e1.applySorting f = some e2 ∧ e2.getRequest = some (request, e3) ∧
      request.Query = some
        { Bool := none
          FunctionScore := some
            { Functions := [.FieldValueFactor (.finite (3 / 2)) .ELASTIC_NUMBER_OF_SUCCESSES]
              Query := some
                { Bool := some
                    { Must := e1.query.filterClauses
                      Filter := []
                      Should := e1.query.shouldClauses
                      MinimumShouldMatch := none } } } } := by
  obtain ⟨e1, e2, h1, h2, hf, hs, he2⟩ := search_steps ITEMS_FOR_PAGE f r
  have ha : addedFunctions f.SortingType =
      [.FieldValueFactor (.finite (3 / 2)) .ELASTIC_NUMBER_OF_SUCCESSES] := by
    simp [addedFunctions, h, show filters.BestOfAllTime ≠ filters.New by decide]
  rw [ha] at he2
  have hg := GetQuery_scored { Filter := addedFilters f r, Should := addedShoulds f }
    { Functions := [.FieldValueFactor (.finite (3 / 2)) .ELASTIC_NUMBER_OF_SUCCESSES],
      Query := some {} } {} rfl (by simp)
  have hr := getRequest_eq { From := some (mulInt f.Page ITEMS_FOR_PAGE) } _ _ _ hg
  subst he2
  exact ⟨e1, _, _, _, h1, h2, hr, by simp [hf, hs]⟩

/-- Claim C5 at a concrete input: the starred items, best of all time. -/
theorem bestOfAllTime_query_witness :
    ∃ e1 e2 request e3,
      freshWrapper.applyFilters 10 { SortingType := filters.BestOfAllTime, Starred := true } ⟨1⟩ =
        some e1 ∧
      e1.applySorting { SortingType := filters.BestOfAllTime, Starred := true } = some e2 ∧
      e2.getRequest = some (request, e3) ∧
      request.Query = some
        { Bool := none
          FunctionScore := some
            { Functions := [.FieldValueFactor (.finite (3 / 2)) .ELASTIC_NUMBER_OF_SUCCESSES]
              Query := some
                { Bool := some
                    { Must := e1.query.filterClauses
                      Filter := []
                      Should := e1.query.shouldClauses
                      MinimumShouldMatch := none } } } } :=
  bestOfAllTime_query 10 { SortingType := filters.BestOfAllTime, Starred := true } ⟨1⟩ rfl

/-- Claim C6. For every filter specification with no sort mode selected (the
sorting type is none of the four modes, the empty string included),
`applyFilters`, `applySorting` and `getRequest` on a fresh wrapper succeed and
the query of the request is the plain boolean query: the registered filter and
should clauses in place, nothing under `Must`, and `FunctionScore` absent. -/
theorem no_sort_mode_query (ITEMS_FOR_PAGE : Int) (f : filters.PickupLineQueryFilters)
    (r : uuid.UUID)
    (h1 : f.SortingType ≠ filters.New) (h2 : f.SortingType ≠ filters.BestOfAllTime)
    (h3 : f.SortingType ≠ filters.Trending) (h4 : f.SortingType ≠ filters.Random) :
    ∃ e1 e2 request e3, freshWrapper.applyFilters ITEMS_FOR_PAGE f r = some e1 ∧
      e1.applySorting f = some e2 ∧ e2.getRequest = some (request, e3) ∧
      e2 = e1 ∧
      request.Query = some
        { Bool := some
            { Filter := e1.query.filterClauses
              Must := []
              Should := e1.query.shouldClauses
              MinimumShouldMatch := none }
          FunctionScore := none } := by
  obtain ⟨e1, he1, hreq, hb, hfs, hf, hs⟩ := applyFilters_fresh ITEMS_FOR_PAGE f r
  obtain ⟨req, ⟨⟨bo, fso⟩⟩⟩ := e1
  simp only at hreq hb hfs
  subst hreq hb hfs
  have ha : addedFunctions f.SortingType = [] := by
    simp [addedFunctions, h1, h2, h3, h4]
  have hsort := applySorting_eq { From := some (mulInt f.Page ITEMS_FOR_PAGE) }
    (some { Filter := addedFilters f r, Should := addedShoulds f })
    { Functions := [], Query := some {} } f
  rw [ha] at hsort
  simp only [List.append_nil] at hsort
  have hg := GetQuery_plain (some { Filter := addedFilters f r, Should := addedShoulds f })
    { Functions := [], Query := some {} } rfl
  have hr := getRequest_eq { From := some (mulInt f.Page ITEMS_FOR_PAGE) } _ _ _ hg
  exact ⟨_, _, _, _, he1, hsort, hr, rfl, by simp [QueryWrapper.filterClauses,
    QueryWrapper.shouldClauses]⟩

/-- Claim C6 at a concrete input: a title search with no sort mode. -/
theorem no_sort_mode_query_witness :
    ∃ e1 e2 request e3,
      freshWrapper.applyFilters 10 { Title := "x" } ⟨1⟩ = some e1 ∧
      e1.applySorting { Title := "x" } = some e2 ∧
      e2.getRequest = some (request, e3) ∧
      e2 = e1 ∧
      request.Query = some
        { Bool := some
            { Filter := e1.query.filterClauses
              Must := []
              Should := e1.query.shouldClauses
              MinimumShouldMatch := none }
          FunctionScore := none } :=
  no_sort_mode_query 10 { Title := "x" } ⟨1⟩ (by decide) (by decide) (by decide) (by decide)

/-- Claim C7. For every sequence of registering calls on a new query wrapper that
registers at least one scoring function, the calls succeed and the first
`GetQuery` returns a query whose `FunctionScore` holds the registered functions
in registration order and whose inner `Bool` has `Must` equal to the registered
filter clauses in order, an empty `Filter`, and `Should` and
`MinimumShouldMatch` as registered; the top-level `Bool` is absent. -/
theorem GetQuery_first_call_with_scoring (cs : List QueryCall)
    (h : registeredFunctions cs ≠ []) :
    ∃ q query q1, GetNewQueryWrapper.calls cs = some q ∧ q.GetQuery = some (query, q1) ∧
      query =
        { Bool := none
          FunctionScore := some
            { Functions := registeredFunctions cs
              Query := some
                { Bool := some
                    { Must := registeredFilters cs
                      Filter := []
                      Should := registeredShoulds cs
                      MinimumShouldMatch := registeredMinimumShouldMatch none cs } } } } := by
  have hc := calls_eq cs {} { Functions := [], Query := some {} }
  have hg := GetQuery_scored
    { Filter := registeredFilters cs, Must := [], Should := registeredShoulds cs,
      MinimumShouldMatch := registeredMinimumShouldMatch none cs }
    { Functions := registeredFunctions cs, Query := some {} } {} rfl h
  simp only [List.nil_append] at hc
  exact ⟨_, _, _, hc, hg, rfl⟩

/-- Claim C7 at a concrete input: a visibility filter, a tag, a threshold and
the random score. -/
theorem GetQuery_first_call_with_scoring_witness :
    ∃ q query q1,
      GetNewQueryWrapper.calls
        [.WithVisibleFilter true, .WithTagsShould ["t"], .SetMinimumShouldMatch 1,
         .WithRandomScoring] = some q ∧
      q.GetQuery = some (query, q1) ∧
      query =
        { Bool := none
          FunctionScore := some
            { Functions := [.RandomScore "_seq_no"]
              Query := some
                { Bool := some
                    { Must := [visibleClause true]
                      Filter := []
                      Should := [tagClause "t"]
                      MinimumShouldMatch := some 1 } } } } :=
  GetQuery_first_call_with_scoring
    [.WithVisibleFilter true, .WithTagsShould ["t"], .SetMinimumShouldMatch 1, .WithRandomScoring]
    (by decide)

/-- Claim C8. On a wrapper whose query has its `FunctionScore`, `applySorting`
succeeds, leaves the request and the boolean query (filter and should clauses)
as they are and appends scoring functions per sort mode: `New` the Gaussian
decay on the updated-at field with scale "1d"; `BestOfAllTime` the field-value
factor on the number-of-successes field with factor 1.5; `Trending` the decay
followed by the factor; `Random` the random score on `_seq_no`; any other value
nothing. -/
theorem applySorting_per_mode (e : SearchRequestWrapper) (f : filters.PickupLineQueryFilters)
    (fs : types.FunctionScoreQuery) (h : e.query.query.FunctionScore = some fs) :
    ∃ e1 added, e.applySorting f = some e1 ∧
      e1.request = e.request ∧
      e1.query.query.Bool = e.query.query.Bool ∧
      e1.query.query.FunctionScore = some { fs with Functions := fs.Functions ++ added } ∧
      (f.SortingType = filters.New → added = [.Gauss .ELASTIC_UPDATED_AT_FIELD "1d"]) ∧
      (f.SortingType = filters.BestOfAllTime →
        added = [.FieldValueFactor (.finite (3 / 2)) .ELASTIC_NUMBER_OF_SUCCESSES]) ∧
      (f.SortingType = filters.Trending →
        added = [.Gauss .ELASTIC_UPDATED_AT_FIELD "1d",
                 .FieldValueFactor (.finite (3 / 2)) .ELASTIC_NUMBER_OF_SUCCESSES]) ∧
      (f.SortingType = filters.Random → added = [.RandomScore "_seq_no"]) ∧
      (f.SortingType ≠ filters.New → f.SortingType ≠ filters.BestOfAllTime →
        f.SortingType ≠ filters.Trending → f.SortingType ≠ filters.Random → added = []) := by
  obtain ⟨req, ⟨⟨bo, fso⟩⟩⟩ := e
  simp only at h
  subst h
  refine ⟨_, addedFunctions f.SortingType, applySorting_eq req bo fs f, rfl, rfl, rfl, ?_⟩
  unfold addedFunctions
  refine ⟨?_, ?_, ?_, ?_, ?_⟩
  · intro h; simp [h]
  · intro h; simp [h, show filters.BestOfAllTime ≠ filters.New by decide]
  · intro h; simp [h, show filters.Trending ≠ filters.New by decide,
      show filters.Trending ≠ filters.BestOfAllTime by decide]
  · intro h; simp [h, show filters.Random ≠ filters.New by decide,
      show filters.Random ≠ filters.BestOfAllTime by decide,
      show filters.Random ≠ filters.Trending by decide]
  · intro h1 h2 h3 h4; simp [h1, h2, h3, h4]

/-- Claim C8 at a concrete input: `Trending` on a fresh wrapper registers the
decay and then the factor. -/
theorem applySorting_per_mode_witness :
    ∃ e1 added, freshWrapper.applySorting { SortingType := filters.Trending } = some e1 ∧
      e1.query.query.Bool = some {} ∧
      e1.query.query.FunctionScore = some { Functions := [] ++ added, Query := some {} } ∧
      added = [.Gauss .ELASTIC_UPDATED_AT_FIELD "1d",
               .FieldValueFactor (.finite (3 / 2)) .ELASTIC_NUMBER_OF_SUCCESSES] := by
  obtain ⟨e1, added, h1, -, hb, h2, -, -, h3, -⟩ :=
    applySorting_per_mode freshWrapper { SortingType := filters.Trending }
      { Functions := [], Query := some {} } rfl
  exact ⟨e1, added, h1, hb, h2, h3 rfl⟩

/-- Claim C9. For every filter specification and requester, `applyFilters` on a
fresh wrapper succeeds and sets the offset to the Go product
`Page * ITEMS_FOR_PAGE` (the integer product whenever that fits in 64 bits). Its
should clauses are one term per tag id in order, then the title suggestion iff
`Title` is non-empty, then the content match iff `Content` is non-empty. Its
filter clauses other than the visibility and upvoted-by-user ones are the
starred-by-user filter on the requesting user iff `Starred`, then the owner
filter on `UserId` iff `UserId ≠ uuid.Nil`, then the success-percentage
lower bound iff `SuccessPercentage > 0`. -/
theorem applyFilters_registrations (ITEMS_FOR_PAGE : Int)
    (f : filters.PickupLineQueryFilters) (r : uuid.UUID) :
    ∃ e, freshWrapper.applyFilters ITEMS_FOR_PAGE f r = some e ∧
      e.request.From = some (mulInt f.Page ITEMS_FOR_PAGE) ∧
      (-(2 : Int) ^ 63 ≤ f.Page * ITEMS_FOR_PAGE ∧ f.Page * ITEMS_FOR_PAGE < 2 ^ 63 →
        e.request.From = some (f.Page * ITEMS_FOR_PAGE)) ∧
      e.query.shouldClauses =
        f.Tags.map tagClause ++
        (if f.Title ≠ "" then [titleSuggestionClause f.Title] else []) ++
        (if f.Content ≠ "" then [contentClause f.Content] else []) ∧
      e.query.filterClauses.filter (fun c => !isVisibilityClause c && !isUpvotedByUserClause c) =
        (if f.Starred then [starredByUserClause r] else []) ++
        (if f.UserId ≠ uuid.Nil then [userClause f.UserId] else []) ++
        (if f.SuccessPercentage.gtZero then [successPercentageClause f.SuccessPercentage]
          else []) := by
  obtain ⟨e, he, hreq, -, -, hf, hs⟩ := applyFilters_fresh ITEMS_FOR_PAGE f r
  refine ⟨e, he, ?_, ?_, ?_, ?_⟩
  · rw [hreq]
  · intro hrange
    rw [hreq]
    simp only [mulInt, wrapInt64_of_range _ hrange]
  · rw [hs]; rfl
  · rw [hf]; exact addedFilters_rest f r

/-- Claim C10. For every user `U` and every item document with no votes (each
counter zero or absent, `U` not in the upvoted-by-user array): the script
generated for a change of `U` from no vote to upvote runs without error and
leaves successes 1, failures 0, tries 1, percentage 1; the script generated
next for a change of `U` from upvote to downvote runs without error and leaves
successes 0, failures 1, tries 1, percentage 0. Whether the star changes in
either step does not matter. -/
theorem upvote_then_switch_to_downvote (U : uuid.UUID) (doc : ItemDocument)
    (old1 new1 old2 new2 : entities.Reaction)
    (hTries : doc.numberOfTries = some 0 ∨ doc.numberOfTries = none)
    (hSucc : doc.numberOfSuccesses = some 0 ∨ doc.numberOfSuccesses = none)
    (hFail : doc.numberOfFailures = some 0 ∨ doc.numberOfFailures = none)
    (hUp : U.String ∉ doc.upvotedByUser.getD [])
    (hOld1 : old1.Vote ≠ entities.Upvote ∧ old1.Vote ≠ entities.Downvote)
    (hNew1 : new1.Vote = entities.Upvote)
    (hOld2 : old2.Vote = entities.Upvote) (hNew2 : new2.Vote = entities.Downvote) :
    ∃ d1 d2, (UpdateUserReaction U new1 old1).run doc = some d1 ∧
      d1.numberOfSuccesses = some 1 ∧ d1.numberOfFailures = some 0 ∧
      d1.numberOfTries = some 1 ∧ d1.successPercentage = some 1 ∧
      (UpdateUserReaction U new2 old2).run d1 = some d2 ∧
      d2.numberOfSuccesses = some 0 ∧ d2.numberOfFailures = some 1 ∧
      d2.numberOfTries = some 1 ∧ d2.successPercentage = some 0 := by
  obtain ⟨hO1a, hO1b⟩ := hOld1
  have hv1 : old1.Vote ≠ new1.Vote := by rw [hNew1]; exact hO1a
  have hv2 : old2.Vote ≠ new2.Vote := by rw [hOld2, hNew2]; decide
  have hT : doc.numberOfTries.getD 0 = 0 := by rcases hTries with h | h <;> simp [h]
  have hS : doc.numberOfSuccesses.getD 0 = 0 := by rcases hSucc with h | h <;> simp [h]
  have hF : doc.numberOfFailures.getD 0 = 0 := by rcases hFail with h | h <;> simp [h]
  have hfilter : (doc.upvotedByUser.getD [] ++ [U.String]).filter (· ≠ U.String) =
      doc.upvotedByUser.getD [] := by
    rw [List.filter_append]
    simp only [ne_eq, decide_not, List.filter_cons, List.filter_nil]
    simp
    intro a ha h
    exact hUp (h ▸ ha)
  have hcount : (doc.upvotedByUser.getD [] ++ [U.String]).count U.String = 1 := by
    rw [List.count_append, List.count_eq_zero_of_not_mem hUp]
    simp
  have e1 : ∃ st1, (UpdateUserReaction U new1 old1).run doc =
      some (initialisedDocument doc.metadata st1 (doc.upvotedByUser.getD [] ++ [U.String])
        (doc.downvotedByUser.getD []) 0 1 1 (some 1)) := by
    unfold UpdateUserReaction
    simp only [hv1, hNew1, ne_eq, not_false_eq_true, if_true, hO1a, hO1b, if_false]
    cases hs1 : old1.Starred <;> cases hs2 : new1.Starred <;>
      simp only [ScriptWrapper.run, NewScriptWrapper, ScriptWrapper.AddUpvotedByUser,
        ScriptWrapper.AddStarredByUser, ScriptWrapper.RemoveStarredByUser,
        painless.runFragments, painless.runFragment, prologue_eq, addUpvotedByUser_eq,
        addStarredByUser_eq, removeStarredByUser_eq, hT, hS, hF, percentageOf_one_one,
        List.nil_append, List.cons_append, zero_add, ne_eq, not_true_eq_false, not_false_eq_true,
        if_true, if_false, Bool.false_eq_true, Bool.true_eq_false] <;>
      exact ⟨_, rfl⟩
  obtain ⟨st1, h1⟩ := e1
  have e2 : ∃ st2, (UpdateUserReaction U new2 old2).run
      (initialisedDocument doc.metadata st1 (doc.upvotedByUser.getD [] ++ [U.String])
        (doc.downvotedByUser.getD []) 0 1 1 (some 1)) =
      some (initialisedDocument doc.metadata st2 (doc.upvotedByUser.getD [])
        (doc.downvotedByUser.getD [] ++ [U.String]) 1 0 1 (some 0)) := by
    unfold UpdateUserReaction
    simp only [hv2, hNew2, hOld2, ne_eq, not_false_eq_true, if_true,
      show entities.Downvote ≠ entities.Upvote by decide,
      show ¬ entities.Upvote = entities.Downvote by decide, if_false]
    have hp : ∀ pct, percentageAfter 1 1 (1 + 1) pct = some 0 := by
      intro pct
      simp [percentageAfter, percentageOf_zero_one]
    cases hs1 : old2.Starred <;> cases hs2 : new2.Starred <;>
      simp only [ScriptWrapper.run, NewScriptWrapper, ScriptWrapper.AddDownvotedByUser,
        ScriptWrapper.RemoveUpvotedByUser,
        ScriptWrapper.AddStarredByUser, ScriptWrapper.RemoveStarredByUser,
        painless.runFragments, painless.runFragment, prologue_initialised, addDownvotedByUser_eq,
        removeUpvotedByUser_eq,
        addStarredByUser_eq, removeStarredByUser_eq, hfilter, hcount, hp, Nat.cast_one,
        List.nil_append, List.cons_append, zero_add, ne_eq, not_true_eq_false, not_false_eq_true,
        if_true, if_false, Bool.false_eq_true, Bool.true_eq_false] <;>
      exact ⟨_, rfl⟩
  obtain ⟨st2, h2⟩ := e2
  exact ⟨_, _, h1, rfl, rfl, rfl, rfl, h2, rfl, rfl, rfl, rfl⟩

/-- Claim C10 at a concrete input: user 1 on a freshly indexed document. -/
theorem upvote_then_switch_to_downvote_witness :
    ∃ d1 d2,
      (UpdateUserReaction ⟨1⟩ { Vote := entities.Upvote } { Vote := entities.None }).run
        { numberOfFailures := some 0, numberOfSuccesses := some 0, numberOfTries := some 0,
          successPercentage := some 0 } = some d1 ∧
      d1.numberOfSuccesses = some 1 ∧ d1.numberOfFailures = some 0 ∧
      d1.numberOfTries = some 1 ∧ d1.successPercentage = some 1 ∧
      (UpdateUserReaction ⟨1⟩ { Vote := entities.Downvote } { Vote := entities.Upvote }).run d1 =
        some d2 ∧
      d2.numberOfSuccesses = some 0 ∧ d2.numberOfFailures = some 1 ∧
      d2.numberOfTries = some 1 ∧ d2.successPercentage = some 0 :=
  upvote_then_switch_to_downvote ⟨1⟩
    { numberOfFailures := some 0, numberOfSuccesses := some 0, numberOfTries := some 0,
      successPercentage := some 0 }
    { Vote := entities.None } { Vote := entities.Upvote }
    { Vote := entities.Upvote } { Vote := entities.Downvote }
    (Or.inl rfl) (Or.inl rfl) (Or.inl rfl) (by simp) ⟨by decide, by decide⟩ rfl rfl rfl

/-- Claim C11, refuted as stated. Generated reaction scripts lead from a freshly
indexed document to a document with 23 successes, 17 failures and 40 tries. Its
percentage is the double `0.57`: the quotient `23 / 40` is rounded to a double
below `0.575` before it is multiplied by 100, and `Math.round` of the product
`57.49999999999999` is 57. The claim gives `round(100 * 23 / 40) / 100`, which is
`58 / 100`, and the double `0.57` is below the double `0.58`. -/
theorem reachable_percentage_below_rounded_ratio :
    ∃ doc, Reachable doc ∧ doc.numberOfSuccesses = some 23 ∧ doc.numberOfFailures = some 17 ∧
      doc.numberOfTries = some 40 ∧
      doc.successPercentage = some (binary64.div 57 100) ∧
      binary64.div 57 100 < binary64.div 58 100 ∧
      painless.round (100 * (23 : ℚ) / 40) = 58 := by
  obtain ⟨doc, hdoc, hs, hf⟩ := reachable_votes 23 17
  obtain ⟨s, f, t, hs1, hf1, ht, hsum, hp⟩ := reachable_consistent doc hdoc
  have es : s = 23 := by
    have := hs1.symm.trans hs
    simpa using this
  have ef : f = 17 := by
    have := hf1.symm.trans hf
    simpa using this
  subst es ef
  have et : t = 40 := by rw [hsum]; norm_num
  subst et
  refine ⟨doc, hdoc, hs1, hf1, ht, ?_, percentageOf_23_40.2, ?_⟩
  · rw [hp, percentageOf_23_40.1]
  · exact round_eq _ 58 (by norm_num) (by norm_num) (by norm_num) (by norm_num)

/-- Claim C11, amended. For every item document reachable from a freshly indexed
document by generated reaction scripts (any users, any old and new reactions)
and metadata updates, the three counters are present, the tries are the
successes plus the failures, and the percentage is 0 when the tries are 0 and
otherwise the double the script computes:
`(double) Math.round((double) successes / (double) tries * 100) / 100`, each
operation rounded to a double. -/
theorem reachable_counters_consistent (doc : ItemDocument) (h : Reachable doc) :
    ∃ s f t : Int, doc.numberOfSuccesses = some s ∧ doc.numberOfFailures = some f ∧
      doc.numberOfTries = some t ∧ t = s + f ∧
      doc.successPercentage = some
        (if t ≠ 0 then
          binary64.div
            (binary64.ofInt
              (painless.round
                (binary64.mul (binary64.div (binary64.ofInt s) (binary64.ofInt t)) 100)))
            100
        else 0) := by
  obtain ⟨s, f, t, hs, hf, ht, hsum, hp⟩ := reachable_consistent doc h
  exact ⟨s, f, t, hs, hf, ht, hsum, hp⟩

/-- Claim C11, amended, at a concrete input: the document an upvote of user 1
leaves of a freshly indexed document. -/
theorem reachable_counters_consistent_witness :
    ∃ d, (UpdateUserReaction ⟨1⟩ { Vote := entities.Upvote } {}).run (indexedDocument {}) =
        some d ∧
      ∃ s f t : Int, d.numberOfSuccesses = some s ∧ d.numberOfFailures = some f ∧
        d.numberOfTries = some t ∧ t = s + f ∧
        d.successPercentage = some
          (if t ≠ 0 then
            binary64.div
              (binary64.ofInt
                (painless.round
                  (binary64.mul (binary64.div (binary64.ofInt s) (binary64.ofInt t)) 100)))
              100
          else 0) :=
  ⟨_, UpdateUserReaction_run _ _ _ _,
    reachable_counters_consistent _
      (Reachable.script (indexedDocument {}) _ ⟨1⟩ { Vote := entities.Upvote } {}
        (Reachable.indexed { User := some {} } {} rfl) (UpdateUserReaction_run _ _ _ _))⟩

/-- Claim C12. For every item document and user `U`, the script generated for `U`
turning the star on and then the script generated for `U` turning the star off
both run without error (whatever the votes do in either) and leave as
`starredByUser` the entries of the original array other than the id of `U`, in
their order: none of the entries left is the id of `U`. -/
theorem star_on_then_off (U : uuid.UUID) (doc : ItemDocument)
    (old1 new1 old2 new2 : entities.Reaction)
    (hOld1 : old1.Starred = false) (hNew1 : new1.Starred = true)
    (hOld2 : old2.Starred = true) (hNew2 : new2.Starred = false) :
    ∃ d1 d2, (UpdateUserReaction U new1 old1).run doc = some d1 ∧
      (UpdateUserReaction U new2 old2).run d1 = some d2 ∧
      d2.starredByUser = some ((doc.starredByUser.getD []).filter (· ≠ U.String)) ∧
      U.String ∉ d2.starredByUser.getD [] := by
  obtain ⟨d1, h1, hs1⟩ := UpdateUserReaction_run_starredByUser U new1 old1 doc
  obtain ⟨d2, h2, hs2⟩ := UpdateUserReaction_run_starredByUser U new2 old2 d1
  have hs : d2.starredByUser = some ((doc.starredByUser.getD []).filter (· ≠ U.String)) := by
    rw [hs2, hs1]
    simp [hOld1, hNew1, hOld2, hNew2, List.filter_append]
  refine ⟨d1, d2, h1, h2, hs, ?_⟩
  rw [hs]
  intro hmem
  simpa using (List.mem_filter.mp hmem).2

/-- Claim C12 at a concrete input: user 1 stars and unstars a document in whose
array user 1 already stands twice, around an entry of another user. -/
theorem star_on_then_off_witness :
    ∃ d1 d2,
      (UpdateUserReaction ⟨1⟩ { Starred := true } {}).run
        { starredByUser := some [(⟨1⟩ : uuid.UUID).String, (⟨2⟩ : uuid.UUID).String,
            (⟨1⟩ : uuid.UUID).String] } = some d1 ∧
      (UpdateUserReaction ⟨1⟩ {} { Starred := true }).run d1 = some d2 ∧
      d2.starredByUser = some
        ([(⟨1⟩ : uuid.UUID).String, (⟨2⟩ : uuid.UUID).String, (⟨1⟩ : uuid.UUID).String].filter
          (· ≠ (⟨1⟩ : uuid.UUID).String)) ∧
      (⟨1⟩ : uuid.UUID).String ∉ d2.starredByUser.getD [] :=
  star_on_then_off ⟨1⟩
    { starredByUser := some [(⟨1⟩ : uuid.UUID).String, (⟨2⟩ : uuid.UUID).String,
        (⟨1⟩ : uuid.UUID).String] }
    {} { Starred := true } { Starred := true } {} rfl rfl rfl rfl

/-- Claim C13, refuted as stated. The script generated for user 1 turning the
star on, run on an empty document, leaves one entry; run a second time it
leaves two. -/
theorem star_on_script_not_idempotent :
    ((UpdateUserReaction ⟨1⟩ { Starred := true } {}).run {}).map (fun d => d.starredByUser) =
        some (some [(⟨1⟩ : uuid.UUID).String]) ∧
      (((UpdateUserReaction ⟨1⟩ { Starred := true } {}).run {}).bind
          (UpdateUserReaction ⟨1⟩ { Starred := true } {}).run).map (fun d => d.starredByUser) =
        some (some [(⟨1⟩ : uuid.UUID).String, (⟨1⟩ : uuid.UUID).String]) := by
  decide

/-- Claim C13, amended. A generated script that contains no add fragment (the
star is not turned on, and the new vote is neither upvote nor downvote or the
vote does not change) is idempotent: on every document it runs without error,
and run on its own result it returns that result. -/
theorem removal_script_idempotent (U : uuid.UUID) (new old : entities.Reaction)
    (doc : ItemDocument)
    (hStar : old.Starred = new.Starred ∨ new.Starred = false)
    (hVote : old.Vote = new.Vote ∨
      (new.Vote ≠ entities.Upvote ∧ new.Vote ≠ entities.Downvote)) :
    ∃ d1, (UpdateUserReaction U new old).run doc = some d1 ∧
      (UpdateUserReaction U new old).run d1 = some d1 := by
  refine ⟨_, UpdateUserReaction_run U new old doc, ?_⟩
  rw [UpdateUserReaction_run, ofDocument_toDocument,
    removal_effects_idempotent _ _ _ (removal_fragments_cases new old hStar hVote)]

/-- Claim C13, amended, at a concrete input: user 1 takes back an upvote and a
star. -/
theorem removal_script_idempotent_witness :
    ∃ d1,
      (UpdateUserReaction ⟨1⟩ { Vote := entities.None }
        { Starred := true, Vote := entities.Upvote }).run
        { upvotedByUser := some [(⟨1⟩ : uuid.UUID).String], numberOfSuccesses := some 1,
          numberOfTries := some 1 } = some d1 ∧
      (UpdateUserReaction ⟨1⟩ { Vote := entities.None }
        { Starred := true, Vote := entities.Upvote }).run d1 = some d1 :=
  removal_script_idempotent ⟨1⟩ { Vote := entities.None }
    { Starred := true, Vote := entities.Upvote }
    { upvotedByUser := some [(⟨1⟩ : uuid.UUID).String], numberOfSuccesses := some 1,
      numberOfTries := some 1 }
    (Or.inr rfl) (Or.inr ⟨by decide, by decide⟩)

/-- Claim C14. For every user, old and new reaction, the script
`UpdateUserReaction` builds (and `GetScript` hands over unchanged, in Painless)
has as source the prologue, then the star fragment iff `Starred` differs (the
add fragment when the new state is starred, the remove fragment otherwise),
then, iff `Vote` differs, the add fragment for the new vote when it is upvote or
downvote followed by the remove fragment for the old vote when it was upvote or
downvote. Every parameter set is the id of the user as a string, and when
neither `Starred` nor `Vote` differs the script is the prologue alone with no
parameter. The add-star fragment appends the parameter; the remove-star
fragment removes every entry equal to it. -/
theorem UpdateUserReaction_script (U : uuid.UUID) (new old : entities.Reaction) :
    (UpdateUserReaction U new old).GetScript =
      { Lang := "painless"
        Source :=
          [.prologue] ++
          (if old.Starred ≠ new.Starred then
            [if new.Starred then .AddStarredByUser else .RemoveStarredByUser] else []) ++
          (if old.Vote ≠ new.Vote then
            (if new.Vote = entities.Upvote then [.AddUpvotedByUser]
             else if new.Vote = entities.Downvote then [.AddDownvotedByUser] else []) ++
            (if old.Vote = entities.Upvote then [.RemoveUpvotedByUser]
             else if old.Vote = entities.Downvote then [.RemoveDownvotedByUser] else [])
           else [])
        Params :=
          { starredByUser := if old.Starred ≠ new.Starred then some U.String else none
            upvotedByUser :=
              if old.Vote ≠ new.Vote ∧ (new.Vote = entities.Upvote ∨ old.Vote = entities.Upvote)
                then some U.String else none
            downvotedByUser :=
              if old.Vote ≠ new.Vote ∧
                  (new.Vote = entities.Downvote ∨ old.Vote = entities.Downvote)
                then some U.String else none } } ∧
      (old.Starred = new.Starred → old.Vote = new.Vote →
        UpdateUserReaction U new old = { source := [.prologue], params := {} }) ∧
      (∀ (c : CountedDocument) (pu pd : Option String),
        painless.runFragment
            { starredByUser := some U.String, upvotedByUser := pu, downvotedByUser := pd }
            .AddStarredByUser c.toDocument =
          some ({ c with starredByUser := c.starredByUser ++ [U.String] }).toDocument ∧
        painless.runFragment
            { starredByUser := some U.String, upvotedByUser := pu, downvotedByUser := pd }
            .RemoveStarredByUser c.toDocument =
          some ({ c with
            starredByUser := c.starredByUser.filter (· ≠ U.String) }).toDocument) := by
  refine ⟨?_, ?_, ?_⟩
  · rw [UpdateUserReaction_eq]
    unfold ScriptWrapper.GetScript starFragments addVoteFragments removeVoteFragments
    by_cases h : old.Vote = new.Vote <;> simp [h]
  · intro h1 h2
    rw [UpdateUserReaction_eq]
    simp [starFragments, addVoteFragments, removeVoteFragments, h1, h2]
  · intro c pu pd
    exact ⟨runFragment_effect _ U.String .AddStarredByUser c rfl,
      runFragment_effect _ U.String .RemoveStarredByUser c rfl⟩

/-! ## Claims on the services and the hydration -/

/-- Claim C15. Whenever tag resolution and the relational create succeed and
indexing the created item fails with `err`, `Create` returns no entity together
with `err`, and after tag resolution it has made, in this order, the relational
create, the indexing call, the deletion of the search document by the id of the
created item and the deletion of the relational row. The collaborators are any
functions of the calls made so far, so this holds whatever the two deletions
return. -/
theorem Create_compensates_index_failure (u : PickupLineService)
    (Parse : String → uuid.UUID × Option error) (pickupLineDTO : requests.PickupLineBodyRequest)
    (user : entities.User) (calls calls1 : List Call) (tags : List entities.Tag)
    (created : entities.PickupLine) (err : error)
    (hTags : u.GetTagsFromRequest Parse pickupLineDTO.Tags user.ID calls =
      (some (tags, none), calls1))
    (hCreate : u.pickupLineRepository.Create calls1
      (PickupLineService.entityToCreate pickupLineDTO user tags) = (created, none))
    (hIndex : u.elasticSearchWrapper.IndexPickupLine
      (calls1 ++ [.PickupLineRepository_Create
        (PickupLineService.entityToCreate pickupLineDTO user tags)]) created = some err) :
    u.Create Parse pickupLineDTO (some user) calls =
      (some (none, some err),
        calls1 ++ [.PickupLineRepository_Create
            (PickupLineService.entityToCreate pickupLineDTO user tags),
          .ElasticSearchWrapper_IndexPickupLine created,
          .ElasticSearchWrapper_DeletePickupLine created.ID,
          .PickupLineRepository_Delete created]) := by
  unfold PickupLineService.Create
  simp [hTags, hCreate, hIndex]

/-- Claim C15 at a concrete input: an item without tags, a search engine whose
indexing call (the second call made) fails. -/
theorem Create_compensates_index_failure_witness :
    (scriptedService (failingAt 1 (.New 5))).Create scriptedParse
        { Title := "The Baker", Visible := true } (some { ID := ⟨3⟩ }) [] =
      (some (none, some (.New 5)),
        [] ++ [.PickupLineRepository_Create
            (PickupLineService.entityToCreate { Title := "The Baker", Visible := true }
              { ID := ⟨3⟩ } []),
          .ElasticSearchWrapper_IndexPickupLine
            { PickupLineService.entityToCreate { Title := "The Baker", Visible := true }
                { ID := ⟨3⟩ } [] with ID := ⟨7⟩ },
          .ElasticSearchWrapper_DeletePickupLine ⟨7⟩,
          .PickupLineRepository_Delete
            { PickupLineService.entityToCreate { Title := "The Baker", Visible := true }
                { ID := ⟨3⟩ } [] with ID := ⟨7⟩ }]) :=
  Create_compensates_index_failure (scriptedService (failingAt 1 (.New 5))) scriptedParse
    { Title := "The Baker", Visible := true } { ID := ⟨3⟩ } [] [] []
    { PickupLineService.entityToCreate { Title := "The Baker", Visible := true }
        { ID := ⟨3⟩ } [] with ID := ⟨7⟩ }
    (.New 5) rfl rfl rfl

/-- Claim C16. When tag resolution fails with `err`, `Create` returns no entity
together with `err` and has made no call but those of tag resolution; when tag
resolution succeeds and the relational create fails with `err`, `Create` returns
no entity together with `err` and its last call is that create. In both cases
none of the calls made is a call on the search engine (no index, no delete) or a
relational delete. -/
theorem Create_early_failure (u : PickupLineService)
    (Parse : String → uuid.UUID × Option error) (pickupLineDTO : requests.PickupLineBodyRequest)
    (user : entities.User) (calls calls1 : List Call) (tags : List entities.Tag) (err : error) :
    (u.GetTagsFromRequest Parse pickupLineDTO.Tags user.ID calls =
        (some (tags, some err), calls1) →
      u.Create Parse pickupLineDTO (some user) calls = (some (none, some err), calls1) ∧
      ∃ made, calls1 = calls ++ made ∧
        ∀ call ∈ made, call.onSearchEngine = false ∧ call.isRelationalDelete = false) ∧
    (∀ created : entities.PickupLine,
      u.GetTagsFromRequest Parse pickupLineDTO.Tags user.ID calls =
        (some (tags, none), calls1) →
      u.pickupLineRepository.Create calls1
        (PickupLineService.entityToCreate pickupLineDTO user tags) = (created, some err) →
      u.Create Parse pickupLineDTO (some user) calls =
        (some (none, some err),
          calls1 ++ [.PickupLineRepository_Create
            (PickupLineService.entityToCreate pickupLineDTO user tags)]) ∧
      ∃ made,
        calls1 ++ [.PickupLineRepository_Create
          (PickupLineService.entityToCreate pickupLineDTO user tags)] = calls ++ made ∧
        ∀ call ∈ made, call.onSearchEngine = false ∧ call.isRelationalDelete = false) := by
  obtain ⟨made, hmade, hno⟩ :=
    GetTagsFromRequest_calls u Parse pickupLineDTO.Tags user.ID calls
  refine ⟨fun hTags => ⟨?_, made, ?_, ?_⟩, fun created hTags hCreate => ⟨?_, ?_⟩⟩
  · unfold PickupLineService.Create
    simp [hTags]
  · rw [hTags] at hmade
    exact hmade
  · exact fun call hcall =>
      ⟨(hno call hcall).1, isRelationalDelete_of_not_write call (hno call hcall).2⟩
  · unfold PickupLineService.Create
    simp [hTags, hCreate]
  · rw [hTags] at hmade
    refine ⟨made ++ [_], by rw [← List.append_assoc, ← hmade], ?_⟩
    intro call hcall
    rcases List.mem_append.mp hcall with h | h
    · exact ⟨(hno call h).1, isRelationalDelete_of_not_write call (hno call h).2⟩
    · rw [List.mem_singleton.mp h]
      exact ⟨rfl, rfl⟩

/-- Claim C16 at two concrete inputs: a tag service that fails, and a relational
create that fails for an item without tags. -/
theorem Create_early_failure_witness :
    ((scriptedService (failingAt 0 (.New 5))).Create scriptedParse
        { Tags := [some { ID := "abc" }] } (some { ID := ⟨3⟩ }) [] =
      (some (none, some (.New 5)),
        [.TagService_GetListByTagIdAndUserIdList [[⟨3⟩, ⟨3⟩]]]) ∧
      ∃ made, [Call.TagService_GetListByTagIdAndUserIdList [[⟨3⟩, ⟨3⟩]]] = [] ++ made ∧
        ∀ call ∈ made, call.onSearchEngine = false ∧ call.isRelationalDelete = false) ∧
    ((scriptedService (failingAt 0 (.New 5))).Create scriptedParse {} (some { ID := ⟨3⟩ }) [] =
      (some (none, some (.New 5)),
        [] ++ [.PickupLineRepository_Create
          (PickupLineService.entityToCreate {} { ID := ⟨3⟩ } [])]) ∧
      ∃ made,
        [] ++ [Call.PickupLineRepository_Create
          (PickupLineService.entityToCreate {} { ID := ⟨3⟩ } [])] = [] ++ made ∧
        ∀ call ∈ made, call.onSearchEngine = false ∧ call.isRelationalDelete = false) :=
  ⟨(Create_early_failure (scriptedService (failingAt 0 (.New 5))) scriptedParse
      { Tags := [some { ID := "abc" }] } { ID := ⟨3⟩ } [] _ [] (.New 5)).1 (by decide),
    (Create_early_failure (scriptedService (failingAt 0 (.New 5))) scriptedParse
      {} { ID := ⟨3⟩ } [] [] [] (.New 5)).2
      { PickupLineService.entityToCreate {} { ID := ⟨3⟩ } [] with ID := ⟨7⟩ } rfl rfl⟩

/-- Claim C17. `Update` writes the relational store first. If the owner-scoped
lookup fails, it returns no entity with that error after the lookup alone; if
tag resolution fails, it returns no entity with that error and has made no call
on the search engine and no relational write; if the relational update fails, it
returns no entity with that error and its last call is that update, none before
it being on the search engine. If the relational update succeeds, `Update`
returns the updated entity together with whatever the partial update of the
search document returns, an error included, and that partial update is its last
call: no relational write follows it. -/
theorem Update_relational_first (u : PickupLineService)
    (Parse : String → uuid.UUID × Option error) (pickupLineUUID : uuid.UUID)
    (pickupLineDTO : requests.PickupLineBodyRequest) (userUUID : uuid.UUID)
    (calls : List Call) :
    (∀ found err,
      u.pickupLineRepository.GetByIdAndUserId calls pickupLineUUID userUUID =
        (found, some err) →
      u.Update Parse pickupLineUUID pickupLineDTO userUUID calls =
        (some (none, some err),
          calls ++ [.PickupLineRepository_GetByIdAndUserId pickupLineUUID userUUID])) ∧
    (∀ found tags err calls1,
      u.pickupLineRepository.GetByIdAndUserId calls pickupLineUUID userUUID = (found, none) →
      u.GetTagsFromRequest Parse pickupLineDTO.Tags userUUID
          (calls ++ [.PickupLineRepository_GetByIdAndUserId pickupLineUUID userUUID]) =
        (some (tags, some err), calls1) →
      u.Update Parse pickupLineUUID pickupLineDTO userUUID calls =
        (some (none, some err), calls1) ∧
      ∃ made, calls1 = calls ++ made ∧
        ∀ call ∈ made, call.onSearchEngine = false ∧ call.isRelationalWrite = false) ∧
    (∀ found tags calls1,
      u.pickupLineRepository.GetByIdAndUserId calls pickupLineUUID userUUID =
        (some found, none) →
      u.GetTagsFromRequest Parse pickupLineDTO.Tags userUUID
          (calls ++ [.PickupLineRepository_GetByIdAndUserId pickupLineUUID userUUID]) =
        (some (tags, none), calls1) →
      (∃ made, calls1 = calls ++ made ∧
        ∀ call ∈ made, call.onSearchEngine = false ∧ call.isRelationalWrite = false) ∧
      (∀ written err,
        u.pickupLineRepository.Update calls1
            (PickupLineService.entityToUpdate found pickupLineDTO tags) =
          (written, some err) →
        u.Update Parse pickupLineUUID pickupLineDTO userUUID calls =
          (some (none, some err),
            calls1 ++ [.PickupLineRepository_Update
              (PickupLineService.entityToUpdate found pickupLineDTO tags)])) ∧
      (∀ updated,
        u.pickupLineRepository.Update calls1
            (PickupLineService.entityToUpdate found pickupLineDTO tags) = (updated, none) →
        u.Update Parse pickupLineUUID pickupLineDTO userUUID calls =
          (some (some updated,
              u.elasticSearchWrapper.UpdatePickupLine
                (calls1 ++ [.PickupLineRepository_Update
                  (PickupLineService.entityToUpdate found pickupLineDTO tags)]) updated),
            calls1 ++ [.PickupLineRepository_Update
                (PickupLineService.entityToUpdate found pickupLineDTO tags),
              .ElasticSearchWrapper_UpdatePickupLine updated]))) := by
  have hcalls : ∀ tags err calls1,
      u.GetTagsFromRequest Parse pickupLineDTO.Tags userUUID
          (calls ++ [.PickupLineRepository_GetByIdAndUserId pickupLineUUID userUUID]) =
        (some (tags, err), calls1) →
      ∃ made, calls1 = calls ++ made ∧
        ∀ call ∈ made, call.onSearchEngine = false ∧ call.isRelationalWrite = false := by
    intro tags err calls1 hTags
    obtain ⟨made, hmade, hno⟩ := GetTagsFromRequest_calls u Parse pickupLineDTO.Tags userUUID
      (calls ++ [.PickupLineRepository_GetByIdAndUserId pickupLineUUID userUUID])
    rw [hTags] at hmade
    refine ⟨_ :: made, by simpa using hmade, ?_⟩
    intro call hcall
    rcases List.mem_cons.mp hcall with h | h
    · rw [h]
      exact ⟨rfl, rfl⟩
    · exact hno call h
  refine ⟨?_, ?_, ?_⟩
  · intro found err hLookup
    unfold PickupLineService.Update
    simp [hLookup]
  · intro found tags err calls1 hLookup hTags
    refine ⟨?_, hcalls tags (some err) calls1 hTags⟩
    unfold PickupLineService.Update
    simp [hLookup, hTags]
  · intro found tags calls1 hLookup hTags
    refine ⟨hcalls tags none calls1 hTags, ?_, ?_⟩
    · intro written err hUpdate
      unfold PickupLineService.Update
      simp [hLookup, hTags, hUpdate]
    · intro updated hUpdate
      unfold PickupLineService.Update
      simp [hLookup, hTags, hUpdate]

/-- Claim C17 at two concrete inputs: a relational update that fails, and a
partial update of the search document that fails. -/
theorem Update_relational_first_witness :
    (scriptedService (failingAt 1 (.New 5))).Update scriptedParse ⟨4⟩
        { Title := "The Baker" } ⟨3⟩ [] =
      (some (none, some (.New 5)),
        [.PickupLineRepository_GetByIdAndUserId ⟨4⟩ ⟨3⟩,
          .PickupLineRepository_Update { ID := ⟨4⟩, UserID := ⟨3⟩, Title := "The Baker" }]) ∧
    (scriptedService (failingAt 2 (.New 5))).Update scriptedParse ⟨4⟩
        { Title := "The Baker" } ⟨3⟩ [] =
      (some (some { ID := ⟨4⟩, UserID := ⟨3⟩, Title := "The Baker" }, some (.New 5)),
        [.PickupLineRepository_GetByIdAndUserId ⟨4⟩ ⟨3⟩,
          .PickupLineRepository_Update { ID := ⟨4⟩, UserID := ⟨3⟩, Title := "The Baker" },
          .ElasticSearchWrapper_UpdatePickupLine
            { ID := ⟨4⟩, UserID := ⟨3⟩, Title := "The Baker" }]) :=
  ⟨((Update_relational_first (scriptedService (failingAt 1 (.New 5))) scriptedParse ⟨4⟩
      { Title := "The Baker" } ⟨3⟩ []).2.2 { ID := ⟨4⟩, UserID := ⟨3⟩ } [] _ rfl rfl).2.1
      { ID := ⟨4⟩, UserID := ⟨3⟩, Title := "The Baker" } (.New 5) rfl,
    ((Update_relational_first (scriptedService (failingAt 2 (.New 5))) scriptedParse ⟨4⟩
      { Title := "The Baker" } ⟨3⟩ []).2.2 { ID := ⟨4⟩, UserID := ⟨3⟩ } [] _ rfl rfl).2.2
      { ID := ⟨4⟩, UserID := ⟨3⟩, Title := "The Baker" } rfl⟩

/-- Claim C18. `Delete` looks the item up by (item id, requesting user id); if
the lookup fails it returns that error and has made no other call; if the lookup
finds the item and the deletion of the search document by the id of the item
fails, it returns that error and has made only those two calls, so no relational
delete; if the search deletion succeeds, it makes the relational delete of the
item as its third call and returns what that delete returns. -/
theorem Delete_steps (u : PickupLineService) (pickupLineUUID userUUID : uuid.UUID)
    (calls : List Call) :
    (∀ found err,
      u.pickupLineRepository.GetByIdAndUserId calls pickupLineUUID userUUID =
        (found, some err) →
      u.Delete pickupLineUUID userUUID calls =
        (some (some err),
          calls ++ [.PickupLineRepository_GetByIdAndUserId pickupLineUUID userUUID])) ∧
    (∀ found : entities.PickupLine,
      u.pickupLineRepository.GetByIdAndUserId calls pickupLineUUID userUUID =
        (some found, none) →
      (∀ err,
        u.elasticSearchWrapper.DeletePickupLine
            (calls ++ [.PickupLineRepository_GetByIdAndUserId pickupLineUUID userUUID])
            found.ID = some err →
        u.Delete pickupLineUUID userUUID calls =
          (some (some err),
            calls ++ [.PickupLineRepository_GetByIdAndUserId pickupLineUUID userUUID,
              .ElasticSearchWrapper_DeletePickupLine found.ID])) ∧
      (u.elasticSearchWrapper.DeletePickupLine
            (calls ++ [.PickupLineRepository_GetByIdAndUserId pickupLineUUID userUUID])
            found.ID = none →
        u.Delete pickupLineUUID userUUID calls =
          (some (u.pickupLineRepository.Delete
              (calls ++ [.PickupLineRepository_GetByIdAndUserId pickupLineUUID userUUID,
                .ElasticSearchWrapper_DeletePickupLine found.ID]) found),
            calls ++ [.PickupLineRepository_GetByIdAndUserId pickupLineUUID userUUID,
              .ElasticSearchWrapper_DeletePickupLine found.ID,
              .PickupLineRepository_Delete found]))) := by
  refine ⟨?_, ?_⟩
  · intro found err hLookup
    unfold PickupLineService.Delete
    simp [hLookup]
  · intro found hLookup
    refine ⟨?_, ?_⟩
    · intro err hDelete
      unfold PickupLineService.Delete
      simp [hLookup, hDelete]
    · intro hDelete
      unfold PickupLineService.Delete
      simp [hLookup, hDelete]

/-- Claim C18 at three concrete inputs: the lookup, the search deletion and the
relational deletion fail in turn. -/
theorem Delete_steps_witness :
    (scriptedService (failingAt 0 (.New 5))).Delete ⟨4⟩ ⟨3⟩ [] =
      (some (some (.New 5)), [.PickupLineRepository_GetByIdAndUserId ⟨4⟩ ⟨3⟩]) ∧
    (scriptedService (failingAt 1 (.New 5))).Delete ⟨4⟩ ⟨3⟩ [] =
      (some (some (.New 5)),
        [.PickupLineRepository_GetByIdAndUserId ⟨4⟩ ⟨3⟩,
          .ElasticSearchWrapper_DeletePickupLine ⟨4⟩]) ∧
    (scriptedService (failingAt 2 (.New 5))).Delete ⟨4⟩ ⟨3⟩ [] =
      (some (some (.New 5)),
        [.PickupLineRepository_GetByIdAndUserId ⟨4⟩ ⟨3⟩,
          .ElasticSearchWrapper_DeletePickupLine ⟨4⟩,
          .PickupLineRepository_Delete { ID := ⟨4⟩, UserID := ⟨3⟩ }]) :=
  ⟨(Delete_steps (scriptedService (failingAt 0 (.New 5))) ⟨4⟩ ⟨3⟩ []).1 none (.New 5) rfl,
    ((Delete_steps (scriptedService (failingAt 1 (.New 5))) ⟨4⟩ ⟨3⟩ []).2
      { ID := ⟨4⟩, UserID := ⟨3⟩ } rfl).1 (.New 5) rfl,
    ((Delete_steps (scriptedService (failingAt 2 (.New 5))) ⟨4⟩ ⟨3⟩ []).2
      { ID := ⟨4⟩, UserID := ⟨3⟩ } rfl).2 rfl⟩

/-- Claim C19. `UpdateReactionByUser`: when the prior-reaction lookup fails with
an error that is not record-not-found, it returns that error after the lookup
alone. When the lookup succeeds or fails with record-not-found, it goes on to
the relational upsert of the new reaction: if the upsert fails, it returns that
error and the upsert is its last call; if the upsert succeeds, its last call is
the scripted update of the search document, with the reaction the upsert left
and the old reaction the lookup handed over, and it returns what that update
returns, an error included, with no relational write after it. -/
theorem UpdateReactionByUser_steps (u : PickupLineService) (userUUID pickupLineUUID : uuid.UUID)
    (newReaction : entities.Reaction) (calls : List Call) :
    (∀ oldReaction err,
      u.pickupLineRepository.GetReactionByPickupLineIdAndUserId calls pickupLineUUID userUUID =
        (oldReaction, some err) →
      errors.Is err gorm.ErrRecordNotFound = false →
      u.UpdateReactionByUser userUUID pickupLineUUID newReaction calls =
        (some err,
          calls ++ [.PickupLineRepository_GetReactionByPickupLineIdAndUserId pickupLineUUID
            userUUID])) ∧
    (∀ oldReaction lookupErr,
      u.pickupLineRepository.GetReactionByPickupLineIdAndUserId calls pickupLineUUID userUUID =
        (oldReaction, lookupErr) →
      (∀ err, lookupErr = some err → errors.Is err gorm.ErrRecordNotFound = true) →
      (∀ saved err,
        u.pickupLineRepository.UpdateReaction
            (calls ++ [.PickupLineRepository_GetReactionByPickupLineIdAndUserId pickupLineUUID
              userUUID]) newReaction = (saved, some err) →
        u.UpdateReactionByUser userUUID pickupLineUUID newReaction calls =
          (some err,
            calls ++ [.PickupLineRepository_GetReactionByPickupLineIdAndUserId pickupLineUUID
                userUUID,
              .PickupLineRepository_UpdateReaction newReaction])) ∧
      (∀ saved,
        u.pickupLineRepository.UpdateReaction
            (calls ++ [.PickupLineRepository_GetReactionByPickupLineIdAndUserId pickupLineUUID
              userUUID]) newReaction = (saved, none) →
        u.UpdateReactionByUser userUUID pickupLineUUID newReaction calls =
          (u.elasticSearchWrapper.UpdateUserReaction
              (calls ++ [.PickupLineRepository_GetReactionByPickupLineIdAndUserId pickupLineUUID
                  userUUID,
                .PickupLineRepository_UpdateReaction newReaction])
              userUUID pickupLineUUID saved oldReaction,
            calls ++ [.PickupLineRepository_GetReactionByPickupLineIdAndUserId pickupLineUUID
                userUUID,
              .PickupLineRepository_UpdateReaction newReaction,
              .ElasticSearchWrapper_UpdateUserReaction userUUID pickupLineUUID saved
                oldReaction]))) := by
  refine ⟨?_, ?_⟩
  · intro oldReaction err hLookup hIs
    unfold PickupLineService.UpdateReactionByUser
    simp [hLookup, hIs]
  · intro oldReaction lookupErr hLookup hIs
    have hgo : lookupErr.any (fun err => !errors.Is err gorm.ErrRecordNotFound) = false := by
      cases lookupErr with
      | none => rfl
      | some err => simp [hIs err rfl]
    refine ⟨?_, ?_⟩
    · intro saved err hSave
      unfold PickupLineService.UpdateReactionByUser
      simp [hLookup, hgo, hSave]
    · intro saved hSave
      unfold PickupLineService.UpdateReactionByUser
      simp [hLookup, hgo, hSave]
/-- Claim C19 at two concrete inputs: a lookup that fails with record-not-found,
and a lookup that fails with another error. -/
theorem UpdateReactionByUser_steps_witness :
    (scriptedService (failingAt 0 gorm.ErrRecordNotFound)).UpdateReactionByUser ⟨3⟩ ⟨4⟩
        { PickupLineId := ⟨4⟩, UserId := ⟨3⟩, Starred := true } [] =
      (none,
        [.PickupLineRepository_GetReactionByPickupLineIdAndUserId ⟨4⟩ ⟨3⟩,
          .PickupLineRepository_UpdateReaction
            { PickupLineId := ⟨4⟩, UserId := ⟨3⟩, Starred := true },
          .ElasticSearchWrapper_UpdateUserReaction ⟨3⟩ ⟨4⟩
            { PickupLineId := ⟨4⟩, UserId := ⟨3⟩, Starred := true, Vote := entities.None }
            (some { PickupLineId := ⟨4⟩, UserId := ⟨3⟩ })]) ∧
    (scriptedService (failingAt 0 (.New 5))).UpdateReactionByUser ⟨3⟩ ⟨4⟩
        { PickupLineId := ⟨4⟩, UserId := ⟨3⟩, Starred := true } [] =
      (some (.New 5), [.PickupLineRepository_GetReactionByPickupLineIdAndUserId ⟨4⟩ ⟨3⟩]) :=
  ⟨((UpdateReactionByUser_steps (scriptedService (failingAt 0 gorm.ErrRecordNotFound)) ⟨3⟩ ⟨4⟩
      { PickupLineId := ⟨4⟩, UserId := ⟨3⟩, Starred := true } []).2
      (some { PickupLineId := ⟨4⟩, UserId := ⟨3⟩ }) (some gorm.ErrRecordNotFound) rfl
      (by intro err h; cases h; rfl)).2
      { PickupLineId := ⟨4⟩, UserId := ⟨3⟩, Starred := true, Vote := entities.None } rfl,
    (UpdateReactionByUser_steps (scriptedService (failingAt 0 (.New 5))) ⟨3⟩ ⟨4⟩
      { PickupLineId := ⟨4⟩, UserId := ⟨3⟩, Starred := true } []).1
      (some { PickupLineId := ⟨4⟩, UserId := ⟨3⟩ }) (.New 5) rfl rfl⟩


/-- Claim C20, refuted. Hydrating a page of two hits of one owner that share the
tag 5, the first listing it twice, succeeds and makes two tag lookups: the first
carries the tag 5 twice and the second carries it again, so the tag 5 is sent to
the relational store three times. -/
theorem hydrate_fetches_shared_tag_again :
    ∃ result,
      (scriptedMapper (fun _ => none)).hydratePickupLineListFromElasticSearchResponse
          pageSharingATag ⟨1⟩ [] =
        (some (some result, none),
          [.TagRepository_GetListByTagIdAndUserIdList [[⟨5⟩, ⟨9⟩], [⟨5⟩, ⟨9⟩]],
            .PickupLineRepository_GetReactionByPickupLineIdAndUserId ⟨1⟩ ⟨1⟩,
            .TagRepository_GetListByTagIdAndUserIdList [[⟨5⟩, ⟨9⟩]],
            .PickupLineRepository_GetReactionByPickupLineIdAndUserId ⟨2⟩ ⟨1⟩]) ∧
      (((scriptedMapper (fun _ => none)).hydratePickupLineListFromElasticSearchResponse
          pageSharingATag ⟨1⟩ []).2.map Call.tagIdsLookedUp).flatten.count ⟨5⟩ = 3 := by
  refine ⟨_, rfl, ?_⟩
  decide
/-! ## Claims on the hydration, the other services, the aggregation and the feed -/

/-- Claim C21. For every search response: when all its hits decode, it carries a
total, the tag lookup never fails and every reaction lookup hands over a
reaction and fails with record-not-found at most, the hydration returns no error
and a list with exactly one item per hit, in hit order (the ids are those of the
hits), `Total` is the total of the response, each item carries the counters and
the percentage of its own projection and a reaction. At any hit reached without
error: a hit that does not decode returns its error and no list; a tag lookup
or a reaction lookup that fails with an error other than record-not-found
returns that error and no list; a reaction lookup that fails with
record-not-found is no error, and the item of the hit carries the reaction the
lookup handed over with its vote set to `NONE`. -/
theorem hydrate_one_item_per_hit (e : ElasticSearchMapper) (response : search.Response)
    (userId : uuid.UUID) (calls : List Call) :
    (∀ (dtos : List elastic_dtos.PickupLineElasticDTO) (total : types.TotalHits),
      response.Hits.Hits = dtos.map (fun dto => { Source_ := .ok dto }) →
      response.Hits.Total = some total →
      (∀ calls tagList, (e.tagRepository.GetListByTagIdAndUserIdList calls tagList).2 = none) →
      (∀ calls pickupLineId userId,
        (∃ reaction,
          (e.pickupLineRepository.GetReactionByPickupLineIdAndUserId calls pickupLineId
            userId).1 = some reaction) ∧
        ∀ err,
          (e.pickupLineRepository.GetReactionByPickupLineIdAndUserId calls pickupLineId
            userId).2 = some err →
          errors.Is err gorm.ErrRecordNotFound = true) →
      ∃ result calls1,
        e.hydratePickupLineListFromElasticSearchResponse response userId calls =
          (some (some result, none), calls1) ∧
        result.Total = total.Value ∧
        result.Users.length = response.Hits.Hits.length ∧
        result.Users.map (fun item => item.ID) = dtos.map (fun dto => dto.Id) ∧
        result.Users.map (fun item => item.Statistics) =
          dtos.map (fun dto => some
            { NumberOfSuccesses := dto.NumberOfSuccesses
              NumberOfFailures := dto.NumberOfFailures
              NumberOfTries := dto.NumberOfTries
              SuccessPercentage := dto.SuccessPercentage }) ∧
        ∀ item ∈ result.Users, ∃ reaction, item.UserReaction = some reaction) ∧
    (∀ (pre rest : List types.Hit) (hit : types.Hit)
        (items : List responses.SinglePickupLineInfoResponse) (calls1 : List Call),
      response.Hits.Hits = pre ++ hit :: rest →
      e.hydrateHits userId pre [] calls = (some (items, none), calls1) →
      (∀ err, hit.Source_ = .error err →
        e.hydratePickupLineListFromElasticSearchResponse response userId calls =
          (some (none, some err), calls1)) ∧
      (∀ dto, hit.Source_ = .ok dto →
        (∀ tags err calls2,
          e.elasticDtoToTags dto.Tags dto.UserId calls1 = ((tags, some err), calls2) →
          e.hydratePickupLineListFromElasticSearchResponse response userId calls =
            (some (none, some err), calls2)) ∧
        (∀ tags calls2 reaction err,
          e.elasticDtoToTags dto.Tags dto.UserId calls1 = ((tags, none), calls2) →
          e.pickupLineRepository.GetReactionByPickupLineIdAndUserId calls2 dto.Id userId =
            (reaction, some err) →
          errors.Is err gorm.ErrRecordNotFound = false →
          e.hydratePickupLineListFromElasticSearchResponse response userId calls =
            (some (none, some err),
              calls2 ++ [.PickupLineRepository_GetReactionByPickupLineIdAndUserId dto.Id
                userId])) ∧
        (∀ tags calls2 reaction err,
          e.elasticDtoToTags dto.Tags dto.UserId calls1 = ((tags, none), calls2) →
          e.pickupLineRepository.GetReactionByPickupLineIdAndUserId calls2 dto.Id userId =
            (some reaction, some err) →
          errors.Is err gorm.ErrRecordNotFound = true →
          ∃ item,
            e.hydrateHits userId (pre ++ [hit]) [] calls =
              (some (items ++ [item], none),
                calls2 ++ [.PickupLineRepository_GetReactionByPickupLineIdAndUserId dto.Id
                  userId]) ∧
            item.ID = dto.Id ∧
            item.UserReaction = some { reaction with Vote := entities.None }))) := by
  refine ⟨?_, ?_⟩
  · intro dtos total hHits hTotal hTags hReaction
    obtain ⟨items, calls1, hrun, hIds, hStats, hReact⟩ :=
      hydrateHits_ok e userId dtos [] calls hTags hReaction
    have hlen : items.length = dtos.length := by
      have := congrArg List.length hIds
      simpa using this
    refine ⟨{ Total := total.Value, Users := items }, calls1, ?_, rfl, ?_, hIds, hStats, hReact⟩
    · unfold ElasticSearchMapper.hydratePickupLineListFromElasticSearchResponse
      rw [hHits, hrun]
      simp [hTotal]
    · rw [hHits]
      simpa using hlen
  · intro pre rest hit items calls1 hHits hPre
    have hsplit : e.hydrateHits userId response.Hits.Hits [] calls =
        e.hydrateHits userId (hit :: rest) items calls1 := by
      rw [hHits, hydrateHits_append, hPre]
    refine ⟨?_, ?_⟩
    · intro err hSource
      unfold ElasticSearchMapper.hydratePickupLineListFromElasticSearchResponse
      rw [hsplit]
      simp [ElasticSearchMapper.hydrateHits, hSource]
    · intro dto hSource
      refine ⟨?_, ?_, ?_⟩
      · intro tags err calls2 hTagsRun
        unfold ElasticSearchMapper.hydratePickupLineListFromElasticSearchResponse
        rw [hsplit]
        simp [ElasticSearchMapper.hydrateHits, hSource, hTagsRun]
      · intro tags calls2 reaction err hTagsRun hLookup hIs
        unfold ElasticSearchMapper.hydratePickupLineListFromElasticSearchResponse
        rw [hsplit]
        simp [ElasticSearchMapper.hydrateHits, hSource, hTagsRun,
          ElasticSearchMapper.getReaction, hLookup, hIs]
      · intro tags calls2 reaction err hTagsRun hLookup hIs
        obtain ⟨item, hItem, hId, hRe⟩ : ∃ item,
            responses.NewSinglePickupLineInfoResponse
              (elasticDtoToPickupLine dto tags (some { reaction with Vote := entities.None })) =
              some item ∧
            item.ID = dto.Id ∧
            item.UserReaction = some { reaction with Vote := entities.None } :=
          ⟨_, rfl, rfl, rfl⟩
        refine ⟨item, ?_, hId, hRe⟩
        rw [hydrateHits_append, hPre]
        simp [ElasticSearchMapper.hydrateHits, hSource, hTagsRun,
          ElasticSearchMapper.getReaction, hLookup, hIs, hItem]

/-- Claim C21 at two concrete inputs: the page of two hits with lookups that do
not fail, and its first hit with a reaction lookup that fails with
record-not-found. -/
theorem hydrate_one_item_per_hit_witness :
    (∃ result calls1,
      (scriptedMapper (fun _ => none)).hydratePickupLineListFromElasticSearchResponse
          pageSharingATag ⟨1⟩ [] = (some (some result, none), calls1) ∧
      result.Total = 2 ∧
      result.Users.length = pageSharingATag.Hits.Hits.length ∧
      result.Users.map (fun item => item.ID) = [⟨1⟩, ⟨2⟩] ∧
      result.Users.map (fun item => item.Statistics) =
        [some {}, some {}] ∧
      ∀ item ∈ result.Users, ∃ reaction, item.UserReaction = some reaction) ∧
    (∃ item,
      (scriptedMapper (failingAt 1 gorm.ErrRecordNotFound)).hydrateHits ⟨1⟩
          ([] ++ [{ Source_ := .ok { Id := ⟨1⟩, UserId := ⟨9⟩, Tags := [⟨5⟩, ⟨5⟩] } }]) [] [] =
        (some ([] ++ [item], none),
          [Call.TagRepository_GetListByTagIdAndUserIdList [[⟨5⟩, ⟨9⟩], [⟨5⟩, ⟨9⟩]]] ++
            [.PickupLineRepository_GetReactionByPickupLineIdAndUserId ⟨1⟩ ⟨1⟩]) ∧
      item.ID = ⟨1⟩ ∧
      item.UserReaction =
        some { PickupLineId := ⟨1⟩, UserId := ⟨1⟩, Vote := entities.None }) :=
  ⟨(hydrate_one_item_per_hit (scriptedMapper (fun _ => none)) pageSharingATag ⟨1⟩ []).1
      [{ Id := ⟨1⟩, UserId := ⟨9⟩, Tags := [⟨5⟩, ⟨5⟩] }, { Id := ⟨2⟩, UserId := ⟨9⟩, Tags := [⟨5⟩] }]
      { Value := 2 } rfl rfl (fun _ _ => rfl)
      (fun _ _ _ => ⟨⟨_, rfl⟩, fun _ h => nomatch h⟩),
    (((hydrate_one_item_per_hit (scriptedMapper (failingAt 1 gorm.ErrRecordNotFound))
      pageSharingATag ⟨1⟩ []).2 []
      [{ Source_ := .ok { Id := ⟨2⟩, UserId := ⟨9⟩, Tags := [⟨5⟩] } }]
      { Source_ := .ok { Id := ⟨1⟩, UserId := ⟨9⟩, Tags := [⟨5⟩, ⟨5⟩] } } [] [] rfl rfl).2
      { Id := ⟨1⟩, UserId := ⟨9⟩, Tags := [⟨5⟩, ⟨5⟩] } rfl).2.2
      [{ ID := ⟨5⟩ }] [.TagRepository_GetListByTagIdAndUserIdList [[⟨5⟩, ⟨9⟩], [⟨5⟩, ⟨9⟩]]]
      { PickupLineId := ⟨1⟩, UserId := ⟨1⟩ } gorm.ErrRecordNotFound (by decide) rfl rfl⟩

/-- Claim C22. For every item entity the partial projection is exactly the title,
the content, the ids of the tags in order, the visible flag and `updatedAt` of
the entity; each of them equals the same field of the full projection (which
exists when the `User` of the entity is not nil); and merging the partial
projection into a document changes none of the three membership arrays, the
three counters and the percentage. -/
theorem update_projection_fields (pickupLine : entities.PickupLine) :
    pickupLineToUpdateElasticDTO pickupLine =
      { Title := pickupLine.Title
        Content := pickupLine.Content
        Tags := pickupLine.Tags.map (fun tag => tag.ID)
        Visible := pickupLine.Visible
        UpdatedAt := pickupLine.UpdatedAt } ∧
    (∀ dto, pickupLineToElasticDTO pickupLine = some dto →
      (pickupLineToUpdateElasticDTO pickupLine).Title = dto.Title ∧
      (pickupLineToUpdateElasticDTO pickupLine).Content = dto.Content ∧
      (pickupLineToUpdateElasticDTO pickupLine).Tags = dto.Tags ∧
      (pickupLineToUpdateElasticDTO pickupLine).Visible = dto.Visible ∧
      (pickupLineToUpdateElasticDTO pickupLine).UpdatedAt = dto.UpdatedAt) ∧
    (∀ doc : ItemDocument,
      (mergedDocument (pickupLineToUpdateElasticDTO pickupLine) doc).starredByUser =
        doc.starredByUser ∧
      (mergedDocument (pickupLineToUpdateElasticDTO pickupLine) doc).upvotedByUser =
        doc.upvotedByUser ∧
      (mergedDocument (pickupLineToUpdateElasticDTO pickupLine) doc).downvotedByUser =
        doc.downvotedByUser ∧
      (mergedDocument (pickupLineToUpdateElasticDTO pickupLine) doc).numberOfSuccesses =
        doc.numberOfSuccesses ∧
      (mergedDocument (pickupLineToUpdateElasticDTO pickupLine) doc).numberOfFailures =
        doc.numberOfFailures ∧
      (mergedDocument (pickupLineToUpdateElasticDTO pickupLine) doc).numberOfTries =
        doc.numberOfTries ∧
      (mergedDocument (pickupLineToUpdateElasticDTO pickupLine) doc).successPercentage =
        doc.successPercentage) := by
  refine ⟨rfl, ?_, fun doc => ⟨rfl, rfl, rfl, rfl, rfl, rfl, rfl⟩⟩
  intro dto hdto
  unfold pickupLineToElasticDTO at hdto
  cases hUser : pickupLine.User with
  | none => simp [hUser] at hdto
  | some user =>
    simp only [hUser, Option.some.injEq] at hdto
    subst hdto
    exact ⟨rfl, rfl, rfl, rfl, rfl⟩

/-- Claim C23. `UserService.Create`: a username that is not valid is rejected with
no user and before any call on a store. With a valid username, when the
relational create succeeds and indexing the user fails with `err`, the
relational delete of the created user is the last call, and `Create` returns no
user with `err` if that deletion succeeds and no user with the error of the
deletion if it fails. -/
theorem UserService_Create_failures (u : UserService) (ParseAddress : String → Option error)
    (user : requests.CreateUserRequest) (calls : List Call) :
    (utils.IsUsernameValid ParseAddress user.Username = false →
      u.Create ParseAddress user calls = ((none, some UserService.usernameNotValid), calls)) ∧
    (∀ userToAdd created err,
      utils.IsUsernameValid ParseAddress user.Username = true →
      userToAdd = mappers.UserCreateToEntity
        (if user.DisplayName = "" then { user with DisplayName := user.Username } else user) →
      u.userRepository.Create calls userToAdd = (created, none) →
      u.elasticSearchWrapper.IndexUser (calls ++ [.UserRepository_Create userToAdd]) created =
        some err →
      (u.userRepository.Delete
          (calls ++ [.UserRepository_Create userToAdd, .ElasticSearchWrapper_IndexUser created])
          created = none →
        u.Create ParseAddress user calls =
          ((none, some err),
            calls ++ [.UserRepository_Create userToAdd, .ElasticSearchWrapper_IndexUser created,
              .UserRepository_Delete created])) ∧
      (∀ errDelete,
        u.userRepository.Delete
          (calls ++ [.UserRepository_Create userToAdd, .ElasticSearchWrapper_IndexUser created])
          created = some errDelete →
        u.Create ParseAddress user calls =
          ((none, some errDelete),
            calls ++ [.UserRepository_Create userToAdd, .ElasticSearchWrapper_IndexUser created,
              .UserRepository_Delete created]))) := by
  refine ⟨?_, ?_⟩
  · intro hValid
    unfold UserService.Create
    simp [hValid]
  · intro userToAdd created err hValid hAdd hCreate hIndex
    subst hAdd
    refine ⟨?_, ?_⟩
    · intro hDelete
      unfold UserService.Create
      simp [hValid, hCreate, hIndex, hDelete]
    · intro errDelete hDelete
      unfold UserService.Create
      simp [hValid, hCreate, hIndex, hDelete]

/-- Claim C23 at two concrete inputs: an empty username, and a valid one with an
indexing call (the second call made) that fails. -/
theorem UserService_Create_failures_witness :
    (scriptedUserService (failingAt 1 (.New 5))).Create scriptedParseAddress
        { Username := "" } [] = ((none, some UserService.usernameNotValid), []) ∧
    (scriptedUserService (failingAt 1 (.New 5))).Create scriptedParseAddress
        { Username := "a@b" } [] =
      ((none, some (.New 5)),
        [] ++ [.UserRepository_Create { Username := "a@b", DisplayName := "a@b" },
          .ElasticSearchWrapper_IndexUser { ID := ⟨8⟩, Username := "a@b", DisplayName := "a@b" },
          .UserRepository_Delete { ID := ⟨8⟩, Username := "a@b", DisplayName := "a@b" }]) :=
  ⟨(UserService_Create_failures (scriptedUserService (failingAt 1 (.New 5))) scriptedParseAddress
      { Username := "" } []).1 (by decide),
    ((UserService_Create_failures (scriptedUserService (failingAt 1 (.New 5)))
      scriptedParseAddress { Username := "a@b" } []).2
      { Username := "a@b", DisplayName := "a@b" }
      { ID := ⟨8⟩, Username := "a@b", DisplayName := "a@b" } (.New 5)
      (by decide) (by decide) rfl rfl).1 rfl⟩

/-- Claim C24. `TagService.Delete` makes the search-document delete, then the
relational delete, and returns the result of the relational delete; its result
and its calls are the same whatever search engine it is given, so also when the
search delete fails. -/
theorem TagService_Delete_ignores_search (u : TagService) (tag : entities.Tag)
    (calls : List Call) :
    u.Delete tag calls =
      (u.tagRepository.Delete (calls ++ [.ElasticSearchWrapper_DeleteTag tag]) tag,
        calls ++ [.ElasticSearchWrapper_DeleteTag tag, .TagRepository_Delete tag]) ∧
    ∀ elasticSearchWrapper : ElasticSearchWrapperInterface,
      ({ u with elasticSearchWrapper := elasticSearchWrapper } : TagService).Delete tag calls =
        u.Delete tag calls :=
  ⟨rfl, fun _ => rfl⟩

/-- Claim C24 at a concrete input: the search delete fails and `Delete` returns
no error. -/
theorem TagService_Delete_ignores_search_witness :
    (scriptedTagServiceOf (failingAt 0 (.New 5))).Delete { ID := ⟨5⟩ } [] =
      (none, [.ElasticSearchWrapper_DeleteTag { ID := ⟨5⟩ }, .TagRepository_Delete { ID := ⟨5⟩ }]) ∧
    (scriptedTagServiceOf (failingAt 0 (.New 5))).elasticSearchWrapper.DeleteTag []
      { ID := ⟨5⟩ } = some (.New 5) :=
  ⟨(TagService_Delete_ignores_search (scriptedTagServiceOf (failingAt 0 (.New 5)))
      { ID := ⟨5⟩ } []).1, rfl⟩

/-- Claim C25, refuted. Over the visibility lookup of the database, which loads
the columns `Visible` and `UserID` and never the `User`, `CanUserSeePickupLine`
returns true exactly when the item has a row and the row is visible, returns
false exactly when the item has no row, so that the lookup fails, and panics on
`pickupLine.User.ID` exactly when the row is hidden, for its owner as for anyone
else. The tests `TestCanUserSeePickupLineTrueNotVisiblePickupLineOfSameUser` and
`TestCanUserSeePickupLineFalseNotVisiblePickupLine` expect true and false for a
hidden item; their mock returns an entity with its `User` loaded. -/
theorem CanUserSeePickupLine_over_database (d : Database) (u : PickupLineService)
    (pickupLineUUID userUUID : uuid.UUID) (calls : List Call)
    (hLookup : u.pickupLineRepository.GetPickupLineForVisibilityCheck =
      fun _ pickupLineUUID => d.GetPickupLineForVisibilityCheck pickupLineUUID) :
    ((u.CanUserSeePickupLine pickupLineUUID userUUID calls).1 = some true ↔
      ∃ row, d.pickup_lines.find? (fun row => row.ID = pickupLineUUID) = some row ∧
        row.Visible = true) ∧
    ((u.CanUserSeePickupLine pickupLineUUID userUUID calls).1 = some false ↔
      d.pickup_lines.find? (fun row => row.ID = pickupLineUUID) = none) ∧
    ((u.CanUserSeePickupLine pickupLineUUID userUUID calls).1 = none ↔
      ∃ row, d.pickup_lines.find? (fun row => row.ID = pickupLineUUID) = some row ∧
        row.Visible = false) := by
  cases hRow : d.pickup_lines.find? (fun row => row.ID = pickupLineUUID) with
  | none =>
    have hd : d.GetPickupLineForVisibilityCheck pickupLineUUID =
        (some {}, some gorm.ErrRecordNotFound) := by
      unfold Database.GetPickupLineForVisibilityCheck
      simp only [hRow]
    unfold PickupLineService.CanUserSeePickupLine
    rw [hLookup]
    simp only [hd]
    simp
  | some row =>
    have hd : d.GetPickupLineForVisibilityCheck pickupLineUUID =
        (some { Visible := row.Visible, UserID := row.UserID }, none) := by
      unfold Database.GetPickupLineForVisibilityCheck
      simp only [hRow]
    unfold PickupLineService.CanUserSeePickupLine
    rw [hLookup]
    simp only [hd]
    cases hVisible : row.Visible with
    | true => simp [hVisible]
    | false => simp [hVisible]

/-- Claim C25 at a concrete input: user 5 asks for the hidden item 4 of user 3
in the database with that one item, and the method panics where the claim and
the test have it return false. -/
theorem CanUserSeePickupLine_over_database_witness :
    (({ scriptedService (fun _ => none) with
        pickupLineRepository := databasePickupLineRepository databaseWithHiddenItem } :
      PickupLineService).CanUserSeePickupLine ⟨4⟩ ⟨5⟩ []).1 = none :=
  (CanUserSeePickupLine_over_database databaseWithHiddenItem
      { scriptedService (fun _ => none) with
        pickupLineRepository := databasePickupLineRepository databaseWithHiddenItem }
      ⟨4⟩ ⟨5⟩ [] rfl).2.2.mpr
    ⟨{ ID := ⟨4⟩, Title := "The Baker", Visible := false, UserID := ⟨3⟩ }, by decide, rfl⟩

/-- Claim C26, refuted as stated. For 23 upvotes and 17 downvotes
`GetStatisticsById` returns the percentage `0.57`: the quotient
`float64(23) / float64(40)` is rounded to a double below `0.575` before it is
multiplied by 100, and `math.Round` of the product `57.49999999999999` is 57.
The claim gives `round(100 * 23 / 40) / 100`, which is `58 / 100`, and the double
`0.57` is below the double `0.58`. -/
theorem GetStatisticsById_percentage_below_rounded_ratio :
    Database.GetStatisticsById
        [{ Vote := entities.Upvote, Total := 23 }, { Vote := entities.Downvote, Total := 17 }]
        none =
      (some { NumberOfSuccesses := 23, NumberOfFailures := 17, NumberOfTries := 40,
              SuccessPercentage := binary64.div 57 100 }, none) ∧
    binary64.div 57 100 < binary64.div 58 100 ∧
    math.Round (100 * (23 : ℚ) / 40) = 58 := by
  refine ⟨?_, percentageOf_23_40.2, ?_⟩
  · have hc : Database.countVotes
        [{ Vote := entities.Upvote, Total := 23 }, { Vote := entities.Downvote, Total := 17 }]
        ({}, 0) = ({ NumberOfSuccesses := 23, NumberOfFailures := 17 }, 40) := by
      decide
    unfold Database.GetStatisticsById
    simp only [hc]
    rw [if_pos (by norm_num)]
    simp only [statistics_percentage_23_40]
  · have h := Round_eq (100 * (23 : ℚ) / 40) 58 (by norm_num) (by norm_num) (by norm_num)
    simpa using h

/-- Claim C26, amended. For every grouped count with at most one upvote row and
at most one downvote row, whose counts are not negative and add up to less than
2^63, `GetStatisticsById` returns a statistic with the successes the upvote
count and the failures the downvote count (0 for a missing row), whatever the
other rows are, the tries their sum, and the percentage 0 when the tries are 0
and otherwise the double the method computes:
`math.Round(float64(successes) / float64(tries) * 100) / 100`, each operation
rounded to a double; the percentage lies between 0 and 1. -/
theorem GetStatisticsById_aggregates (countResult : List database.StatisticsCountResult)
    (up down : Option Int)
    (hUp : (countResult.filter (fun row => row.Vote = entities.Upvote)).map (fun row => row.Total) =
      up.toList)
    (hDown : (countResult.filter (fun row => row.Vote = entities.Downvote)).map
      (fun row => row.Total) = down.toList)
    (hUp0 : 0 ≤ up.getD 0) (hDown0 : 0 ≤ down.getD 0)
    (hFit : up.getD 0 + down.getD 0 < 2 ^ 63) :
    ∃ statistics, Database.GetStatisticsById countResult none = (some statistics, none) ∧
      statistics.NumberOfSuccesses = up.getD 0 ∧
      statistics.NumberOfFailures = down.getD 0 ∧
      statistics.NumberOfTries = statistics.NumberOfSuccesses + statistics.NumberOfFailures ∧
      statistics.SuccessPercentage =
        (if statistics.NumberOfTries > 0 then
          binary64.div
            (math.Round
              (binary64.mul
                (binary64.div (binary64.ofInt statistics.NumberOfSuccesses)
                  (binary64.ofInt statistics.NumberOfTries))
                100))
            100
        else 0) ∧
      0 ≤ statistics.SuccessPercentage ∧ statistics.SuccessPercentage ≤ 1 := by
  have hc := countVotes_eq countResult {} 0 up down hUp hDown hUp0 hDown0 le_rfl
    (by simpa using hFit)
  unfold Database.GetStatisticsById
  simp only [hc, zero_add]
  by_cases hpos : up.getD 0 + down.getD 0 > 0
  · simp only [hpos, if_true]
    refine ⟨_, rfl, rfl, rfl, rfl, ?_, ?_⟩
    · simp only [hpos, if_true]
    · exact statistics_percentage_bounds (up.getD 0) (up.getD 0 + down.getD 0) hUp0
        (by linarith) hpos
  · simp only [hpos, if_false]
    refine ⟨_, rfl, rfl, rfl, rfl, ?_, ?_⟩
    · simp [hpos]
    · simp

/-- Claim C26, amended, at a concrete input: four `NONE`, two upvotes, one
downvote. -/
theorem GetStatisticsById_aggregates_witness :
    ∃ statistics,
      Database.GetStatisticsById
          [{ Vote := entities.None, Total := 4 }, { Vote := entities.Upvote, Total := 2 },
            { Vote := entities.Downvote, Total := 1 }] none = (some statistics, none) ∧
      statistics.NumberOfSuccesses = (some (2 : Int)).getD 0 ∧
      statistics.NumberOfFailures = (some (1 : Int)).getD 0 ∧
      statistics.NumberOfTries = statistics.NumberOfSuccesses + statistics.NumberOfFailures ∧
      statistics.SuccessPercentage =
        (if statistics.NumberOfTries > 0 then
          binary64.div
            (math.Round
              (binary64.mul
                (binary64.div (binary64.ofInt statistics.NumberOfSuccesses)
                  (binary64.ofInt statistics.NumberOfTries))
                100))
            100
        else 0) ∧
      0 ≤ statistics.SuccessPercentage ∧ statistics.SuccessPercentage ≤ 1 :=
  GetStatisticsById_aggregates
    [{ Vote := entities.None, Total := 4 }, { Vote := entities.Upvote, Total := 2 },
      { Vote := entities.Downvote, Total := 1 }] (some 2) (some 1) (by decide) (by decide)
    (by decide) (by decide) (by decide)

/-- Claim C27, refuted as stated. In the document with the one upvote of user 1,
1 success, no downvote, 0 failures and 0 tries the two equalities hold. The
script generated for user 1 taking the upvote back runs, keeps the two
equalities, with no entry and 0 successes, and leaves the tries at -1: a counter
has become negative. -/
theorem remove_upvote_leaves_negative_tries :
    ((UpdateUserReaction ⟨1⟩ { Vote := entities.None } { Vote := entities.Upvote }).run
        { upvotedByUser := some [(⟨1⟩ : uuid.UUID).String], downvotedByUser := some [],
          numberOfSuccesses := some 1, numberOfFailures := some 0,
          numberOfTries := some 0 }).map
      (fun d => (d.upvotedByUser, d.downvotedByUser, d.numberOfSuccesses, d.numberOfFailures,
        d.numberOfTries)) =
      some (some [], some [], some 0, some 0, some (-1)) := by
  rw [UpdateUserReaction_run]
  decide

/-- Claim C27, amended. For every item document whose successes equal the number of
entries of `upvotedByUser` and whose failures equal the number of entries of
`downvotedByUser` (an absent counter counting as 0, an absent array as empty, as
the prologue makes them), every script generated by `UpdateUserReaction` runs
without error and leaves a document with both arrays and both counters present
and the same two equalities, so neither counter is negative; when the tries are
the sum of the successes and the failures before the script, they are after it,
so they are not negative either. -/
theorem script_keeps_counters_with_entries (U : uuid.UUID) (new old : entities.Reaction)
    (doc : ItemDocument)
    (hUp : doc.numberOfSuccesses.getD 0 = ((doc.upvotedByUser.getD []).length : Int))
    (hDown : doc.numberOfFailures.getD 0 = ((doc.downvotedByUser.getD []).length : Int)) :
    ∃ d up down, (UpdateUserReaction U new old).run doc = some d ∧
      d.upvotedByUser = some up ∧ d.downvotedByUser = some down ∧
      d.numberOfSuccesses = some (up.length : Int) ∧
      d.numberOfFailures = some (down.length : Int) ∧
      (∀ successes, d.numberOfSuccesses = some successes → 0 ≤ successes) ∧
      (∀ failures, d.numberOfFailures = some failures → 0 ≤ failures) ∧
      (doc.numberOfTries.getD 0 = doc.numberOfSuccesses.getD 0 + doc.numberOfFailures.getD 0 →
        d.numberOfTries = some ((up.length : Int) + (down.length : Int))) := by
  obtain ⟨h1, h2, h3⟩ := effects_matched U.String
    (starFragments new old ++ addVoteFragments new old ++ removeVoteFragments new old)
    (CountedDocument.ofDocument doc) hUp hDown
  refine ⟨_, _, _, UpdateUserReaction_run U new old doc, rfl, rfl, ?_, ?_, ?_, ?_, ?_⟩
  · exact congrArg some h1
  · exact congrArg some h2
  · intro successes hs
    rw [Option.some.inj (hs.symm.trans (congrArg some h1))]
    exact Int.natCast_nonneg _
  · intro failures hf
    rw [Option.some.inj (hf.symm.trans (congrArg some h2))]
    exact Int.natCast_nonneg _
  · intro hSum
    have := h3 hSum
    rw [h1, h2] at this
    exact congrArg some this

/-- Claim C27, amended, at a concrete input: user 1, present twice among the upvotes,
switches to a downvote. -/
theorem script_keeps_counters_with_entries_witness :
    ∃ d up down,
      (UpdateUserReaction ⟨1⟩ { Vote := entities.Downvote } { Vote := entities.Upvote }).run
          { upvotedByUser := some [(⟨1⟩ : uuid.UUID).String, (⟨1⟩ : uuid.UUID).String],
            numberOfSuccesses := some 2, numberOfTries := some 2 } = some d ∧
      d.upvotedByUser = some up ∧ d.downvotedByUser = some down ∧
      d.numberOfSuccesses = some (up.length : Int) ∧
      d.numberOfFailures = some (down.length : Int) ∧
      (∀ successes, d.numberOfSuccesses = some successes → 0 ≤ successes) ∧
      (∀ failures, d.numberOfFailures = some failures → 0 ≤ failures) ∧
      ((some (2 : Int)).getD 0 = (some (2 : Int)).getD 0 + (none : Option Int).getD 0 →
        d.numberOfTries = some ((up.length : Int) + (down.length : Int))) :=
  script_keeps_counters_with_entries ⟨1⟩ { Vote := entities.Downvote }
    { Vote := entities.Upvote }
    { upvotedByUser := some [(⟨1⟩ : uuid.UUID).String, (⟨1⟩ : uuid.UUID).String],
      numberOfSuccesses := some 2, numberOfTries := some 2 } (by decide) (by decide)

/-- Claim C28, refuted. Over the visibility lookup of the database, for every
item whose row is hidden and every requesting user: the lookup returns an entity
with `Visible` and `UserID` only, its `User` nil, and `CanUserSeePickupLine`
panics on `pickupLine.User.ID` instead of returning a boolean. -/
theorem CanUserSeePickupLine_hidden_item_panics (d : Database) (u : PickupLineService)
    (row : entities.PickupLine) (pickupLineUUID userUUID : uuid.UUID) (calls : List Call)
    (hLookup : u.pickupLineRepository.GetPickupLineForVisibilityCheck =
      fun _ pickupLineUUID => d.GetPickupLineForVisibilityCheck pickupLineUUID)
    (hRow : d.pickup_lines.find? (fun row => row.ID = pickupLineUUID) = some row)
    (hHidden : row.Visible = false) :
    d.GetPickupLineForVisibilityCheck pickupLineUUID =
      (some { Visible := false, UserID := row.UserID }, none) ∧
    u.CanUserSeePickupLine pickupLineUUID userUUID calls =
      (none, calls ++ [.PickupLineRepository_GetPickupLineForVisibilityCheck pickupLineUUID]) := by
  have hd : d.GetPickupLineForVisibilityCheck pickupLineUUID =
      (some { Visible := false, UserID := row.UserID }, none) := by
    unfold Database.GetPickupLineForVisibilityCheck
    simp only [hRow, hHidden]
  refine ⟨hd, ?_⟩
  unfold PickupLineService.CanUserSeePickupLine
  rw [hLookup]
  simp only [hd]
  rfl

/-- Claim C28 at two concrete inputs: the owner, user 3, and another user ask
for the hidden item 4 of the database with one item. -/
theorem CanUserSeePickupLine_hidden_item_panics_witness :
    (databaseWithHiddenItem.GetPickupLineForVisibilityCheck ⟨4⟩ =
        (some { Visible := false, UserID := ⟨3⟩ }, none) ∧
      ({ scriptedService (fun _ => none) with
          pickupLineRepository := databasePickupLineRepository databaseWithHiddenItem } :
        PickupLineService).CanUserSeePickupLine ⟨4⟩ ⟨3⟩ [] =
        (none, [] ++ [.PickupLineRepository_GetPickupLineForVisibilityCheck ⟨4⟩])) ∧
    (databaseWithHiddenItem.GetPickupLineForVisibilityCheck ⟨4⟩ =
        (some { Visible := false, UserID := ⟨3⟩ }, none) ∧
      ({ scriptedService (fun _ => none) with
          pickupLineRepository := databasePickupLineRepository databaseWithHiddenItem } :
        PickupLineService).CanUserSeePickupLine ⟨4⟩ ⟨5⟩ [] =
        (none, [] ++ [.PickupLineRepository_GetPickupLineForVisibilityCheck ⟨4⟩])) :=
  ⟨CanUserSeePickupLine_hidden_item_panics databaseWithHiddenItem
      { scriptedService (fun _ => none) with
        pickupLineRepository := databasePickupLineRepository databaseWithHiddenItem }
      { ID := ⟨4⟩, Title := "The Baker", Visible := false, UserID := ⟨3⟩ } ⟨4⟩ ⟨3⟩ [] rfl
      (by decide) rfl,
    CanUserSeePickupLine_hidden_item_panics databaseWithHiddenItem
      { scriptedService (fun _ => none) with
        pickupLineRepository := databasePickupLineRepository databaseWithHiddenItem }
      { ID := ⟨4⟩, Title := "The Baker", Visible := false, UserID := ⟨3⟩ } ⟨4⟩ ⟨5⟩ [] rfl
      (by decide) rfl⟩

/-- Claim C29, refuted as stated. On a new wrapper, without a scoring function
and with the random score, the first `GetQuery` completes and the second one
fails; so does the second `getRequest` on a new request wrapper. -/
theorem second_GetQuery_fails :
    GetNewQueryWrapper.GetQuery.isSome = true ∧
    GetNewQueryWrapper.GetQuery.bind (fun first => first.2.GetQuery) = none ∧
    (GetNewQueryWrapper.WithRandomScoring.bind QueryWrapper.GetQuery).isSome = true ∧
    (GetNewQueryWrapper.WithRandomScoring.bind QueryWrapper.GetQuery).bind
      (fun first => first.2.GetQuery) = none ∧
    freshWrapper.getRequest.isSome = true ∧
    freshWrapper.getRequest.bind (fun first => first.2.getRequest) = none := by
  decide

/-- Claim C29, amended. For every sequence of registering calls on a new query
wrapper, with or without scoring functions among them, the calls succeed, the
first `GetQuery` completes and the first `getRequest` completes with the query
it returns; on the wrapper they leave, a further `GetQuery` or `getRequest`
fails. -/
theorem GetQuery_once (cs : List QueryCall) (req : search.Request) :
    ∃ q query q1, GetNewQueryWrapper.calls cs = some q ∧ q.GetQuery = some (query, q1) ∧
      SearchRequestWrapper.getRequest { request := req, query := q } =
        some ({ req with Query := some query },
          { request := { req with Query := some query }, query := q1 }) ∧
      q1.GetQuery = none ∧
      SearchRequestWrapper.getRequest
        { request := { req with Query := some query }, query := q1 } = none := by
  have hc := calls_eq cs {} { Functions := [], Query := some {} }
  simp only [List.nil_append] at hc
  have hg : ∃ query q1,
      QueryWrapper.GetQuery
        { query :=
          { Bool := some
              { Filter := registeredFilters cs
                Must := []
                Should := registeredShoulds cs
                MinimumShouldMatch := registeredMinimumShouldMatch none cs }
            FunctionScore := some { Functions := registeredFunctions cs, Query := some {} } } } =
        some (query, q1) := by
    by_cases hf : registeredFunctions cs = []
    · exact ⟨_, _, GetQuery_plain _ { Functions := registeredFunctions cs, Query := some {} } hf⟩
    · exact ⟨_, _, GetQuery_scored _ { Functions := registeredFunctions cs, Query := some {} } {}
        rfl hf⟩
  obtain ⟨query, q1, hg⟩ := hg
  have h2 := GetQuery_twice_fails _ query q1 hg
  refine ⟨_, query, q1, hc, hg, getRequest_eq req _ query q1 hg, h2, ?_⟩
  simp [SearchRequestWrapper.getRequest, h2]

/-- Claim C30. For every requester and filter specification `GetPickupLineFeed`
builds its request and sends it as its first call, and it leaves the filter
object of the caller with the mode `VISIBLE`, whatever mode was supplied. The
query of the request has exactly one visibility clause among the clauses a
document has to match, `visible = true`, and none among its should clauses; so
under every reading of the clauses that takes `visible = b` to hold of the
documents whose `visible` is `b`, no hidden document matches all the clauses it
has to match. -/
theorem feed_visible_only (e : ElasticSearchWrapper) (ITEMS_FOR_PAGE : Int) (userId : uuid.UUID)
    (f : filters.PickupLineQueryFilters) (calls : List Call)
    (matchesClause : types.Clause → ItemDocument → Bool)
    (hMatch : ∀ b doc, matchesClause (visibleClause b) doc = (doc.metadata.visible == b)) :
    ∃ request query made,
      (e.GetPickupLineFeed ITEMS_FOR_PAGE userId f calls).2 =
        calls ++ .TypedClient_Search request :: made ∧
      (e.GetPickupLineFeed ITEMS_FOR_PAGE userId f calls).1.2 =
        { f with Visible := entities.Visible } ∧
      request.Query = some query ∧
      query.requiredClauses.filter isVisibilityClause = [visibleClause true] ∧
      query.shouldClauses.filter isVisibilityClause = [] ∧
      ∀ doc : ItemDocument, doc.metadata.visible = false →
        query.requiredClauses.all (fun clause => matchesClause clause doc) = false := by
  obtain ⟨e1, e2, request, e3, query, h1, h2, h3, hq, hv, hs⟩ :=
    feed_steps ITEMS_FOR_PAGE { f with Visible := entities.Visible } userId rfl
  have hmem : visibleClause true ∈ query.requiredClauses := by
    have : visibleClause true ∈ query.requiredClauses.filter isVisibilityClause := by
      rw [hv]
      exact List.mem_singleton.mpr rfl
    exact (List.mem_filter.mp this).1
  have hsel : ∀ doc : ItemDocument, doc.metadata.visible = false →
      query.requiredClauses.all (fun clause => matchesClause clause doc) = false := by
    intro doc hdoc
    rw [List.all_eq_false]
    exact ⟨visibleClause true, hmem, by simp [hMatch, hdoc]⟩
  unfold ElasticSearchWrapper.GetPickupLineFeed
  simp only [h1, h2, h3]
  rcases hClient : e.client calls request with ⟨res, err⟩
  cases err with
  | some err => refine ⟨request, query, [], ?_, ?_, hq, hv, hs, hsel⟩ <;> simp
  | none =>
    cases res with
    | none => refine ⟨request, query, [], ?_, ?_, hq, hv, hs, hsel⟩ <;> simp
    | some res =>
      obtain ⟨made, hmade⟩ := hydrate_calls e.mapper res userId
        (calls ++ [.TypedClient_Search request])
      refine ⟨request, query, made, ?_, ?_, hq, hv, hs, hsel⟩
      · simp only
        rw [hmade]
        simp
      · simp

/-- Claim C30 at a concrete input: user 3 asks the feed for their own hidden
items. -/
theorem feed_visible_only_witness :
    ∃ request query made,
      ((scriptedWrapper (fun _ => none)).GetPickupLineFeed 10 ⟨3⟩
          { UserId := ⟨3⟩, Visible := entities.NotVisible } []).2 =
        [] ++ .TypedClient_Search request :: made ∧
      ((scriptedWrapper (fun _ => none)).GetPickupLineFeed 10 ⟨3⟩
          { UserId := ⟨3⟩, Visible := entities.NotVisible } []).1.2 =
        { UserId := ⟨3⟩, Visible := entities.Visible } ∧
      request.Query = some query ∧
      query.requiredClauses.filter isVisibilityClause = [visibleClause true] ∧
      query.shouldClauses.filter isVisibilityClause = [] ∧
      ∀ doc : ItemDocument, doc.metadata.visible = false →
        query.requiredClauses.all (fun clause => matchesVisibility clause doc) = false :=
  feed_visible_only (scriptedWrapper (fun _ => none)) 10 ⟨3⟩
    { UserId := ⟨3⟩, Visible := entities.NotVisible } [] matchesVisibility (fun _ _ => rfl)

end playbook
